import Mathlib

/-!
# ESP32-Remote-Peer: configuration store and log manager over the SD card handler

A shallow embedding of `SDCardHandler.cpp`, `ConfigManager.cpp` and
`LogManager.cpp`.
Stateful methods are functions from the state before the call to the return
value and the state after it.  The Arduino `SD` library and the ArduinoJson
codec are external to the repository; the first is given a small explicit model
with injectable faults, the second is a parameter of the development.
-/

set_option autoImplicit false
set_option maxRecDepth 16384

namespace Remote

/-! ## Floating point values -/

/-- A binary32 value as far as the comparisons of the program can tell: not a
number, the two infinities, or a finite value.  Every finite binary32 value is
an integer multiple of 2^-149, and `fin n` stands for `n * 2^-149`. -/
inductive Flt where
  | nan
  | ninf
  | pinf
  | fin (n : Int)
  deriving DecidableEq, Repr

namespace Flt

/-- The C comparison `a <= b` on binary32 values (false as soon as one side is
not a number). -/
def le : Flt → Flt → Bool
  | nan, _ => false
  | _, nan => false
  | ninf, _ => true
  | _, pinf => true
  | pinf, _ => false
  | _, ninf => false
  | fin a, fin b => decide (a ≤ b)

/-- The C comparison `a < b` on binary32 values. -/
def lt : Flt → Flt → Bool
  | nan, _ => false
  | _, nan => false
  | pinf, _ => false
  | _, ninf => false
  | ninf, _ => true
  | _, pinf => true
  | fin a, fin b => decide (a < b)

/-- The C comparison `a > b`. -/
def gt (a b : Flt) : Bool := lt b a

/-- The number of units (of 2^-149) in 1.0, that is 2^149. -/
def one_units : Int := 713623846352979940529142984724747568191373312

/-- The literal `0.0f`. -/
def zero : Flt := fin 0

/-- The literal `2.0f`, that is 2^150 units. -/
def two : Flt := fin (2 * one_units)

/-- Conversion of a C `int` to floating point (exact below 2^24 in magnitude,
which covers every value the claims use). -/
def ofInt (i : Int) : Flt := fin (i * one_units)

end Flt

/-! ## Constants of `config.h` and `ConfigManager.h` -/

def CONFIG_FILE_MAIN : String := "/config_main.json"
def CONFIG_FILE_PEER : String := "/config_peer.json"

def ESPNOW_HEARTBEAT_INTERVAL : Int := 500
def ESPNOW_TIMEOUT_MS : Int := 2000
def ESPNOW_MAIN_DEVICE_MAC : String := "10:20:BA:4D:6C:E4"
def DEBUG_SERIAL : Bool := true

/-- The macro `VOLTAGE_CALIBRATION_FACTOR` is the double literal 0.7; stored in a
binary32 field it is 11744051 / 2^24, that is 11744051 * 2^125 units. -/
def VOLTAGE_CALIBRATION_FACTOR : Flt :=
  Flt.fin (11744051 * 42535295865117307932921825928971026432)

/-- Modelled from the spec: the compiled defaults of the Main profile
(`BACKLIGHT_DEFAULT`, `TOUCH_MIN_X`, ... `JOY_DEADZONE`), which `setDefaults`,
`loadMainConfig` and `validateMainConfig` name but no source file defines.
They are integer macros and are taken as parameters. -/
structure MainDefaults where
  BACKLIGHT_DEFAULT : Int
  TOUCH_MIN_X : Int
  TOUCH_MAX_X : Int
  TOUCH_MIN_Y : Int
  TOUCH_MAX_Y : Int
  TOUCH_THRESHOLD : Int
  JOY_CENTER_X : Int
  JOY_CENTER_Y : Int
  JOY_DEADZONE : Int
  deriving DecidableEq, Repr

/-! ## The two profiles -/

/-- Modelled from the spec: the `MainConfig` record, whose declaration is not
among the sources.  The fields are those `ConfigManager.cpp` reads and writes;
integer fields are mathematical integers (the comparisons of the program are
the mathematical ones for every C integer type), the calibration factor is a
binary32 value and the MAC address is the C string held in an 18 byte buffer. -/
structure MainConfig where
  backlightDefault : Int
  touchMinX : Int
  touchMaxX : Int
  touchMinY : Int
  touchMaxY : Int
  touchThreshold : Int
  joystickCenterX : Int
  joystickCenterY : Int
  joystickDeadzone : Int
  espnowPeerMAC : String
  espnowHeartbeatInterval : Int
  espnowTimeout : Int
  batteryCalibration : Flt
  debugSerialEnabled : Bool
  deriving DecidableEq, Repr

/-- Modelled from the spec: the `PeerConfig` record, whose declaration is not
among the sources; same conventions as `MainConfig`. -/
structure PeerConfig where
  espnowMainMAC : String
  espnowTimeout : Int
  batteryCalibration : Flt
  debugSerialEnabled : Bool
  deriving DecidableEq, Repr

/-- The first `n` characters of a string (all of it when it is shorter). -/
def firstChars (s : String) (n : Nat) : String := String.mk (s.data.take n)

/-- The effect of `strncpy(dst, src, n); dst[n] = 0` on the C string in `dst`,
for a source of one-byte characters: the first `n` characters of `src`.  The
copy itself goes by bytes, see `strncpyBytes`; on a text of ASCII characters the
two agree, and the statements about a text taken from a document carry that
condition. -/
def strncpy (src : String) (n : Nat) : String := firstChars src n

/-- The bytes of a C string that holds the text `s`, without the terminator:
the UTF-8 encoding. -/
def cBytes (s : String) : List Nat :=
  s.data.flatMap (fun c => (String.utf8EncodeChar c).map UInt8.toNat)

/-- The effect of `strncpy(dst, src, n); dst[n] = 0` on the bytes of the C
string in `dst`: the source ends at its first zero byte, and of that the first
`n` bytes are copied. -/
def strncpyBytes (src : List Nat) (n : Nat) : List Nat :=
  (src.takeWhile (fun b => b != 0)).take n

/-! ## The structured-document codec (ArduinoJson, external) -/

/-- A member value of a JSON document, as far as typed access distinguishes. -/
inductive JsonValue where
  | null
  | bool (b : Bool)
  | int (i : Int)
  | float (f : Flt)
  | str (s : String)
  deriving DecidableEq, Repr

namespace JsonValue

/-- Typed access `is<int>()` / `as<int>()`: an integer that fits a 32 bit `int`. -/
def asInt : JsonValue → Option Int
  | int i => if -2147483648 ≤ i ∧ i ≤ 2147483647 then some i else none
  | _ => none

/-- Typed access `is<double>()` / `as<double>()`: any number, integers included. -/
def asFloat : JsonValue → Option Flt
  | float f => some f
  | int i => some (Flt.ofInt i)
  | _ => none

/-- Typed access `is<bool>()` / `as<bool>()`. -/
def asBool : JsonValue → Option Bool
  | bool b => some b
  | _ => none

/-- Typed access `is<const char*>()` / `as<const char*>()`. -/
def asStr : JsonValue → Option String
  | str s => some s
  | _ => none

end JsonValue

/-- A JSON document: the members of its root object, in order. -/
abbrev JsonDocument := List (String × JsonValue)

namespace JsonDocument

/-- The member access `doc[key]`; a missing member reads as null. -/
def get (doc : JsonDocument) (key : String) : JsonValue :=
  (doc.lookup key).getD JsonValue.null

/-- The assignment `doc[key] = v`: replaces the member or adds it at the end. -/
def set : JsonDocument → String → JsonValue → JsonDocument
  | [], key, v => [(key, v)]
  | (k, w) :: rest, key, v =>
    if k = key then (k, v) :: rest else (k, w) :: set rest key v

/-- The expression `doc[key] | dflt` with a default of C type `int`. -/
def orInt (doc : JsonDocument) (key : String) (dflt : Int) : Int :=
  ((doc.get key).asInt).getD dflt

/-- The expression `doc[key] | dflt` with a default of C type `double`. -/
def orFloat (doc : JsonDocument) (key : String) (dflt : Flt) : Flt :=
  ((doc.get key).asFloat).getD dflt

/-- The expression `doc[key] | dflt` with a default of C type `bool`. -/
def orBool (doc : JsonDocument) (key : String) (dflt : Bool) : Bool :=
  ((doc.get key).asBool).getD dflt

/-- The expression `doc[key] | dflt` with a default of C type `const char*`. -/
def orStr (doc : JsonDocument) (key : String) (dflt : String) : String :=
  ((doc.get key).asStr).getD dflt

end JsonDocument

/-- The text side of the codec: `deserializeJson` (none on a parse error) and
`serializeJsonPretty`.  Both belong to the external library and are parameters. -/
structure JsonCodec where
  deserializeJson : String → Option JsonDocument
  serializeJsonPretty : JsonDocument → String

/-! ## The Arduino `SD` library (external) -/

/-- The three modes `SD.open` is called with. -/
inductive OpenMode where
  | FILE_READ
  | FILE_WRITE
  | FILE_APPEND
  deriving DecidableEq, Repr

/-- The card as the `SD` library presents it: the files with their contents,
and the faults of the medium.  `denied` lists the opens the driver refuses,
`pinned` the paths it refuses to remove or rename, and `quota` is the number of
characters a single `print` transfers at most (0 for a medium that takes no
data, a small number for a card that runs full).  `dirs` lists the directories,
`totalBytes` and `usedBytes` are the two capacity readings. -/
structure SDClass where
  files : List (String × String)
  denied : List (String × OpenMode)
  pinned : List String
  quota : Nat
  dirs : List String := []
  totalBytes : Nat := 0
  usedBytes : Nat := 0
  deriving DecidableEq, Repr

namespace SDClass

/-- The files with `path` bound to `content`. -/
def store (files : List (String × String)) (path content : String) :
    List (String × String) :=
  (path, content) :: files.filter (fun e => e.1 != path)

/-- The files without `path`. -/
def erase (files : List (String × String)) (path : String) : List (String × String) :=
  files.filter (fun e => e.1 != path)

/-- The call `SD.exists(path)`. -/
def exists_ (sd : SDClass) (path : String) : Bool := (sd.files.lookup path).isSome

/-- The call `SD.open(path, FILE_READ)`: the content the handle reads, none for
an invalid handle. -/
def openRead (sd : SDClass) (path : String) : Option String :=
  if (path, OpenMode.FILE_READ) ∈ sd.denied then none else sd.files.lookup path

/-- The call `SD.open(path, FILE_WRITE)`: creates the file or truncates it; none
for an invalid handle. -/
def openWrite (sd : SDClass) (path : String) : Option SDClass :=
  if (path, OpenMode.FILE_WRITE) ∈ sd.denied then none
  else some { sd with files := store sd.files path "" }

/-- The call `SD.open(path, FILE_APPEND)`: creates the file when it is missing
and keeps its content otherwise; none for an invalid handle. -/
def openAppend (sd : SDClass) (path : String) : Option SDClass :=
  if (path, OpenMode.FILE_APPEND) ∈ sd.denied then none
  else some { sd with files := store sd.files path ((sd.files.lookup path).getD "") }

/-- The call `file.print(data)` on a handle positioned at the end of `path`:
the number of characters written and the card afterwards. -/
def print (sd : SDClass) (path data : String) : Nat × SDClass :=
  let chunk := firstChars data sd.quota
  (chunk.length,
    { sd with files := store sd.files path ((sd.files.lookup path).getD "" ++ chunk) })

/-- The call `SD.remove(path)`. -/
def remove (sd : SDClass) (path : String) : Bool × SDClass :=
  if path ∈ sd.pinned ∨ sd.exists_ path = false then (false, sd)
  else (true, { sd with files := erase sd.files path })

/-- The call `SD.rename(oldPath, newPath)`; the FAT driver refuses an existing
target. -/
def rename (sd : SDClass) (oldPath newPath : String) : Bool × SDClass :=
  match sd.files.lookup oldPath with
  | none => (false, sd)
  | some content =>
    if oldPath ∈ sd.pinned ∨ sd.exists_ newPath = true then (false, sd)
    else (true, { sd with files := store (erase sd.files oldPath) newPath content })

end SDClass

/-! ## `SDCardHandler.cpp` -/

/-- The handler: the mount flag and the card behind it. -/
structure SDCardHandler where
  mounted : Bool
  SD : SDClass
  deriving DecidableEq, Repr

namespace SDCardHandler

/-- `SDCardHandler::isAvailable`. -/
def isAvailable (h : SDCardHandler) : Bool := h.mounted

/-- `SDCardHandler::end`. -/
def end_ (h : SDCardHandler) : SDCardHandler := { h with mounted := false }

/-- `SDCardHandler::writeFile`. -/
def writeFile (h : SDCardHandler) (path data : String) : Bool × SDCardHandler :=
  if !h.mounted then (false, h)
  else
    match h.SD.openWrite path with
    | none => (false, h)
    | some sd1 =>
      let r := sd1.print path data
      (decide (r.1 > 0), { h with SD := r.2 })

/-- `SDCardHandler::appendFile`. -/
def appendFile (h : SDCardHandler) (path data : String) : Bool × SDCardHandler :=
  if !h.mounted then (false, h)
  else
    match h.SD.openAppend path with
    | none => (false, h)
    | some sd1 =>
      let r := sd1.print path data
      (decide (r.1 > 0), { h with SD := r.2 })

/-- `SDCardHandler::appendLine`. -/
def appendLine (h : SDCardHandler) (path line : String) : Bool × SDCardHandler :=
  let lineWithNewline := line ++ "\n"
  appendFile h path lineWithNewline

/-- `SDCardHandler::readFileAsString`. -/
def readFileAsString (h : SDCardHandler) (path : String) : String :=
  if !h.mounted then ""
  else
    match h.SD.openRead path with
    | none => ""
    | some content => content

/-- `SDCardHandler::deleteFile`. -/
def deleteFile (h : SDCardHandler) (path : String) : Bool × SDCardHandler :=
  if !h.mounted then (false, h)
  else if !h.SD.exists_ path then (false, h)
  else
    let r := h.SD.remove path
    (r.1, { h with SD := r.2 })

/-- `SDCardHandler::renameFile`. -/
def renameFile (h : SDCardHandler) (oldPath newPath : String) : Bool × SDCardHandler :=
  if !h.mounted then (false, h)
  else if !h.SD.exists_ oldPath then (false, h)
  else
    let r := h.SD.rename oldPath newPath
    (r.1, { h with SD := r.2 })

/-- `SDCardHandler::fileExists`. -/
def fileExists (h : SDCardHandler) (path : String) : Bool :=
  if !h.mounted then false else h.SD.exists_ path

/-- `SDCardHandler::getFileSize`. -/
def getFileSize (h : SDCardHandler) (path : String) : Nat :=
  if !h.mounted then 0
  else
    match h.SD.openRead path with
    | none => 0
    | some content => content.utf8ByteSize

end SDCardHandler

/-! ## `ConfigManager.cpp` -/

/-- The members of `ConfigManager` other than the reference to the handler,
which is passed alongside. -/
structure ConfigManager where
  isPeer : Bool
  mainConfig : MainConfig
  peerConfig : PeerConfig
  deriving DecidableEq, Repr

namespace ConfigManager

/-- The Main branch of `ConfigManager::setDefaults`. -/
def mainDefaults (K : MainDefaults) : MainConfig :=
  { backlightDefault := K.BACKLIGHT_DEFAULT
    touchMinX := K.TOUCH_MIN_X
    touchMaxX := K.TOUCH_MAX_X
    touchMinY := K.TOUCH_MIN_Y
    touchMaxY := K.TOUCH_MAX_Y
    touchThreshold := K.TOUCH_THRESHOLD
    joystickCenterX := K.JOY_CENTER_X
    joystickCenterY := K.JOY_CENTER_Y
    joystickDeadzone := K.JOY_DEADZONE
    espnowPeerMAC := strncpy "00:00:00:00:00:00" 17
    espnowHeartbeatInterval := ESPNOW_HEARTBEAT_INTERVAL
    espnowTimeout := ESPNOW_TIMEOUT_MS
    batteryCalibration := VOLTAGE_CALIBRATION_FACTOR
    debugSerialEnabled := DEBUG_SERIAL }

/-- The Peer branch of `ConfigManager::setDefaults`. -/
def peerDefaults : PeerConfig :=
  { espnowMainMAC := strncpy ESPNOW_MAIN_DEVICE_MAC 17
    espnowTimeout := ESPNOW_TIMEOUT_MS
    batteryCalibration := VOLTAGE_CALIBRATION_FACTOR
    debugSerialEnabled := DEBUG_SERIAL }

/-- `ConfigManager::setDefaults`: only the profile selected at construction is
assigned. -/
def setDefaults (K : MainDefaults) (cm : ConfigManager) : ConfigManager :=
  if cm.isPeer then { cm with peerConfig := peerDefaults }
  else { cm with mainConfig := mainDefaults K }

/-- The assignments of `loadMainConfig` after a successful parse. -/
def mainOfDoc (K : MainDefaults) (doc : JsonDocument) : MainConfig :=
  { backlightDefault := doc.orInt "backlight_default" K.BACKLIGHT_DEFAULT
    touchMinX := doc.orInt "touch_min_x" K.TOUCH_MIN_X
    touchMaxX := doc.orInt "touch_max_x" K.TOUCH_MAX_X
    touchMinY := doc.orInt "touch_min_y" K.TOUCH_MIN_Y
    touchMaxY := doc.orInt "touch_max_y" K.TOUCH_MAX_Y
    touchThreshold := doc.orInt "touch_threshold" K.TOUCH_THRESHOLD
    joystickCenterX := doc.orInt "joystick_center_x" K.JOY_CENTER_X
    joystickCenterY := doc.orInt "joystick_center_y" K.JOY_CENTER_Y
    joystickDeadzone := doc.orInt "joystick_deadzone" K.JOY_DEADZONE
    espnowPeerMAC := strncpy (doc.orStr "espnow_peer_mac" "00:00:00:00:00:00") 17
    espnowHeartbeatInterval := doc.orInt "espnow_heartbeat" ESPNOW_HEARTBEAT_INTERVAL
    espnowTimeout := doc.orInt "espnow_timeout" ESPNOW_TIMEOUT_MS
    batteryCalibration := doc.orFloat "battery_calibration" VOLTAGE_CALIBRATION_FACTOR
    debugSerialEnabled := doc.orBool "debug_serial" DEBUG_SERIAL }

/-- `ConfigManager::loadMainConfig`. -/
def loadMainConfig (codec : JsonCodec) (K : MainDefaults) (cm : ConfigManager)
    (sd : SDCardHandler) : Bool × ConfigManager :=
  if !sd.fileExists CONFIG_FILE_MAIN then (false, cm)
  else
    let jsonStr := sd.readFileAsString CONFIG_FILE_MAIN
    if jsonStr.isEmpty then (false, cm)
    else
      match codec.deserializeJson jsonStr with
      | none => (false, cm)
      | some doc => (true, { cm with mainConfig := mainOfDoc K doc })

/-- The document `saveMainConfig` builds. -/
def docOfMain (c : MainConfig) : JsonDocument :=
  let doc : JsonDocument := []
  let doc := doc.set "backlight_default" (JsonValue.int c.backlightDefault)
  let doc := doc.set "touch_min_x" (JsonValue.int c.touchMinX)
  let doc := doc.set "touch_max_x" (JsonValue.int c.touchMaxX)
  let doc := doc.set "touch_min_y" (JsonValue.int c.touchMinY)
  let doc := doc.set "touch_max_y" (JsonValue.int c.touchMaxY)
  let doc := doc.set "touch_threshold" (JsonValue.int c.touchThreshold)
  let doc := doc.set "joystick_center_x" (JsonValue.int c.joystickCenterX)
  let doc := doc.set "joystick_center_y" (JsonValue.int c.joystickCenterY)
  let doc := doc.set "joystick_deadzone" (JsonValue.int c.joystickDeadzone)
  let doc := doc.set "espnow_peer_mac" (JsonValue.str c.espnowPeerMAC)
  let doc := doc.set "espnow_heartbeat" (JsonValue.int c.espnowHeartbeatInterval)
  let doc := doc.set "espnow_timeout" (JsonValue.int c.espnowTimeout)
  let doc := doc.set "battery_calibration" (JsonValue.float c.batteryCalibration)
  let doc := doc.set "debug_serial" (JsonValue.bool c.debugSerialEnabled)
  doc

/-- `ConfigManager::saveMainConfig`. -/
def saveMainConfig (codec : JsonCodec) (cm : ConfigManager) (sd : SDCardHandler) :
    Bool × SDCardHandler :=
  let jsonStr := codec.serializeJsonPretty (docOfMain cm.mainConfig)
  sd.writeFile CONFIG_FILE_MAIN jsonStr

/-- `ConfigManager::validateMainConfig`: the four checks in order, each
resetting its own fields and clearing the flag. -/
def validateMainConfig (K : MainDefaults) (c : MainConfig) : Bool × MainConfig :=
  let valid := true
  let s1 : Bool × MainConfig :=
    if c.backlightDefault > 255 then
      (false, { c with backlightDefault := K.BACKLIGHT_DEFAULT })
    else (valid, c)
  let s2 : Bool × MainConfig :=
    if s1.2.touchMinX ≥ s1.2.touchMaxX ∨ s1.2.touchMinY ≥ s1.2.touchMaxY then
      (false, { s1.2 with
        touchMinX := K.TOUCH_MIN_X
        touchMaxX := K.TOUCH_MAX_X
        touchMinY := K.TOUCH_MIN_Y
        touchMaxY := K.TOUCH_MAX_Y })
    else s1
  let s3 : Bool × MainConfig :=
    if s2.2.espnowTimeout < 1000 ∨ s2.2.espnowTimeout > 30000 then
      (false, { s2.2 with espnowTimeout := ESPNOW_TIMEOUT_MS })
    else s2
  let s4 : Bool × MainConfig :=
    if Flt.le s3.2.batteryCalibration Flt.zero || Flt.gt s3.2.batteryCalibration Flt.two then
      (false, { s3.2 with batteryCalibration := VOLTAGE_CALIBRATION_FACTOR })
    else s3
  s4

/-- The assignments of `loadPeerConfig` after a successful parse. -/
def peerOfDoc (doc : JsonDocument) : PeerConfig :=
  { espnowMainMAC := strncpy (doc.orStr "espnow_main_mac" ESPNOW_MAIN_DEVICE_MAC) 17
    espnowTimeout := doc.orInt "espnow_timeout" ESPNOW_TIMEOUT_MS
    batteryCalibration := doc.orFloat "battery_calibration" VOLTAGE_CALIBRATION_FACTOR
    debugSerialEnabled := doc.orBool "debug_serial" DEBUG_SERIAL }

/-- `ConfigManager::loadPeerConfig`. -/
def loadPeerConfig (codec : JsonCodec) (cm : ConfigManager) (sd : SDCardHandler) :
    Bool × ConfigManager :=
  if !sd.fileExists CONFIG_FILE_PEER then (false, cm)
  else
    let jsonStr := sd.readFileAsString CONFIG_FILE_PEER
    if jsonStr.isEmpty then (false, cm)
    else
      match codec.deserializeJson jsonStr with
      | none => (false, cm)
      | some doc => (true, { cm with peerConfig := peerOfDoc doc })

/-- The document `savePeerConfig` builds. -/
def docOfPeer (c : PeerConfig) : JsonDocument :=
  let doc : JsonDocument := []
  let doc := doc.set "espnow_main_mac" (JsonValue.str c.espnowMainMAC)
  let doc := doc.set "espnow_timeout" (JsonValue.int c.espnowTimeout)
  let doc := doc.set "battery_calibration" (JsonValue.float c.batteryCalibration)
  let doc := doc.set "debug_serial" (JsonValue.bool c.debugSerialEnabled)
  doc

/-- `ConfigManager::savePeerConfig`. -/
def savePeerConfig (codec : JsonCodec) (cm : ConfigManager) (sd : SDCardHandler) :
    Bool × SDCardHandler :=
  let jsonStr := codec.serializeJsonPretty (docOfPeer cm.peerConfig)
  sd.writeFile CONFIG_FILE_PEER jsonStr

/-- `ConfigManager::validatePeerConfig`. -/
def validatePeerConfig (c : PeerConfig) : Bool × PeerConfig :=
  let valid := true
  let s1 : Bool × PeerConfig :=
    if c.espnowTimeout < 1000 ∨ c.espnowTimeout > 30000 then
      (false, { c with espnowTimeout := ESPNOW_TIMEOUT_MS })
    else (valid, c)
  let s2 : Bool × PeerConfig :=
    if Flt.le s1.2.batteryCalibration Flt.zero || Flt.gt s1.2.batteryCalibration Flt.two then
      (false, { s1.2 with batteryCalibration := VOLTAGE_CALIBRATION_FACTOR })
    else s1
  s2

/-- `ConfigManager::load`. -/
def load (codec : JsonCodec) (K : MainDefaults) (cm : ConfigManager)
    (sd : SDCardHandler) : Bool × ConfigManager :=
  if !sd.isAvailable then (false, cm)
  else if cm.isPeer then loadPeerConfig codec cm sd
  else loadMainConfig codec K cm sd

/-- `ConfigManager::save`. -/
def save (codec : JsonCodec) (cm : ConfigManager) (sd : SDCardHandler) :
    Bool × SDCardHandler :=
  if !sd.isAvailable then (false, sd)
  else if cm.isPeer then savePeerConfig codec cm sd
  else saveMainConfig codec cm sd

/-- `ConfigManager::validate`. -/
def validate (K : MainDefaults) (cm : ConfigManager) : Bool × ConfigManager :=
  if cm.isPeer then
    let r := validatePeerConfig cm.peerConfig
    (r.1, { cm with peerConfig := r.2 })
  else
    let r := validateMainConfig K cm.mainConfig
    (r.1, { cm with mainConfig := r.2 })

/-- `ConfigManager::begin`: the return value, the members and the handler
afterwards. -/
def begin (codec : JsonCodec) (K : MainDefaults) (cm : ConfigManager)
    (sd : SDCardHandler) : Bool × ConfigManager × SDCardHandler :=
  let l := load codec K cm sd
  if l.1 then
    let v := validate K l.2
    if v.1 then (true, v.2, sd)
    else
      let cm1 := setDefaults K v.2
      let s := save codec cm1 sd
      (true, cm1, s.2)
  else
    let cm1 := setDefaults K l.2
    let s := save codec cm1 sd
    (true, cm1, s.2)

/-- `ConfigManager::getMain`. -/
def getMain (cm : ConfigManager) : MainConfig := cm.mainConfig

/-- `ConfigManager::getPeer`. -/
def getPeer (cm : ConfigManager) : PeerConfig := cm.peerConfig

end ConfigManager

/-! ## The validation predicates of the specification -/

namespace Flt

/-- The predicate `0 < f ≤ 2.0` on a calibration factor; a value that is not a
finite number does not satisfy it. -/
def inRange : Flt → Prop
  | fin n => 0 < n ∧ n ≤ 2 * one_units
  | _ => False

instance : DecidablePred inRange := fun f => by
  cases f <;> unfold inRange <;> infer_instance

end Flt

/-- Every validation predicate of the Main profile. -/
def MainValid (c : MainConfig) : Prop :=
  c.backlightDefault ≤ 255 ∧ c.touchMinX < c.touchMaxX ∧ c.touchMinY < c.touchMaxY ∧
    (1000 ≤ c.espnowTimeout ∧ c.espnowTimeout ≤ 30000) ∧ c.batteryCalibration.inRange

instance : DecidablePred MainValid := fun c => by
  unfold MainValid; infer_instance

/-- Every validation predicate of the Peer profile. -/
def PeerValid (c : PeerConfig) : Prop :=
  (1000 ≤ c.espnowTimeout ∧ c.espnowTimeout ≤ 30000) ∧ c.batteryCalibration.inRange

instance : DecidablePred PeerValid := fun c => by
  unfold PeerValid; infer_instance

/-- The predicates of the profile selected at construction. -/
def ProfileValid (cm : ConfigManager) : Prop :=
  if cm.isPeer then PeerValid cm.peerConfig else MainValid cm.mainConfig

instance : DecidablePred ProfileValid := fun cm => by
  unfold ProfileValid; infer_instance

/-! ## Names used in the statements -/

/-- The file of the profile selected at construction. -/
def configFile (isPeer : Bool) : String :=
  if isPeer then CONFIG_FILE_PEER else CONFIG_FILE_MAIN

/-- The members after the field assignments of a successful load. -/
def ConfigManager.withDoc (K : MainDefaults) (cm : ConfigManager) (doc : JsonDocument) :
    ConfigManager :=
  if cm.isPeer then { cm with peerConfig := ConfigManager.peerOfDoc doc }
  else { cm with mainConfig := ConfigManager.mainOfDoc K doc }

/-- The document `save` serializes. -/
def ConfigManager.docOf (cm : ConfigManager) : JsonDocument :=
  if cm.isPeer then ConfigManager.docOfPeer cm.peerConfig
  else ConfigManager.docOfMain cm.mainConfig

/-- The calibration factor of the profile selected at construction. -/
def ConfigManager.calibration (cm : ConfigManager) : Flt :=
  if cm.isPeer then cm.peerConfig.batteryCalibration else cm.mainConfig.batteryCalibration

/-- A value of C type `int` (32 bits). -/
def fitsInt (i : Int) : Prop := -2147483648 ≤ i ∧ i ≤ 2147483647

instance : DecidablePred fitsInt := fun i => by unfold fitsInt; infer_instance

/-- A Main profile its record can hold and typed access can return: every
integer field is a C `int` and the MAC address fits its 18 byte buffer. -/
def MainConfig.Storable (c : MainConfig) : Prop :=
  fitsInt c.backlightDefault ∧ fitsInt c.touchMinX ∧ fitsInt c.touchMaxX ∧
    fitsInt c.touchMinY ∧ fitsInt c.touchMaxY ∧ fitsInt c.touchThreshold ∧
    fitsInt c.joystickCenterX ∧ fitsInt c.joystickCenterY ∧ fitsInt c.joystickDeadzone ∧
    fitsInt c.espnowHeartbeatInterval ∧ fitsInt c.espnowTimeout ∧
    c.espnowPeerMAC.length ≤ 17

instance : DecidablePred MainConfig.Storable := fun c => by
  unfold MainConfig.Storable; infer_instance

/-- A Peer profile its record can hold and typed access can return. -/
def PeerConfig.Storable (c : PeerConfig) : Prop :=
  fitsInt c.espnowTimeout ∧ c.espnowMainMAC.length ≤ 17

instance : DecidablePred PeerConfig.Storable := fun c => by
  unfold PeerConfig.Storable; infer_instance

/-- The selected profile is storable. -/
def ConfigManager.Storable (cm : ConfigManager) : Prop :=
  if cm.isPeer then cm.peerConfig.Storable else cm.mainConfig.Storable

instance : DecidablePred ConfigManager.Storable := fun cm => by
  unfold ConfigManager.Storable; infer_instance

/-- The profile selected at construction is the same in two stores. -/
def ConfigManager.SameProfile (a b : ConfigManager) : Prop :=
  a.isPeer = b.isPeer ∧
    if a.isPeer then a.peerConfig = b.peerConfig else a.mainConfig = b.mainConfig

instance (a b : ConfigManager) : Decidable (ConfigManager.SameProfile a b) := by
  unfold ConfigManager.SameProfile; infer_instance

/-- The card takes `text` under `path` in full: the driver opens the path for
writing and a single transfer carries the whole text. -/
def SDCardHandler.Accepts (sd : SDCardHandler) (path text : String) : Prop :=
  (path, OpenMode.FILE_WRITE) ∉ sd.SD.denied ∧ text.length ≤ sd.SD.quota

instance (sd : SDCardHandler) (path text : String) : Decidable (sd.Accepts path text) := by
  unfold SDCardHandler.Accepts; infer_instance

/-- A write of `text` to `path` succeeds and can be read back: the card takes
the text in full, the text is not empty (so that `writeFile` reports success)
and the driver opens the path for reading. -/
def SDCardHandler.Stores (sd : SDCardHandler) (path text : String) : Prop :=
  sd.Accepts path text ∧ text ≠ "" ∧ (path, OpenMode.FILE_READ) ∉ sd.SD.denied

instance (sd : SDCardHandler) (path text : String) : Decidable (sd.Stores path text) := by
  unfold SDCardHandler.Stores; infer_instance

/-- Parse undoes serialize on the document `doc`. -/
def JsonCodec.Inverts (codec : JsonCodec) (doc : JsonDocument) : Prop :=
  codec.deserializeJson (codec.serializeJsonPretty doc) = some doc

instance (codec : JsonCodec) (doc : JsonDocument) : Decidable (codec.Inverts doc) := by
  unfold JsonCodec.Inverts; infer_instance

/-! ## Concrete data for the closed statements -/

/-- A codec given by a finite table of texts and the documents they stand for. -/
def tableCodec (table : List (String × JsonDocument)) : JsonCodec :=
  { deserializeJson := fun s => table.lookup s
    serializeJsonPretty := fun d =>
      ((table.find? (fun e => e.2 == d)).map Prod.fst).getD "null" }

/-- A choice of the Main defaults that no source file fixes. -/
def sampleDefaults : MainDefaults :=
  { BACKLIGHT_DEFAULT := 128
    TOUCH_MIN_X := 200
    TOUCH_MAX_X := 3800
    TOUCH_MIN_Y := 240
    TOUCH_MAX_Y := 3900
    TOUCH_THRESHOLD := 600
    JOY_CENTER_X := 2048
    JOY_CENTER_Y := 2048
    JOY_DEADZONE := 100 }

/-- A card without files and without faults. -/
def blankCard : SDClass :=
  { files := [], denied := [], pinned := [], quota := 4096 }

/-- A Peer store whose profile was edited after construction. -/
def editedPeer : ConfigManager :=
  { isPeer := true
    mainConfig := ConfigManager.mainDefaults sampleDefaults
    peerConfig :=
      { espnowMainMAC := "AA:BB:CC:DD:EE:FF"
        espnowTimeout := 5000
        batteryCalibration := Flt.ofInt 1
        debugSerialEnabled := false } }

/-- A Main store whose profile was edited after construction. -/
def editedMain : ConfigManager :=
  { isPeer := false
    mainConfig := { ConfigManager.mainDefaults sampleDefaults with backlightDefault := 100 }
    peerConfig := ConfigManager.peerDefaults }


/-- The text of a Peer file that sets only an out-of-range timeout. -/
def peerText99999 : String := "\x7b\"espnow_timeout\": 99999\x7d"

/-- The document the text `peerText99999` stands for. -/
def peerDoc99999 : JsonDocument := [("espnow_timeout", JsonValue.int 99999)]

/-- The text of a Peer file with a foreign MAC address and an out-of-range
timeout. -/
def peerTextMac : String :=
  "\x7b\"espnow_main_mac\": \"AA:BB:CC:DD:EE:FF\", \"espnow_timeout\": 99999\x7d"

/-- The document the text `peerTextMac` stands for. -/
def peerDocMac : JsonDocument :=
  [("espnow_main_mac", JsonValue.str "AA:BB:CC:DD:EE:FF"), ("espnow_timeout", JsonValue.int 99999)]

/-- The text of a Main file with a valid backlight and an out-of-range timeout. -/
def mainTextBacklight : String :=
  "\x7b\"backlight_default\": 100, \"espnow_timeout\": 99999\x7d"

/-- The document the text `mainTextBacklight` stands for. -/
def mainDocBacklight : JsonDocument :=
  [("backlight_default", JsonValue.int 100), ("espnow_timeout", JsonValue.int 99999)]

/-- A text for the serialized Peer defaults. -/
def peerDefaultsText : String :=
  "\x7b\"espnow_main_mac\": \"10:20:BA:4D:6C:E4\", \"espnow_timeout\": 2000, " ++
    "\"battery_calibration\": 0.7, \"debug_serial\": true\x7d"

/-- A text for the serialized Main defaults of `sampleDefaults`. -/
def mainDefaultsText : String :=
  "\x7b\"backlight_default\": 128, \"touch_min_x\": 200, \"touch_max_x\": 3800, " ++
    "\"touch_min_y\": 240, \"touch_max_y\": 3900, \"touch_threshold\": 600, " ++
    "\"joystick_center_x\": 2048, \"joystick_center_y\": 2048, " ++
    "\"joystick_deadzone\": 100, \"espnow_peer_mac\": \"00:00:00:00:00:00\", " ++
    "\"espnow_heartbeat\": 500, \"espnow_timeout\": 2000, " ++
    "\"battery_calibration\": 0.7, \"debug_serial\": true\x7d"

/-- A text for the serialized profile of `editedMain`. -/
def editedMainText : String :=
  "\x7b\"backlight_default\": 100, \"touch_min_x\": 200, \"touch_max_x\": 3800, " ++
    "\"touch_min_y\": 240, \"touch_max_y\": 3900, \"touch_threshold\": 600, " ++
    "\"joystick_center_x\": 2048, \"joystick_center_y\": 2048, " ++
    "\"joystick_deadzone\": 100, \"espnow_peer_mac\": \"00:00:00:00:00:00\", " ++
    "\"espnow_heartbeat\": 500, \"espnow_timeout\": 2000, " ++
    "\"battery_calibration\": 0.7, \"debug_serial\": true\x7d"

/-- A text for the serialized profile of `editedPeer`. -/
def editedPeerText : String :=
  "\x7b\"espnow_main_mac\": \"AA:BB:CC:DD:EE:FF\", \"espnow_timeout\": 5000, " ++
    "\"battery_calibration\": 1.0, \"debug_serial\": false\x7d"

/-- A codec that knows the texts above. -/
def sampleCodec : JsonCodec :=
  tableCodec
    [(peerText99999, peerDoc99999), (peerTextMac, peerDocMac),
      (mainTextBacklight, mainDocBacklight),
      (peerDefaultsText, ConfigManager.docOfPeer ConfigManager.peerDefaults),
      (mainDefaultsText, ConfigManager.docOfMain (ConfigManager.mainDefaults sampleDefaults)),
      (editedMainText, ConfigManager.docOfMain editedMain.mainConfig),
      (editedPeerText, ConfigManager.docOfPeer editedPeer.peerConfig)]

/-- A mounted handler over a card that holds one file and has no faults. -/
def cardWith (path content : String) : SDCardHandler :=
  { mounted := true, SD := { blankCard with files := [(path, content)] } }

/-- A Peer store as constructed. -/
def freshPeer : ConfigManager :=
  { isPeer := true
    mainConfig := ConfigManager.mainDefaults sampleDefaults
    peerConfig := ConfigManager.peerDefaults }

/-- A Main store as constructed. -/
def freshMain : ConfigManager :=
  { isPeer := false
    mainConfig := ConfigManager.mainDefaults sampleDefaults
    peerConfig := ConfigManager.peerDefaults }

/-- A Peer store whose calibration factor was set to NaN through `getPeer`. -/
def nanPeer : ConfigManager :=
  { freshPeer with
    peerConfig := { ConfigManager.peerDefaults with batteryCalibration := Flt.nan } }

/-- A Main store whose calibration factor was set to NaN through `getMain`. -/
def nanMain : ConfigManager :=
  { freshMain with
    mainConfig :=
      { ConfigManager.mainDefaults sampleDefaults with batteryCalibration := Flt.nan } }

/-! ## `SDCardHandler.cpp`, the remaining operations -/

namespace SDClass

/-- The call `SD.mkdir(path)`: true for a directory that exists already, false
for a path that is a file or that the driver refuses. -/
def mkdir (sd : SDClass) (path : String) : Bool × SDClass :=
  if path ∈ sd.dirs then (true, sd)
  else if sd.exists_ path = true ∨ path ∈ sd.pinned then (false, sd)
  else (true, { sd with dirs := path :: sd.dirs })

/-- The call `SD.rmdir(path)` (that the directory be empty is not modelled). -/
def rmdir (sd : SDClass) (path : String) : Bool × SDClass :=
  if path ∈ sd.dirs ∧ path ∉ sd.pinned then
    (true, { sd with dirs := sd.dirs.filter (fun d => d != path) })
  else (false, sd)

end SDClass

namespace SDCardHandler

/-- `SDCardHandler::getFreeSpace`; the subtraction is that of `uint64_t`. -/
def getFreeSpace (h : SDCardHandler) : Nat :=
  if !h.mounted then 0
  else (h.SD.totalBytes % 2 ^ 64 + 2 ^ 64 - h.SD.usedBytes % 2 ^ 64) % 2 ^ 64

/-- `SDCardHandler::getTotalSpace`. -/
def getTotalSpace (h : SDCardHandler) : Nat :=
  if !h.mounted then 0 else h.SD.totalBytes % 2 ^ 64

/-- `SDCardHandler::getUsedSpace`. -/
def getUsedSpace (h : SDCardHandler) : Nat :=
  if !h.mounted then 0 else h.SD.usedBytes % 2 ^ 64

/-- The conversion of a `size_t` to the `int` a function returns (32 bits, two's
complement). -/
def sizeToInt (n : Nat) : Int :=
  if n % 4294967296 < 2147483648 then Int.ofNat (n % 4294967296)
  else Int.ofNat (n % 4294967296) - 4294967296

/-- `SDCardHandler::readFile` into a buffer that is not null: the return value
and the bytes the call places in the buffer (none when it places nothing). -/
def readFile (h : SDCardHandler) (path : String) (maxLen : Nat) :
    Int × Option (List Nat) :=
  if !h.mounted then (-1, none)
  else
    match h.SD.openRead path with
    | none => (-1, none)
    | some content =>
      let len := if content.utf8ByteSize > maxLen then maxLen else content.utf8ByteSize
      let bytesRead := (cBytes content).take len
      (sizeToInt bytesRead.length, some bytesRead)

/-- `SDCardHandler::createDir`. -/
def createDir (h : SDCardHandler) (path : String) : Bool × SDCardHandler :=
  if !h.mounted then (false, h)
  else
    let r := h.SD.mkdir path
    (r.1, { h with SD := r.2 })

/-- `SDCardHandler::removeDir`. -/
def removeDir (h : SDCardHandler) (path : String) : Bool × SDCardHandler :=
  if !h.mounted then (false, h)
  else
    let r := h.SD.rmdir path
    (r.1, { h with SD := r.2 })

end SDCardHandler

/-! ## `LogManager.cpp` -/

def LOG_FILE_BOOT : String := "/boot.log"
def LOG_FILE_BATTERY : String := "/battery.log"
def LOG_FILE_CONNECTION : String := "/connection.log"
def LOG_FILE_ERROR : String := "/error.log"

/-- The macro `LOG_MAX_FILE_SIZE`, 1 MB in bytes. -/
def LOG_MAX_FILE_SIZE : Nat := 1048576

/-- What the log manager takes from the platform (external): the clock, the
heap and chip readings of `ESP`, the Arduino conversion `String(float, decimals)`
and the float unit (conversion from `uint32_t`, product, quotient). -/
structure Platform where
  millis : Nat
  getFreeHeap : Nat
  getChipModel : String
  getCpuFreqMHz : Nat
  floatToString : Flt → Nat → String
  uintToFloat : Nat → Flt
  fmul : Flt → Flt → Flt
  fdiv : Flt → Flt → Flt

/-- The Arduino conversion `String(value, HEX)` of an unsigned value. -/
def hexString (n : Nat) : String := String.mk (Nat.toDigits 16 n)

namespace LogManager

/-- `LogManager::begin`. -/
def begin (sd : SDCardHandler) : Bool :=
  if !sd.isAvailable then false else true

/-- `LogManager::clearAllLogs`; the results of the four calls are dropped. -/
def clearAllLogs (sd : SDCardHandler) : SDCardHandler :=
  if !sd.isAvailable then sd
  else
    let sd := (sd.deleteFile LOG_FILE_BOOT).2
    let sd := (sd.deleteFile LOG_FILE_BATTERY).2
    let sd := (sd.deleteFile LOG_FILE_CONNECTION).2
    let sd := (sd.deleteFile LOG_FILE_ERROR).2
    sd

/-- `LogManager::getTimestamp`. -/
def getTimestamp (P : Platform) : String :=
  "[" ++ toString P.millis ++ "ms]"

/-- `LogManager::rotateLogIfNeeded`; the results of the delete and of the rename
are dropped. -/
def rotateLogIfNeeded (sd : SDCardHandler) (logFile : String) : SDCardHandler :=
  let fileSize := sd.getFileSize logFile
  if fileSize > LOG_MAX_FILE_SIZE then
    let backupPath := logFile ++ ".1"
    let sd1 := if sd.fileExists backupPath then (sd.deleteFile backupPath).2 else sd
    (sd1.renameFile logFile backupPath).2
  else sd

/-- `LogManager::writeLine`. -/
def writeLine (sd : SDCardHandler) (logFile line : String) : Bool × SDCardHandler :=
  if !sd.isAvailable then (false, sd)
  else
    let sd1 := rotateLogIfNeeded sd logFile
    sd1.appendLine logFile line

/-- The line `logBootStart` builds. -/
def bootStartLine (P : Platform) (reason : String) (freeHeap : Nat) (version : String) :
    String :=
  let line := getTimestamp P ++ " INFO - Boot Start"
  let line := line ++ (" | Reason: " ++ reason)
  let line := line ++ (" | Version: " ++ version)
  let line := line ++ (" | Free Heap: " ++ toString freeHeap ++ " bytes")
  let line := line ++ (" | Chip: " ++ P.getChipModel)
  let line := line ++ (" | CPU: " ++ toString P.getCpuFreqMHz ++ " MHz")
  line

/-- `LogManager::logBootStart`. -/
def logBootStart (P : Platform) (sd : SDCardHandler) (reason : String) (freeHeap : Nat)
    (version : String) : Bool × SDCardHandler :=
  writeLine sd LOG_FILE_BOOT (bootStartLine P reason freeHeap version)

/-- The line `logSetupStep` builds; `message` is none for a null pointer. -/
def setupStepLine (P : Platform) (module : String) (success : Bool)
    (message : Option String) : String :=
  let line := getTimestamp P
  let line := line ++ (if success then " INFO - " else " ERROR - ")
  let line := line ++ ("Setup: " ++ module)
  let line := line ++ (if success then " [OK]" else " [FAILED]")
  let line :=
    match message with
    | some m => line ++ (" | " ++ m)
    | none => line
  line

/-- `LogManager::logSetupStep`. -/
def logSetupStep (P : Platform) (sd : SDCardHandler) (module : String) (success : Bool)
    (message : Option String) : Bool × SDCardHandler :=
  writeLine sd LOG_FILE_BOOT (setupStepLine P module success message)

/-- The line `logBootComplete` builds. -/
def bootCompleteLine (P : Platform) (totalTimeMs : Nat) (success : Bool) : String :=
  let line := getTimestamp P
  let line := line ++ (if success then " INFO - " else " ERROR - ")
  let line := line ++ "Boot Complete"
  let line := line ++ (" | Time: " ++ toString totalTimeMs ++ "ms")
  let line := line ++ (" | Free Heap: " ++ toString P.getFreeHeap ++ " bytes")
  let line := line ++ (if success then " [SUCCESS]" else " [FAILED]")
  line

/-- `LogManager::logBootComplete`: the empty separator line, whose result is
dropped, then the line. -/
def logBootComplete (P : Platform) (sd : SDCardHandler) (totalTimeMs : Nat)
    (success : Bool) : Bool × SDCardHandler :=
  let line := bootCompleteLine P totalTimeMs success
  let sd1 := (writeLine sd LOG_FILE_BOOT "").2
  writeLine sd1 LOG_FILE_BOOT line

/-- The line `logBattery` builds. -/
def batteryLine (P : Platform) (voltage : Flt) (percent : Nat) (isLow isCritical : Bool) :
    String :=
  let line := getTimestamp P
  let line :=
    if isCritical then line ++ " CRITICAL - "
    else if isLow then line ++ " WARN - "
    else line ++ " INFO - "
  let line := line ++ "Battery"
  let line := line ++ (" | Voltage: " ++ P.floatToString voltage 2 ++ "V")
  let line := line ++ (" | Percent: " ++ toString percent ++ "%")
  let line :=
    if isCritical then line ++ " [CRITICAL]"
    else if isLow then line ++ " [LOW]"
    else line
  line

/-- `LogManager::logBattery`. -/
def logBattery (P : Platform) (sd : SDCardHandler) (voltage : Flt) (percent : Nat)
    (isLow isCritical : Bool) : Bool × SDCardHandler :=
  writeLine sd LOG_FILE_BATTERY (batteryLine P voltage percent isLow isCritical)

/-- The line `logConnection` builds. -/
def connectionLine (P : Platform) (peerMac event : String) (rssi : Int) : String :=
  let line := getTimestamp P ++ " INFO - "
  let line := line ++ ("ESP-NOW: " ++ event)
  let line := line ++ (" | Peer: " ++ peerMac)
  let line := if rssi ≠ 0 then line ++ (" | RSSI: " ++ toString rssi ++ " dBm") else line
  line

/-- `LogManager::logConnection`. -/
def logConnection (P : Platform) (sd : SDCardHandler) (peerMac event : String)
    (rssi : Int) : Bool × SDCardHandler :=
  writeLine sd LOG_FILE_CONNECTION (connectionLine P peerMac event rssi)

/-- The line `logConnectionStats` builds. -/
def connectionStatsLine (P : Platform) (peerMac : String)
    (packetsSent packetsReceived packetsLost : Nat) (avgRssi : Int) : String :=
  let line := getTimestamp P ++ " INFO - "
  let line := line ++ "ESP-NOW Stats"
  let line := line ++ (" | Peer: " ++ peerMac)
  let line := line ++ (" | Sent: " ++ toString packetsSent)
  let line := line ++ (" | Received: " ++ toString packetsReceived)
  let line := line ++ (" | Lost: " ++ toString packetsLost)
  let line :=
    if packetsSent > 0 then
      let lossRate :=
        P.fdiv (P.fmul (P.uintToFloat packetsLost) (Flt.ofInt 100)) (P.uintToFloat packetsSent)
      line ++ (" | Loss: " ++ P.floatToString lossRate 1 ++ "%")
    else line
  let line := line ++ (" | Avg RSSI: " ++ toString avgRssi ++ " dBm")
  line

/-- `LogManager::logConnectionStats`. -/
def logConnectionStats (P : Platform) (sd : SDCardHandler) (peerMac : String)
    (packetsSent packetsReceived packetsLost : Nat) (avgRssi : Int) :
    Bool × SDCardHandler :=
  writeLine sd LOG_FILE_CONNECTION
    (connectionStatsLine P peerMac packetsSent packetsReceived packetsLost avgRssi)

/-- The line `logError` builds. -/
def errorLine (P : Platform) (module : String) (errorCode : Int) (message : String)
    (freeHeap : Nat) : String :=
  let line := getTimestamp P ++ " ERROR - "
  let line := line ++ module
  let line := line ++ (" | Code: " ++ toString errorCode)
  let line := line ++ (" | " ++ message)
  let line :=
    if freeHeap > 0 then line ++ (" | Free Heap: " ++ toString freeHeap ++ " bytes")
    else line ++ (" | Free Heap: " ++ toString P.getFreeHeap ++ " bytes")
  line

/-- `LogManager::logError`. -/
def logError (P : Platform) (sd : SDCardHandler) (module : String) (errorCode : Int)
    (message : String) (freeHeap : Nat) : Bool × SDCardHandler :=
  writeLine sd LOG_FILE_ERROR (errorLine P module errorCode message freeHeap)

/-- The line `logCrash` builds. -/
def crashLine (P : Platform) (pc excvaddr exccause : Nat) : String :=
  let line := getTimestamp P ++ " FATAL - "
  let line := line ++ "CRASH"
  let line := line ++ (" | PC: 0x" ++ hexString pc)
  let line := line ++ (" | ExcVAddr: 0x" ++ hexString excvaddr)
  let line := line ++ (" | ExcCause: " ++ toString exccause)
  let line := line ++ (" | Free Heap: " ++ toString P.getFreeHeap ++ " bytes")
  line

/-- `LogManager::logCrash`. -/
def logCrash (P : Platform) (sd : SDCardHandler) (pc excvaddr exccause : Nat) :
    Bool × SDCardHandler :=
  writeLine sd LOG_FILE_ERROR (crashLine P pc excvaddr exccause)

end LogManager

/-- The or-default policy for one field: the value typed access returns when it
returns one, the compiled default when the key is missing or of another type. -/
def OrDefault {α : Type} (typed : Option α) (dflt field : α) : Prop :=
  (∀ v, typed = some v → field = v) ∧ (typed = none → field = dflt)

/-- The or-default policy for every field of the Main profile; `mac` is what
becomes of a MAC address on its way from the document into the record. -/
def MainOrDefault (mac : String → String) (K : MainDefaults) (doc : JsonDocument)
    (c : MainConfig) : Prop :=
  OrDefault (doc.get "backlight_default").asInt K.BACKLIGHT_DEFAULT c.backlightDefault ∧
    OrDefault (doc.get "touch_min_x").asInt K.TOUCH_MIN_X c.touchMinX ∧
    OrDefault (doc.get "touch_max_x").asInt K.TOUCH_MAX_X c.touchMaxX ∧
    OrDefault (doc.get "touch_min_y").asInt K.TOUCH_MIN_Y c.touchMinY ∧
    OrDefault (doc.get "touch_max_y").asInt K.TOUCH_MAX_Y c.touchMaxY ∧
    OrDefault (doc.get "touch_threshold").asInt K.TOUCH_THRESHOLD c.touchThreshold ∧
    OrDefault (doc.get "joystick_center_x").asInt K.JOY_CENTER_X c.joystickCenterX ∧
    OrDefault (doc.get "joystick_center_y").asInt K.JOY_CENTER_Y c.joystickCenterY ∧
    OrDefault (doc.get "joystick_deadzone").asInt K.JOY_DEADZONE c.joystickDeadzone ∧
    OrDefault ((doc.get "espnow_peer_mac").asStr.map mac) "00:00:00:00:00:00"
      c.espnowPeerMAC ∧
    OrDefault (doc.get "espnow_heartbeat").asInt ESPNOW_HEARTBEAT_INTERVAL
      c.espnowHeartbeatInterval ∧
    OrDefault (doc.get "espnow_timeout").asInt ESPNOW_TIMEOUT_MS c.espnowTimeout ∧
    OrDefault (doc.get "battery_calibration").asFloat VOLTAGE_CALIBRATION_FACTOR
      c.batteryCalibration ∧
    OrDefault (doc.get "debug_serial").asBool DEBUG_SERIAL c.debugSerialEnabled

/-- The or-default policy for every field of the Peer profile; `mac` is what
becomes of a MAC address on its way from the document into the record. -/
def PeerOrDefault (mac : String → String) (doc : JsonDocument) (c : PeerConfig) : Prop :=
  OrDefault ((doc.get "espnow_main_mac").asStr.map mac) ESPNOW_MAIN_DEVICE_MAC
      c.espnowMainMAC ∧
    OrDefault (doc.get "espnow_timeout").asInt ESPNOW_TIMEOUT_MS c.espnowTimeout ∧
    OrDefault (doc.get "battery_calibration").asFloat VOLTAGE_CALIBRATION_FACTOR
      c.batteryCalibration ∧
    OrDefault (doc.get "debug_serial").asBool DEBUG_SERIAL c.debugSerialEnabled

/-- The text of a Peer file whose MAC address has 20 characters. -/
def peerTextLongMac : String := "\x7b\"espnow_main_mac\": \"AA:BB:CC:DD:EE:FF:00\"\x7d"

/-- The document the text `peerTextLongMac` stands for. -/
def peerDocLongMac : JsonDocument := [("espnow_main_mac", JsonValue.str "AA:BB:CC:DD:EE:FF:00")]

/-- A codec that knows the text `peerTextLongMac` and the empty object. -/
def longMacCodec : JsonCodec :=
  tableCodec [(peerTextLongMac, peerDocLongMac), ("\x7b\x7d", [])]

/-- Two handlers agree but for the content of the files in `paths`: the mount
flag, the faults, the directories, the capacity readings and every other file
are the same. -/
def SDCardHandler.SameExcept (a b : SDCardHandler) (paths : List String) : Prop :=
  a.mounted = b.mounted ∧ a.SD.denied = b.SD.denied ∧ a.SD.pinned = b.SD.pinned ∧
    a.SD.quota = b.SD.quota ∧ a.SD.dirs = b.SD.dirs ∧ a.SD.totalBytes = b.SD.totalBytes ∧
    a.SD.usedBytes = b.SD.usedBytes ∧
    ∀ q : String, q ∉ paths → a.SD.files.lookup q = b.SD.files.lookup q

/-- A card that takes 5 characters per transfer and holds an older Main file. -/
def smallQuotaCard : SDCardHandler :=
  { mounted := true
    SD := { blankCard with files := [(CONFIG_FILE_MAIN, mainTextBacklight)], quota := 5 } }

/-- A text of `n` bytes. -/
def filler (n : Nat) : String := String.mk (List.replicate n 'a')

/-- A mounted handler without faults whose battery log is one byte over the
limit and has a backup from an earlier rotation. -/
def fullBatteryCard : SDCardHandler :=
  { mounted := true
    SD := { blankCard with
      files := [(LOG_FILE_BATTERY, filler (LOG_MAX_FILE_SIZE + 1)),
        (LOG_FILE_BATTERY ++ ".1", "old backup\n"), (CONFIG_FILE_PEER, peerDefaultsText)] } }

/-- A handler that was unmounted over a card with files, a directory and
capacity readings. -/
def unmountedCard : SDCardHandler :=
  SDCardHandler.end_
    { mounted := true
      SD := { blankCard with
        files := [(LOG_FILE_BOOT, "[12ms] INFO - Boot Start\n"), (CONFIG_FILE_PEER, peerDefaultsText)]
        dirs := ["/logs"]
        totalBytes := 4000000000
        usedBytes := 1000000 } }

/-! ## The public logging operations as one type -/

/-- A call of one of the eight public logging operations, with its arguments. -/
inductive LogCall where
  | logBootStart (reason : String) (freeHeap : Nat) (version : String)
  | logSetupStep (module : String) (success : Bool) (message : Option String)
  | logBootComplete (totalTimeMs : Nat) (success : Bool)
  | logBattery (voltage : Flt) (percent : Nat) (isLow isCritical : Bool)
  | logConnection (peerMac event : String) (rssi : Int)
  | logConnectionStats (peerMac : String) (packetsSent packetsReceived packetsLost : Nat)
      (avgRssi : Int)
  | logError (module : String) (errorCode : Int) (message : String) (freeHeap : Nat)
  | logCrash (pc excvaddr exccause : Nat)

namespace LogCall

/-- The file of the channel a call writes to. -/
def channel : LogCall → String
  | logBootStart _ _ _ => LOG_FILE_BOOT
  | logSetupStep _ _ _ => LOG_FILE_BOOT
  | logBootComplete _ _ => LOG_FILE_BOOT
  | logBattery _ _ _ _ => LOG_FILE_BATTERY
  | logConnection _ _ _ => LOG_FILE_CONNECTION
  | logConnectionStats _ _ _ _ _ => LOG_FILE_CONNECTION
  | logError _ _ _ _ => LOG_FILE_ERROR
  | logCrash _ _ _ => LOG_FILE_ERROR

/-- The line a call formats. -/
def line (P : Platform) : LogCall → String
  | logBootStart reason freeHeap version => LogManager.bootStartLine P reason freeHeap version
  | logSetupStep module success message => LogManager.setupStepLine P module success message
  | logBootComplete totalTimeMs success => LogManager.bootCompleteLine P totalTimeMs success
  | logBattery voltage percent isLow isCritical =>
    LogManager.batteryLine P voltage percent isLow isCritical
  | logConnection peerMac event rssi => LogManager.connectionLine P peerMac event rssi
  | logConnectionStats peerMac sent received lost avgRssi =>
    LogManager.connectionStatsLine P peerMac sent received lost avgRssi
  | logError module errorCode message freeHeap =>
    LogManager.errorLine P module errorCode message freeHeap
  | logCrash pc excvaddr exccause => LogManager.crashLine P pc excvaddr exccause

/-- The ten files of the layout: the four logs, their backups, the two
configuration files. -/
def layout : List String :=
  [LOG_FILE_BOOT, LOG_FILE_BATTERY, LOG_FILE_CONNECTION, LOG_FILE_ERROR,
    LOG_FILE_BOOT ++ ".1", LOG_FILE_BATTERY ++ ".1", LOG_FILE_CONNECTION ++ ".1",
    LOG_FILE_ERROR ++ ".1", CONFIG_FILE_MAIN, CONFIG_FILE_PEER]

/-- The files of the layout that are foreign to a call: those of the other
three channels, their backups and the two configuration files. -/
def foreign (c : LogCall) : List String :=
  layout.filter (fun q => q != c.channel && q != c.channel ++ ".1")

end LogCall

/-- The call carried out by the operation it names. -/
def LogManager.run (P : Platform) (sd : SDCardHandler) : LogCall → Bool × SDCardHandler
  | LogCall.logBootStart reason freeHeap version =>
    LogManager.logBootStart P sd reason freeHeap version
  | LogCall.logSetupStep module success message =>
    LogManager.logSetupStep P sd module success message
  | LogCall.logBootComplete totalTimeMs success =>
    LogManager.logBootComplete P sd totalTimeMs success
  | LogCall.logBattery voltage percent isLow isCritical =>
    LogManager.logBattery P sd voltage percent isLow isCritical
  | LogCall.logConnection peerMac event rssi => LogManager.logConnection P sd peerMac event rssi
  | LogCall.logConnectionStats peerMac sent received lost avgRssi =>
    LogManager.logConnectionStats P sd peerMac sent received lost avgRssi
  | LogCall.logError module errorCode message freeHeap =>
    LogManager.logError P sd module errorCode message freeHeap
  | LogCall.logCrash pc excvaddr exccause => LogManager.logCrash P sd pc excvaddr exccause

/-! ## The line formats of the specification -/

/-- The battery line as the specification words it: time stamp, level, the two
fields, and the tag, which follows the separator `sep`. -/
def specBatteryLine (sep : String) (P : Platform) (voltage : Flt) (percent : Nat)
    (isLow isCritical : Bool) : String :=
  "[" ++ toString P.millis ++ "ms]" ++
    (if isCritical then " CRITICAL - " else if isLow then " WARN - " else " INFO - ") ++
    "Battery" ++ " | Voltage: " ++ P.floatToString voltage 2 ++ "V" ++
    " | Percent: " ++ toString percent ++ "%" ++
    (if isCritical then sep ++ "[CRITICAL]" else if isLow then sep ++ "[LOW]" else "")

/-- The loss rate `lost * 100 / sent` as the float unit computes it. -/
def lossRate (P : Platform) (packetsLost packetsSent : Nat) : Flt :=
  P.fdiv (P.fmul (P.uintToFloat packetsLost) (Flt.ofInt 100)) (P.uintToFloat packetsSent)

/-- The statistics line as the specification words it; the loss field is there
exactly when packets were sent. -/
def specConnectionStatsLine (P : Platform) (peerMac : String)
    (packetsSent packetsReceived packetsLost : Nat) (avgRssi : Int) : String :=
  "[" ++ toString P.millis ++ "ms]" ++ " INFO - " ++ "ESP-NOW Stats" ++
    " | Peer: " ++ peerMac ++ " | Sent: " ++ toString packetsSent ++
    " | Received: " ++ toString packetsReceived ++ " | Lost: " ++ toString packetsLost ++
    (if packetsSent > 0 then
      " | Loss: " ++ P.floatToString (lossRate P packetsLost packetsSent) 1 ++ "%"
    else "") ++
    " | Avg RSSI: " ++ toString avgRssi ++ " dBm"

/-- The line of `logBootComplete` as the specification words it. -/
def specBootCompleteLine (P : Platform) (totalTimeMs : Nat) (success : Bool) : String :=
  "[" ++ toString P.millis ++ "ms]" ++ (if success then " INFO - " else " ERROR - ") ++
    "Boot Complete" ++ " | Time: " ++ toString totalTimeMs ++ "ms" ++
    " | Free Heap: " ++ toString P.getFreeHeap ++ " bytes" ++
    (if success then " [SUCCESS]" else " [FAILED]")

/-! ## Concrete data for the closed statements on logging -/

/-- The binary32 value of the literal 13.1, that is 13736346 / 2^20. -/
def volts13_1 : Flt := Flt.fin (13736346 * 680564733841876926926749214863536422912)

/-- A platform for the examples: a clock at 1234 ms, and a float unit and a
conversion to text that are right on the values the examples use. -/
def samplePlatform : Platform :=
  { millis := 1234
    getFreeHeap := 200000
    getChipModel := "ESP32-S3"
    getCpuFreqMHz := 240
    floatToString := fun f decimals =>
      if f = volts13_1 ∧ decimals = 2 then "13.10"
      else if f = Flt.ofInt 5 ∧ decimals = 1 then "5.0"
      else "?"
    uintToFloat := fun n => Flt.ofInt (Int.ofNat n)
    fmul := fun a b =>
      match a, b with
      | Flt.fin x, Flt.fin y => Flt.fin (x * y / Flt.one_units)
      | _, _ => Flt.nan
    fdiv := fun a b =>
      match a, b with
      | Flt.fin x, Flt.fin y => if y = 0 then Flt.nan else Flt.fin (x * Flt.one_units / y)
      | _, _ => Flt.nan }

/-- A mounted handler over a blank card. -/
def mountedBlank : SDCardHandler := { mounted := true, SD := blankCard }

/-- A mounted handler over a card with all ten files of the layout. -/
def tenFilesCard : SDCardHandler :=
  { mounted := true
    SD := { blankCard with
      files := [(LOG_FILE_BOOT, "boot\n"), (LOG_FILE_BATTERY, "battery\n"),
        (LOG_FILE_CONNECTION, "connection\n"), (LOG_FILE_ERROR, "error\n"),
        (LOG_FILE_BOOT ++ ".1", "boot backup\n"), (LOG_FILE_BATTERY ++ ".1", "battery backup\n"),
        (LOG_FILE_CONNECTION ++ ".1", "connection backup\n"),
        (LOG_FILE_ERROR ++ ".1", "error backup\n"), (CONFIG_FILE_MAIN, mainDefaultsText),
        (CONFIG_FILE_PEER, peerDefaultsText)] } }

/-- The four active log files. -/
def LogManager.logFiles : List String :=
  [LOG_FILE_BOOT, LOG_FILE_BATTERY, LOG_FILE_CONNECTION, LOG_FILE_ERROR]

/-! ## The removing and renaming calls of a `writeLine` -/

/-- A removing or renaming call on the handler. -/
inductive SDCall where
  | deleteFile (path : String)
  | renameFile (oldPath newPath : String)
  deriving DecidableEq, Repr

namespace LogManager

/-- `LogManager::rotateLogIfNeeded`, with the `deleteFile` and `renameFile`
calls it makes on the handler, in their order. -/
def rotateLogIfNeededCalls (sd : SDCardHandler) (logFile : String) :
    List SDCall × SDCardHandler :=
  let fileSize := sd.getFileSize logFile
  if fileSize > LOG_MAX_FILE_SIZE then
    let backupPath := logFile ++ ".1"
    let r1 : List SDCall × SDCardHandler :=
      if sd.fileExists backupPath then
        ([SDCall.deleteFile backupPath], (sd.deleteFile backupPath).2)
      else ([], sd)
    (r1.1 ++ [SDCall.renameFile logFile backupPath],
      (r1.2.renameFile logFile backupPath).2)
  else ([], sd)

/-- `LogManager::writeLine`, with the `deleteFile` and `renameFile` calls it
makes on the handler: those of the rotation check, `appendLine` makes none. -/
def writeLineCalls (sd : SDCardHandler) (logFile line : String) :
    List SDCall × (Bool × SDCardHandler) :=
  if !sd.isAvailable then ([], (false, sd))
  else
    let r := rotateLogIfNeededCalls sd logFile
    (r.1, r.2.appendLine logFile line)

end LogManager

/-- A mounted handler without faults whose battery log has exactly the size of
the limit and has a backup from an earlier rotation. -/
def limitBatteryCard : SDCardHandler :=
  { mounted := true
    SD := { blankCard with
      files := [(LOG_FILE_BATTERY, filler LOG_MAX_FILE_SIZE),
        (LOG_FILE_BATTERY ++ ".1", "old backup\n"), (CONFIG_FILE_PEER, peerDefaultsText)] } }

/-- A text that is not a document. -/
def garbledText : String := "\x7b\"espnow_timeout\": 50"


/-! ## The compiled defaults as the specification words them -/

/-- The Main profile with every field at its compiled default. -/
def specMainDefaults (K : MainDefaults) : MainConfig :=
  { backlightDefault := K.BACKLIGHT_DEFAULT
    touchMinX := K.TOUCH_MIN_X
    touchMaxX := K.TOUCH_MAX_X
    touchMinY := K.TOUCH_MIN_Y
    touchMaxY := K.TOUCH_MAX_Y
    touchThreshold := K.TOUCH_THRESHOLD
    joystickCenterX := K.JOY_CENTER_X
    joystickCenterY := K.JOY_CENTER_Y
    joystickDeadzone := K.JOY_DEADZONE
    espnowPeerMAC := "00:00:00:00:00:00"
    espnowHeartbeatInterval := 500
    espnowTimeout := 2000
    batteryCalibration := VOLTAGE_CALIBRATION_FACTOR
    debugSerialEnabled := true }

/-- The Peer profile with every field at its compiled default. -/
def specPeerDefaults : PeerConfig :=
  { espnowMainMAC := "10:20:BA:4D:6C:E4"
    espnowTimeout := 2000
    batteryCalibration := VOLTAGE_CALIBRATION_FACTOR
    debugSerialEnabled := true }

/-- The Main document with every key of the layout at its compiled default. -/
def specMainDefaultsDoc (K : MainDefaults) : JsonDocument :=
  [("backlight_default", JsonValue.int K.BACKLIGHT_DEFAULT),
    ("touch_min_x", JsonValue.int K.TOUCH_MIN_X),
    ("touch_max_x", JsonValue.int K.TOUCH_MAX_X),
    ("touch_min_y", JsonValue.int K.TOUCH_MIN_Y),
    ("touch_max_y", JsonValue.int K.TOUCH_MAX_Y),
    ("touch_threshold", JsonValue.int K.TOUCH_THRESHOLD),
    ("joystick_center_x", JsonValue.int K.JOY_CENTER_X),
    ("joystick_center_y", JsonValue.int K.JOY_CENTER_Y),
    ("joystick_deadzone", JsonValue.int K.JOY_DEADZONE),
    ("espnow_peer_mac", JsonValue.str "00:00:00:00:00:00"),
    ("espnow_heartbeat", JsonValue.int 500),
    ("espnow_timeout", JsonValue.int 2000),
    ("battery_calibration", JsonValue.float VOLTAGE_CALIBRATION_FACTOR),
    ("debug_serial", JsonValue.bool true)]

/-- The Peer document with every key of the layout at its compiled default. -/
def specPeerDefaultsDoc : JsonDocument :=
  [("espnow_main_mac", JsonValue.str "10:20:BA:4D:6C:E4"),
    ("espnow_timeout", JsonValue.int 2000),
    ("battery_calibration", JsonValue.float VOLTAGE_CALIBRATION_FACTOR),
    ("debug_serial", JsonValue.bool true)]

/-- The document of defaults of a profile. -/
def specDefaultsDoc (K : MainDefaults) (isPeer : Bool) : JsonDocument :=
  if isPeer then specPeerDefaultsDoc else specMainDefaultsDoc K

/-- The text of a Peer file whose timeout does not fit a C `int`. -/
def peerText3e9 : String := "\x7b\"espnow_timeout\": 3000000000\x7d"

/-- The document the text `peerText3e9` stands for. -/
def peerDoc3e9 : JsonDocument := [("espnow_timeout", JsonValue.int 3000000000)]

/-- A codec whose table gives every document written out in full. -/
def literalCodec : JsonCodec :=
  tableCodec
    [(peerText99999, [("espnow_timeout", JsonValue.int 99999)]),
      (peerText3e9, [("espnow_timeout", JsonValue.int 3000000000)]),
      (peerDefaultsText,
        [("espnow_main_mac", JsonValue.str "10:20:BA:4D:6C:E4"),
          ("espnow_timeout", JsonValue.int 2000),
          ("battery_calibration", JsonValue.float VOLTAGE_CALIBRATION_FACTOR),
          ("debug_serial", JsonValue.bool true)]),
      (mainDefaultsText,
        [("backlight_default", JsonValue.int 128),
          ("touch_min_x", JsonValue.int 200),
          ("touch_max_x", JsonValue.int 3800),
          ("touch_min_y", JsonValue.int 240),
          ("touch_max_y", JsonValue.int 3900),
          ("touch_threshold", JsonValue.int 600),
          ("joystick_center_x", JsonValue.int 2048),
          ("joystick_center_y", JsonValue.int 2048),
          ("joystick_deadzone", JsonValue.int 100),
          ("espnow_peer_mac", JsonValue.str "00:00:00:00:00:00"),
          ("espnow_heartbeat", JsonValue.int 500),
          ("espnow_timeout", JsonValue.int 2000),
          ("battery_calibration", JsonValue.float VOLTAGE_CALIBRATION_FACTOR),
          ("debug_serial", JsonValue.bool true)])]

/-! ## Names and data for the statements on or-default loading -/

/-- A text of ASCII characters: every character is one byte and none is the
zero byte. -/
def PlainAscii (s : String) : Prop := ∀ c ∈ s.data, 0 < c.val.toNat ∧ c.val.toNat < 128

instance (s : String) : Decidable (PlainAscii s) := by unfold PlainAscii; infer_instance

/-- The or-default policy for every field of the Main profile other than the
MAC address. -/
def MainFieldsOrDefault (K : MainDefaults) (doc : JsonDocument) (c : MainConfig) : Prop :=
  OrDefault (doc.get "backlight_default").asInt K.BACKLIGHT_DEFAULT c.backlightDefault ∧
    OrDefault (doc.get "touch_min_x").asInt K.TOUCH_MIN_X c.touchMinX ∧
    OrDefault (doc.get "touch_max_x").asInt K.TOUCH_MAX_X c.touchMaxX ∧
    OrDefault (doc.get "touch_min_y").asInt K.TOUCH_MIN_Y c.touchMinY ∧
    OrDefault (doc.get "touch_max_y").asInt K.TOUCH_MAX_Y c.touchMaxY ∧
    OrDefault (doc.get "touch_threshold").asInt K.TOUCH_THRESHOLD c.touchThreshold ∧
    OrDefault (doc.get "joystick_center_x").asInt K.JOY_CENTER_X c.joystickCenterX ∧
    OrDefault (doc.get "joystick_center_y").asInt K.JOY_CENTER_Y c.joystickCenterY ∧
    OrDefault (doc.get "joystick_deadzone").asInt K.JOY_DEADZONE c.joystickDeadzone ∧
    OrDefault (doc.get "espnow_heartbeat").asInt ESPNOW_HEARTBEAT_INTERVAL
      c.espnowHeartbeatInterval ∧
    OrDefault (doc.get "espnow_timeout").asInt ESPNOW_TIMEOUT_MS c.espnowTimeout ∧
    OrDefault (doc.get "battery_calibration").asFloat VOLTAGE_CALIBRATION_FACTOR
      c.batteryCalibration ∧
    OrDefault (doc.get "debug_serial").asBool DEBUG_SERIAL c.debugSerialEnabled

/-- The or-default policy for every field of the Peer profile other than the
MAC address. -/
def PeerFieldsOrDefault (doc : JsonDocument) (c : PeerConfig) : Prop :=
  OrDefault (doc.get "espnow_timeout").asInt ESPNOW_TIMEOUT_MS c.espnowTimeout ∧
    OrDefault (doc.get "battery_calibration").asFloat VOLTAGE_CALIBRATION_FACTOR
      c.batteryCalibration ∧
    OrDefault (doc.get "debug_serial").asBool DEBUG_SERIAL c.debugSerialEnabled

/-- The text of a Peer file with a MAC address of 20 characters, a timeout, a
calibration factor of the wrong type and no debug flag. -/
def peerTextMixed : String :=
  "\x7b\"espnow_main_mac\": \"AA:BB:CC:DD:EE:FF:00\", \"espnow_timeout\": 5000, " ++
    "\"battery_calibration\": \"high\"\x7d"

/-- The document the text `peerTextMixed` stands for. -/
def peerDocMixed : JsonDocument :=
  [("espnow_main_mac", JsonValue.str "AA:BB:CC:DD:EE:FF:00"),
    ("espnow_timeout", JsonValue.int 5000), ("battery_calibration", JsonValue.str "high")]

/-- The text of a Main file with a backlight, a MAC address of 17 characters, a
touch bound of the wrong type and a calibration factor written as an integer. -/
def mainTextMixed : String :=
  "\x7b\"backlight_default\": 100, \"espnow_peer_mac\": \"12:34:56:78:9A:BC\", " ++
    "\"touch_min_x\": \"left\", \"battery_calibration\": 1\x7d"

/-- The document the text `mainTextMixed` stands for. -/
def mainDocMixed : JsonDocument :=
  [("backlight_default", JsonValue.int 100),
    ("espnow_peer_mac", JsonValue.str "12:34:56:78:9A:BC"),
    ("touch_min_x", JsonValue.str "left"), ("battery_calibration", JsonValue.int 1)]

/-- A codec that knows the two texts above and the empty object. -/
def mixedCodec : JsonCodec :=
  tableCodec [(peerTextMixed, peerDocMixed), (mainTextMixed, mainDocMixed), ("\x7b\x7d", [])]
/-! # Theorems -/

/-! ## Facts about the calibration check -/

/-- The calibration check of `validate` fires exactly on the values that are a
number outside `(0, 2.0]`. -/
theorem Flt.check_eq_false_iff (f : Flt) :
    (Flt.le f Flt.zero || Flt.gt f Flt.two) = false ↔ f = Flt.nan ∨ f.inRange := by
  cases f <;> simp [Flt.le, Flt.gt, Flt.lt, Flt.zero, Flt.two, Flt.inRange]

theorem Flt.check_default :
    (Flt.le VOLTAGE_CALIBRATION_FACTOR Flt.zero ||
      Flt.gt VOLTAGE_CALIBRATION_FACTOR Flt.two) = false := by
  decide

theorem Flt.default_inRange : VOLTAGE_CALIBRATION_FACTOR.inRange := by
  decide

/-! ## Facts about the card model -/

theorem firstChars_of_le (s : String) (n : Nat) (h : s.length ≤ n) : firstChars s n = s := by
  have h2 : s.data.length ≤ n := h
  unfold firstChars
  rw [List.take_of_length_le h2]

theorem SDClass.lookup_erase_ne (files : List (String × String)) (path other : String)
    (hne : other ≠ path) :
    (SDClass.erase files path).lookup other = files.lookup other := by
  unfold SDClass.erase
  induction files with
  | nil => rfl
  | cons e rest ih =>
    obtain ⟨k, v⟩ := e
    by_cases hk : k = path
    · have e1 : ¬ ((k != path) = true) := by simp [hk]
      have e2 : (other == k) = false := by simp [hk, hne]
      rw [show List.filter (fun e : String × String => e.1 != path) ((k, v) :: rest) =
          List.filter (fun e => e.1 != path) rest from List.filter_cons_of_neg e1,
        List.lookup_cons, e2]
      exact ih
    · have e1 : (k != path) = true := by simp [hk]
      rw [show List.filter (fun e : String × String => e.1 != path) ((k, v) :: rest) =
          (k, v) :: List.filter (fun e => e.1 != path) rest from List.filter_cons_of_pos e1,
        List.lookup_cons, List.lookup_cons, ih]

theorem SDClass.lookup_erase_same (files : List (String × String)) (path : String) :
    (SDClass.erase files path).lookup path = none := by
  unfold SDClass.erase
  induction files with
  | nil => rfl
  | cons e rest ih =>
    obtain ⟨k, v⟩ := e
    by_cases hk : k = path
    · have e1 : ¬ ((k != path) = true) := by simp [hk]
      rw [show List.filter (fun e : String × String => e.1 != path) ((k, v) :: rest) =
          List.filter (fun e => e.1 != path) rest from List.filter_cons_of_neg e1]
      exact ih
    · have e1 : (k != path) = true := by simp [hk]
      have e2 : (path == k) = false := by simp [Ne.symm hk]
      rw [show List.filter (fun e : String × String => e.1 != path) ((k, v) :: rest) =
          (k, v) :: List.filter (fun e => e.1 != path) rest from List.filter_cons_of_pos e1,
        List.lookup_cons, e2]
      exact ih

theorem SDClass.lookup_store_same (files : List (String × String)) (path content : String) :
    (SDClass.store files path content).lookup path = some content := by
  simp [SDClass.store, List.lookup]

theorem SDClass.lookup_store_ne (files : List (String × String)) (path content other : String)
    (hne : other ≠ path) :
    (SDClass.store files path content).lookup other = files.lookup other := by
  have h1 : (other == path) = false := by simp [hne]
  have h2 := SDClass.lookup_erase_ne files path other hne
  unfold SDClass.erase at h2
  unfold SDClass.store
  rw [List.lookup_cons, h1]
  exact h2

/-- A write that the medium takes in full. -/
theorem SDCardHandler.writeFile_full (h : SDCardHandler) (path data : String)
    (hm : h.mounted = true) (hw : (path, OpenMode.FILE_WRITE) ∉ h.SD.denied)
    (hq : data.length ≤ h.SD.quota) :
    (h.writeFile path data).1 = decide (data.length > 0) ∧
    (h.writeFile path data).2.mounted = true ∧
    (h.writeFile path data).2.SD.denied = h.SD.denied ∧
    (h.writeFile path data).2.SD.quota = h.SD.quota ∧
    (h.writeFile path data).2.SD.files.lookup path = some data := by
  simp [SDCardHandler.writeFile, hm, SDClass.openWrite, hw, SDClass.print,
    SDClass.lookup_store_same, firstChars_of_le data _ hq]

theorem SDCardHandler.writeFile_unmounted (h : SDCardHandler) (path data : String)
    (hm : h.mounted = false) : h.writeFile path data = (false, h) := by
  simp [SDCardHandler.writeFile, hm]

/-! ## Facts about `validate` -/

/-- The result of `validatePeerConfig` in closed form: each check reads only its
own field. -/
theorem ConfigManager.validatePeerConfig_eq (c : PeerConfig) :
    ConfigManager.validatePeerConfig c =
      (decide (1000 ≤ c.espnowTimeout ∧ c.espnowTimeout ≤ 30000) &&
          !(Flt.le c.batteryCalibration Flt.zero || Flt.gt c.batteryCalibration Flt.two),
        { c with
          espnowTimeout :=
            if c.espnowTimeout < 1000 ∨ c.espnowTimeout > 30000 then ESPNOW_TIMEOUT_MS
            else c.espnowTimeout
          batteryCalibration :=
            if (Flt.le c.batteryCalibration Flt.zero || Flt.gt c.batteryCalibration Flt.two) = true
            then VOLTAGE_CALIBRATION_FACTOR else c.batteryCalibration }) := by
  unfold ConfigManager.validatePeerConfig
  by_cases h1 : c.espnowTimeout < 1000 ∨ c.espnowTimeout > 30000 <;>
  by_cases h2 : (Flt.le c.batteryCalibration Flt.zero || Flt.gt c.batteryCalibration Flt.two) = true <;>
  simp [h1, h2] <;> omega

/-- The result of `validateMainConfig` in closed form: each check reads only its
own fields, which no earlier check assigns. -/
theorem ConfigManager.validateMainConfig_eq (K : MainDefaults) (c : MainConfig) :
    ConfigManager.validateMainConfig K c =
      (decide (c.backlightDefault ≤ 255) &&
          decide (c.touchMinX < c.touchMaxX ∧ c.touchMinY < c.touchMaxY) &&
          decide (1000 ≤ c.espnowTimeout ∧ c.espnowTimeout ≤ 30000) &&
          !(Flt.le c.batteryCalibration Flt.zero || Flt.gt c.batteryCalibration Flt.two),
        { c with
          backlightDefault :=
            if c.backlightDefault > 255 then K.BACKLIGHT_DEFAULT else c.backlightDefault
          touchMinX :=
            if c.touchMinX ≥ c.touchMaxX ∨ c.touchMinY ≥ c.touchMaxY then K.TOUCH_MIN_X
            else c.touchMinX
          touchMaxX :=
            if c.touchMinX ≥ c.touchMaxX ∨ c.touchMinY ≥ c.touchMaxY then K.TOUCH_MAX_X
            else c.touchMaxX
          touchMinY :=
            if c.touchMinX ≥ c.touchMaxX ∨ c.touchMinY ≥ c.touchMaxY then K.TOUCH_MIN_Y
            else c.touchMinY
          touchMaxY :=
            if c.touchMinX ≥ c.touchMaxX ∨ c.touchMinY ≥ c.touchMaxY then K.TOUCH_MAX_Y
            else c.touchMaxY
          espnowTimeout :=
            if c.espnowTimeout < 1000 ∨ c.espnowTimeout > 30000 then ESPNOW_TIMEOUT_MS
            else c.espnowTimeout
          batteryCalibration :=
            if (Flt.le c.batteryCalibration Flt.zero || Flt.gt c.batteryCalibration Flt.two) = true
            then VOLTAGE_CALIBRATION_FACTOR else c.batteryCalibration }) := by
  unfold ConfigManager.validateMainConfig
  by_cases h0 : c.backlightDefault > 255 <;>
  by_cases h1 : c.touchMinX ≥ c.touchMaxX ∨ c.touchMinY ≥ c.touchMaxY <;>
  by_cases h2 : c.espnowTimeout < 1000 ∨ c.espnowTimeout > 30000 <;>
  by_cases h3 : (Flt.le c.batteryCalibration Flt.zero || Flt.gt c.batteryCalibration Flt.two) = true <;>
  simp [h0, h1, h2, h3] <;> omega

/-! ## Facts about `load` and `save` -/

namespace ConfigManager

/-- The outcome of `load` in closed form. -/
theorem load_eq (codec : JsonCodec) (K : MainDefaults) (cm : ConfigManager)
    (sd : SDCardHandler) :
    load codec K cm sd =
      if sd.isAvailable = true ∧ sd.fileExists (configFile cm.isPeer) = true ∧
          (sd.readFileAsString (configFile cm.isPeer)).isEmpty = false then
        match codec.deserializeJson (sd.readFileAsString (configFile cm.isPeer)) with
        | none => (false, cm)
        | some doc => (true, withDoc K cm doc)
      else (false, cm) := by
  unfold load loadPeerConfig loadMainConfig configFile withDoc
  cases hp : cm.isPeer <;> cases ha : sd.isAvailable <;>
    cases he1 : sd.fileExists CONFIG_FILE_PEER <;>
    cases he2 : sd.fileExists CONFIG_FILE_MAIN <;>
    cases hr1 : (sd.readFileAsString CONFIG_FILE_PEER).isEmpty <;>
    cases hr2 : (sd.readFileAsString CONFIG_FILE_MAIN).isEmpty <;>
    simp [*]

theorem load_isPeer (codec : JsonCodec) (K : MainDefaults) (cm : ConfigManager)
    (sd : SDCardHandler) : (load codec K cm sd).2.isPeer = cm.isPeer := by
  rw [load_eq]
  split
  · split
    · rfl
    · simp only [withDoc]; split <;> rfl
  · rfl

/-- A load that fails leaves the members as they were. -/
theorem load_false (codec : JsonCodec) (K : MainDefaults) (cm : ConfigManager)
    (sd : SDCardHandler) (h : (load codec K cm sd).1 = false) :
    load codec K cm sd = (false, cm) := by
  rw [load_eq] at h ⊢
  split
  · rename_i hc
    rw [if_pos hc] at h
    split
    · rfl
    · rename_i doc hd
      rw [hd] at h
      simp at h
  · rfl

/-- A load that succeeds has parsed the text of the profile's file. -/
theorem load_true (codec : JsonCodec) (K : MainDefaults) (cm : ConfigManager)
    (sd : SDCardHandler) (h : (load codec K cm sd).1 = true) :
    ∃ doc, codec.deserializeJson (sd.readFileAsString (configFile cm.isPeer)) = some doc ∧
      load codec K cm sd = (true, withDoc K cm doc) := by
  rw [load_eq] at h ⊢
  split
  · rename_i hc
    rw [if_pos hc] at h
    split
    · rename_i hd
      rw [hd] at h
      simp at h
    · rename_i doc hd
      exact ⟨doc, hd, rfl⟩
  · rename_i hc
    rw [if_neg hc] at h
    simp at h

theorem save_eq (codec : JsonCodec) (cm : ConfigManager) (sd : SDCardHandler) :
    save codec cm sd =
      if sd.isAvailable = true then
        sd.writeFile (configFile cm.isPeer) (codec.serializeJsonPretty (docOf cm))
      else (false, sd) := by
  unfold save savePeerConfig saveMainConfig configFile docOf
  cases hp : cm.isPeer <;> cases ha : sd.isAvailable <;> simp [*]

theorem validate_isPeer (K : MainDefaults) (cm : ConfigManager) :
    (validate K cm).2.isPeer = cm.isPeer := by
  unfold validate
  split <;> rfl

theorem setDefaults_isPeer (K : MainDefaults) (cm : ConfigManager) :
    (setDefaults K cm).isPeer = cm.isPeer := by
  unfold setDefaults
  split <;> rfl

end ConfigManager

/-! ## Facts about `validate` and the defaults -/

namespace ConfigManager

theorem validate_eq_true_iff (K : MainDefaults) (cm : ConfigManager) :
    (validate K cm).1 = true ↔
      (cm.calibration = Flt.nan ∨ cm.calibration.inRange) ∧
        if cm.isPeer then (1000 ≤ cm.peerConfig.espnowTimeout ∧ cm.peerConfig.espnowTimeout ≤ 30000)
        else cm.mainConfig.backlightDefault ≤ 255 ∧
          (cm.mainConfig.touchMinX < cm.mainConfig.touchMaxX ∧
            cm.mainConfig.touchMinY < cm.mainConfig.touchMaxY) ∧
          (1000 ≤ cm.mainConfig.espnowTimeout ∧ cm.mainConfig.espnowTimeout ≤ 30000) := by
  unfold validate calibration
  cases hp : cm.isPeer
  · simp only [validateMainConfig_eq, Bool.false_eq_true, if_false, Bool.and_eq_true,
      decide_eq_true_eq, Bool.not_eq_true', Flt.check_eq_false_iff]
    tauto
  · simp only [validatePeerConfig_eq, if_true, Bool.and_eq_true,
      decide_eq_true_eq, Bool.not_eq_true', Flt.check_eq_false_iff]
    tauto

/-- For a calibration factor that is a number, `validate` returns true exactly
when every predicate held on entry. -/
theorem validate_true_iff_of_number (K : MainDefaults) (cm : ConfigManager)
    (hn : cm.calibration ≠ Flt.nan) : (validate K cm).1 = true ↔ ProfileValid cm := by
  rw [validate_eq_true_iff]
  unfold ProfileValid MainValid PeerValid
  unfold calibration at hn ⊢
  cases hp : cm.isPeer <;> simp only [hp, Bool.false_eq_true, if_false, if_true] at hn ⊢ <;> tauto

/-- When `validate` returns true it has changed nothing. -/
theorem validate_true_unchanged (K : MainDefaults) (cm : ConfigManager)
    (h : (validate K cm).1 = true) : (validate K cm).2 = cm := by
  unfold validate at h ⊢
  cases hp : cm.isPeer
  · simp only [hp, Bool.false_eq_true, if_false, validateMainConfig_eq, Bool.and_eq_true,
      decide_eq_true_eq, Bool.not_eq_true'] at h ⊢
    obtain ⟨⟨⟨h0, h1⟩, h2⟩, h3⟩ := h
    have e0 : ¬ cm.mainConfig.backlightDefault > 255 := by omega
    have e1 : ¬ (cm.mainConfig.touchMinX ≥ cm.mainConfig.touchMaxX ∨
        cm.mainConfig.touchMinY ≥ cm.mainConfig.touchMaxY) := by omega
    have e2 : ¬ (cm.mainConfig.espnowTimeout < 1000 ∨ cm.mainConfig.espnowTimeout > 30000) := by
      omega
    simp only [e0, e1, e2, h3, if_false, Bool.false_eq_true]
    cases cm
    simp_all
  · simp only [hp, if_true, validatePeerConfig_eq, Bool.and_eq_true,
      decide_eq_true_eq, Bool.not_eq_true'] at h ⊢
    obtain ⟨h2, h3⟩ := h
    have e2 : ¬ (cm.peerConfig.espnowTimeout < 1000 ∨ cm.peerConfig.espnowTimeout > 30000) := by
      omega
    simp only [e2, h3, if_false, Bool.false_eq_true]
    cases cm
    simp_all

theorem peerDefaults_valid : PeerValid peerDefaults := by decide

theorem setDefaults_valid (K : MainDefaults) (cm : ConfigManager)
    (hK : MainValid (mainDefaults K)) : ProfileValid (setDefaults K cm) := by
  unfold ProfileValid setDefaults
  cases hp : cm.isPeer
  · simpa [hp] using hK
  · simpa [hp] using peerDefaults_valid

theorem orFloat_ne_nan (doc : JsonDocument) (key : String) (dflt : Flt)
    (hd : doc.get key ≠ JsonValue.float Flt.nan) (hf : dflt ≠ Flt.nan) :
    doc.orFloat key dflt ≠ Flt.nan := by
  unfold JsonDocument.orFloat
  cases hv : doc.get key with
  | null => simpa [JsonValue.asFloat] using hf
  | bool b => simpa [JsonValue.asFloat] using hf
  | int i => simp [JsonValue.asFloat, Flt.ofInt]
  | float f =>
    rw [hv] at hd
    simpa [JsonValue.asFloat] using hd
  | str s => simpa [JsonValue.asFloat] using hf

theorem withDoc_calibration (K : MainDefaults) (cm : ConfigManager) (doc : JsonDocument) :
    (withDoc K cm doc).calibration =
      doc.orFloat "battery_calibration" VOLTAGE_CALIBRATION_FACTOR := by
  unfold withDoc calibration
  cases hp : cm.isPeer <;> simp [peerOfDoc, mainOfDoc]

end ConfigManager

/-- A table codec yields no NaN calibration when no document of its table holds one. -/
theorem tableCodec_no_nan (table : List (String × JsonDocument))
    (h : ∀ e ∈ table, e.2.get "battery_calibration" ≠ JsonValue.float Flt.nan)
    (s : String) (doc : JsonDocument) (hd : (tableCodec table).deserializeJson s = some doc) :
    doc.get "battery_calibration" ≠ JsonValue.float Flt.nan := by
  induction table with
  | nil => simp [tableCodec] at hd
  | cons e rest ih =>
    obtain ⟨k, v⟩ := e
    simp only [tableCodec, List.lookup_cons] at hd
    cases hk : (s == k)
    · rw [hk] at hd
      exact ih (fun e he => h e (List.mem_cons_of_mem _ he)) hd
    · rw [hk] at hd
      cases hd
      exact h (k, doc) (List.mem_cons_self _ _)


namespace ConfigManager

/-- The defaults are assigned over whatever the selected profile held. -/
theorem setDefaults_validate_withDoc (K : MainDefaults) (cm : ConfigManager)
    (doc : JsonDocument) : setDefaults K (validate K (withDoc K cm doc)).2 = setDefaults K cm := by
  unfold setDefaults validate withDoc
  cases hp : cm.isPeer <;> simp

theorem setDefaults_withDoc (K : MainDefaults) (cm : ConfigManager)
    (doc : JsonDocument) : setDefaults K (withDoc K cm doc) = setDefaults K cm := by
  unfold setDefaults withDoc
  cases hp : cm.isPeer <;> simp


/-- For a calibration factor that is a number, the profile `validate` leaves
satisfies every predicate, given that the compiled defaults do. -/
theorem validate_valid_of_number (K : MainDefaults) (cm : ConfigManager)
    (hK : MainValid (mainDefaults K)) (hn : cm.calibration ≠ Flt.nan) :
    ProfileValid (validate K cm).2 := by
  unfold calibration at hn
  unfold ProfileValid validate
  cases hp : cm.isPeer
  · simp only [hp, Bool.false_eq_true, if_false] at hn ⊢
    rw [validateMainConfig_eq]
    obtain ⟨k0, k1, k2, -, -⟩ := hK
    simp only [mainDefaults] at k0 k1 k2
    unfold MainValid
    simp only
    refine ⟨?_, ?_, ?_, ?_, ?_⟩
    · split <;> omega
    · split <;> omega
    · split <;> omega
    · split
      · decide
      · omega
    · split
      · exact Flt.default_inRange
      · rename_i hc
        have := (Flt.check_eq_false_iff cm.mainConfig.batteryCalibration).1 (by simpa using hc)
        tauto
  · simp only [hp, if_true] at hn ⊢
    rw [validatePeerConfig_eq]
    unfold PeerValid
    simp only
    refine ⟨?_, ?_⟩
    · split
      · decide
      · omega
    · split
      · exact Flt.default_inRange
      · rename_i hc
        have := (Flt.check_eq_false_iff cm.peerConfig.batteryCalibration).1 (by simpa using hc)
        tauto

/-- The fields `validate` never assigns. -/
theorem validate_frame (K : MainDefaults) (cm : ConfigManager) :
    (validate K cm).2.isPeer = cm.isPeer ∧
      (validate K cm).2.mainConfig.touchThreshold = cm.mainConfig.touchThreshold ∧
      (validate K cm).2.mainConfig.joystickCenterX = cm.mainConfig.joystickCenterX ∧
      (validate K cm).2.mainConfig.joystickCenterY = cm.mainConfig.joystickCenterY ∧
      (validate K cm).2.mainConfig.joystickDeadzone = cm.mainConfig.joystickDeadzone ∧
      (validate K cm).2.mainConfig.espnowPeerMAC = cm.mainConfig.espnowPeerMAC ∧
      (validate K cm).2.mainConfig.espnowHeartbeatInterval =
        cm.mainConfig.espnowHeartbeatInterval ∧
      (validate K cm).2.mainConfig.debugSerialEnabled = cm.mainConfig.debugSerialEnabled ∧
      (validate K cm).2.peerConfig.espnowMainMAC = cm.peerConfig.espnowMainMAC ∧
      (validate K cm).2.peerConfig.debugSerialEnabled = cm.peerConfig.debugSerialEnabled := by
  unfold validate
  cases hp : cm.isPeer <;> simp [validateMainConfig_eq, validatePeerConfig_eq]

end ConfigManager

/-! ## Facts about the round trip through a document -/

namespace ConfigManager

theorem orInt_of_get (doc : JsonDocument) (key : String) (dflt i : Int) (hi : fitsInt i)
    (h : doc.get key = JsonValue.int i) : doc.orInt key dflt = i := by
  unfold fitsInt at hi
  simp [JsonDocument.orInt, h, JsonValue.asInt, hi]

theorem orStr_of_get (doc : JsonDocument) (key dflt s : String)
    (h : doc.get key = JsonValue.str s) : doc.orStr key dflt = s := by
  simp [JsonDocument.orStr, h, JsonValue.asStr]

theorem orFloat_of_get (doc : JsonDocument) (key : String) (dflt f : Flt)
    (h : doc.get key = JsonValue.float f) : doc.orFloat key dflt = f := by
  simp [JsonDocument.orFloat, h, JsonValue.asFloat]

theorem orBool_of_get (doc : JsonDocument) (key : String) (dflt b : Bool)
    (h : doc.get key = JsonValue.bool b) : doc.orBool key dflt = b := by
  simp [JsonDocument.orBool, h, JsonValue.asBool]

/-- Reading back the document built from a storable Peer profile. -/
theorem peerOfDoc_docOfPeer (c : PeerConfig) (h : c.Storable) : peerOfDoc (docOfPeer c) = c := by
  obtain ⟨h1, h2⟩ := h
  unfold peerOfDoc
  rw [orStr_of_get (docOfPeer c) "espnow_main_mac" _ c.espnowMainMAC rfl,
    orInt_of_get (docOfPeer c) "espnow_timeout" _ c.espnowTimeout h1 rfl,
    orFloat_of_get (docOfPeer c) "battery_calibration" _ c.batteryCalibration rfl,
    orBool_of_get (docOfPeer c) "debug_serial" _ c.debugSerialEnabled rfl]
  unfold strncpy
  rw [firstChars_of_le _ _ h2]

/-- The document `saveMainConfig` builds, member by member. -/
theorem docOfMain_eq (c : MainConfig) :
    docOfMain c =
      [("backlight_default", JsonValue.int c.backlightDefault),
        ("touch_min_x", JsonValue.int c.touchMinX),
        ("touch_max_x", JsonValue.int c.touchMaxX),
        ("touch_min_y", JsonValue.int c.touchMinY),
        ("touch_max_y", JsonValue.int c.touchMaxY),
        ("touch_threshold", JsonValue.int c.touchThreshold),
        ("joystick_center_x", JsonValue.int c.joystickCenterX),
        ("joystick_center_y", JsonValue.int c.joystickCenterY),
        ("joystick_deadzone", JsonValue.int c.joystickDeadzone),
        ("espnow_peer_mac", JsonValue.str c.espnowPeerMAC),
        ("espnow_heartbeat", JsonValue.int c.espnowHeartbeatInterval),
        ("espnow_timeout", JsonValue.int c.espnowTimeout),
        ("battery_calibration", JsonValue.float c.batteryCalibration),
        ("debug_serial", JsonValue.bool c.debugSerialEnabled)] := by
  rfl

/-- Reading back the document built from a storable Main profile. -/
theorem mainOfDoc_docOfMain (K : MainDefaults) (c : MainConfig) (h : c.Storable) :
    mainOfDoc K (docOfMain c) = c := by
  obtain ⟨h1, h2, h3, h4, h5, h6, h7, h8, h9, h10, h11, h12⟩ := h
  rw [docOfMain_eq]
  generalize hd : ([("backlight_default", JsonValue.int c.backlightDefault),
        ("touch_min_x", JsonValue.int c.touchMinX),
        ("touch_max_x", JsonValue.int c.touchMaxX),
        ("touch_min_y", JsonValue.int c.touchMinY),
        ("touch_max_y", JsonValue.int c.touchMaxY),
        ("touch_threshold", JsonValue.int c.touchThreshold),
        ("joystick_center_x", JsonValue.int c.joystickCenterX),
        ("joystick_center_y", JsonValue.int c.joystickCenterY),
        ("joystick_deadzone", JsonValue.int c.joystickDeadzone),
        ("espnow_peer_mac", JsonValue.str c.espnowPeerMAC),
        ("espnow_heartbeat", JsonValue.int c.espnowHeartbeatInterval),
        ("espnow_timeout", JsonValue.int c.espnowTimeout),
        ("battery_calibration", JsonValue.float c.batteryCalibration),
        ("debug_serial", JsonValue.bool c.debugSerialEnabled)] : JsonDocument) = doc
  have g1 : JsonDocument.get doc "backlight_default" = JsonValue.int c.backlightDefault := by rw [← hd]; rfl
  have g2 : JsonDocument.get doc "touch_min_x" = JsonValue.int c.touchMinX := by rw [← hd]; rfl
  have g3 : JsonDocument.get doc "touch_max_x" = JsonValue.int c.touchMaxX := by rw [← hd]; rfl
  have g4 : JsonDocument.get doc "touch_min_y" = JsonValue.int c.touchMinY := by rw [← hd]; rfl
  have g5 : JsonDocument.get doc "touch_max_y" = JsonValue.int c.touchMaxY := by rw [← hd]; rfl
  have g6 : JsonDocument.get doc "touch_threshold" = JsonValue.int c.touchThreshold := by rw [← hd]; rfl
  have g7 : JsonDocument.get doc "joystick_center_x" = JsonValue.int c.joystickCenterX := by rw [← hd]; rfl
  have g8 : JsonDocument.get doc "joystick_center_y" = JsonValue.int c.joystickCenterY := by rw [← hd]; rfl
  have g9 : JsonDocument.get doc "joystick_deadzone" = JsonValue.int c.joystickDeadzone := by rw [← hd]; rfl
  have g10 : JsonDocument.get doc "espnow_peer_mac" = JsonValue.str c.espnowPeerMAC := by rw [← hd]; rfl
  have g11 : JsonDocument.get doc "espnow_heartbeat" = JsonValue.int c.espnowHeartbeatInterval := by
    rw [← hd]; rfl
  have g12 : JsonDocument.get doc "espnow_timeout" = JsonValue.int c.espnowTimeout := by rw [← hd]; rfl
  have g13 : JsonDocument.get doc "battery_calibration" = JsonValue.float c.batteryCalibration := by
    rw [← hd]; rfl
  have g14 : JsonDocument.get doc "debug_serial" = JsonValue.bool c.debugSerialEnabled := by rw [← hd]; rfl
  unfold mainOfDoc
  rw [orInt_of_get doc _ _ _ h1 g1, orInt_of_get doc _ _ _ h2 g2, orInt_of_get doc _ _ _ h3 g3,
    orInt_of_get doc _ _ _ h4 g4, orInt_of_get doc _ _ _ h5 g5, orInt_of_get doc _ _ _ h6 g6,
    orInt_of_get doc _ _ _ h7 g7, orInt_of_get doc _ _ _ h8 g8, orInt_of_get doc _ _ _ h9 g9,
    orStr_of_get doc _ _ _ g10, orInt_of_get doc _ _ _ h10 g11, orInt_of_get doc _ _ _ h11 g12,
    orFloat_of_get doc _ _ _ g13, orBool_of_get doc _ _ _ g14]
  unfold strncpy
  rw [firstChars_of_le _ _ h12]

theorem withDoc_docOf (K : MainDefaults) (cm : ConfigManager) (h : cm.Storable) :
    withDoc K cm (docOf cm) = cm := by
  unfold Storable at h
  unfold withDoc docOf
  obtain ⟨p, m, q⟩ := cm
  cases p
  · simp only [Bool.false_eq_true, if_false] at h ⊢
    rw [mainOfDoc_docOfMain K _ h]
  · simp only [if_true] at h ⊢
    rw [peerOfDoc_docOfPeer _ h]

end ConfigManager

namespace SDCardHandler

/-- What a successful `writeFile` tells about the handler. -/
theorem writeFile_true (h : SDCardHandler) (path data : String)
    (ht : (h.writeFile path data).1 = true) :
    h.mounted = true ∧ (path, OpenMode.FILE_WRITE) ∉ h.SD.denied ∧ data ≠ "" := by
  unfold writeFile at ht
  cases hm : h.mounted
  · simp [hm] at ht
  · by_cases hd : (path, OpenMode.FILE_WRITE) ∈ h.SD.denied
    · simp [hm, SDClass.openWrite, hd] at ht
    · refine ⟨rfl, hd, ?_⟩
      intro he
      subst he
      simp [hm, SDClass.openWrite, hd, SDClass.print, firstChars] at ht

theorem fileExists_of_lookup (h : SDCardHandler) (path content : String)
    (hm : h.mounted = true) (hl : h.SD.files.lookup path = some content) :
    h.fileExists path = true := by
  simp [fileExists, hm, SDClass.exists_, hl]

theorem readFileAsString_of_lookup (h : SDCardHandler) (path content : String)
    (hm : h.mounted = true) (hr : (path, OpenMode.FILE_READ) ∉ h.SD.denied)
    (hl : h.SD.files.lookup path = some content) :
    h.readFileAsString path = content := by
  simp [readFileAsString, hm, SDClass.openRead, hr, hl]

theorem isEmpty_eq_false (s : String) (h : s ≠ "") : s.isEmpty = false := by
  cases hs : s.isEmpty
  · rfl
  · exact absurd ((String.isEmpty_iff s).1 hs) h

end SDCardHandler

namespace ConfigManager

theorem length_pos_of_ne_empty (s : String) (h : s ≠ "") : s.length > 0 := by
  rcases s with ⟨l⟩
  cases l with
  | nil => exact absurd rfl h
  | cons a t => simp [String.length]

/-- The handler after a `save` that the card stores. -/
theorem save_stores (codec : JsonCodec) (cm : ConfigManager) (sd : SDCardHandler)
    (hav : sd.isAvailable = true)
    (hacc : sd.Accepts (configFile cm.isPeer) (codec.serializeJsonPretty (docOf cm))) :
    (save codec cm sd).1 = decide ((codec.serializeJsonPretty (docOf cm)).length > 0) ∧
      (save codec cm sd).2.mounted = true ∧
      (save codec cm sd).2.SD.denied = sd.SD.denied ∧
      (save codec cm sd).2.SD.quota = sd.SD.quota ∧
      (save codec cm sd).2.SD.files.lookup (configFile cm.isPeer) =
        some (codec.serializeJsonPretty (docOf cm)) := by
  rw [save_eq, if_pos hav]
  exact SDCardHandler.writeFile_full sd _ _ hav hacc.1 hacc.2

/-- A load from a handler whose file holds a text that parses. -/
theorem load_of_file (codec : JsonCodec) (K : MainDefaults) (cm : ConfigManager)
    (sd : SDCardHandler) (text : String) (doc : JsonDocument)
    (hm : sd.mounted = true)
    (hr : (configFile cm.isPeer, OpenMode.FILE_READ) ∉ sd.SD.denied)
    (hl : sd.SD.files.lookup (configFile cm.isPeer) = some text)
    (hne : text ≠ "") (hd : codec.deserializeJson text = some doc) :
    load codec K cm sd = (true, withDoc K cm doc) := by
  rw [load_eq, SDCardHandler.readFileAsString_of_lookup sd _ text hm hr hl,
    SDCardHandler.fileExists_of_lookup sd _ text hm hl, hd]
  have : sd.isAvailable = true := hm
  simp [this, SDCardHandler.isEmpty_eq_false text hne]

theorem withDoc_sameProfile (K : MainDefaults) (cm0 cm : ConfigManager)
    (hp : cm0.isPeer = cm.isPeer) (hst : cm.Storable) :
    SameProfile (withDoc K cm0 (docOf cm)) cm := by
  unfold Storable at hst
  unfold SameProfile withDoc docOf
  cases hc : cm.isPeer
  · rw [hc] at hp
    simp only [hc, hp, Bool.false_eq_true, if_false] at hst ⊢
    exact ⟨trivial, mainOfDoc_docOfMain K _ hst⟩
  · rw [hc] at hp
    simp only [hc, hp, if_true] at hst ⊢
    exact ⟨trivial, peerOfDoc_docOfPeer _ hst⟩

end ConfigManager

/-! ## Facts about `begin` -/

namespace ConfigManager

/-- The compiled defaults hold a calibration factor that is a number. -/
theorem setDefaults_calibration (K : MainDefaults) (cm : ConfigManager) :
    (setDefaults K cm).calibration = VOLTAGE_CALIBRATION_FACTOR := by
  unfold setDefaults calibration
  cases hp : cm.isPeer <;> simp [peerDefaults, mainDefaults]

/-- The outcome of `begin` when the load fails. -/
theorem begin_of_load_false (codec : JsonCodec) (K : MainDefaults) (cm : ConfigManager)
    (sd : SDCardHandler) (hl : (load codec K cm sd).1 = false) :
    begin codec K cm sd = (true, setDefaults K cm, (save codec (setDefaults K cm) sd).2) := by
  have he := load_false codec K cm sd hl
  simp only [begin, hl, Bool.false_eq_true, if_false]
  rw [he]

/-- The outcome of `begin` when the load succeeds and `validate` corrects. -/
theorem begin_of_validate_false (codec : JsonCodec) (K : MainDefaults) (cm : ConfigManager)
    (sd : SDCardHandler) (hl : (load codec K cm sd).1 = true)
    (hv : (validate K (load codec K cm sd).2).1 = false) :
    begin codec K cm sd = (true, setDefaults K cm, (save codec (setDefaults K cm) sd).2) := by
  obtain ⟨doc, _, he⟩ := load_true codec K cm sd hl
  have hs : setDefaults K (validate K (load codec K cm sd).2).2 = setDefaults K cm := by
    rw [he]
    exact setDefaults_validate_withDoc K cm doc
  simp only [begin, hl, hv, if_true, Bool.false_eq_true, if_false, hs]

/-- The outcome of `begin` when the load succeeds and `validate` agrees. -/
theorem begin_of_validate_true (codec : JsonCodec) (K : MainDefaults) (cm : ConfigManager)
    (sd : SDCardHandler) (hl : (load codec K cm sd).1 = true)
    (hv : (validate K (load codec K cm sd).2).1 = true) :
    begin codec K cm sd = (true, (load codec K cm sd).2, sd) := by
  simp only [begin, hl, hv, if_true]
  rw [validate_true_unchanged K _ hv]

theorem withDoc_withDoc (K : MainDefaults) (cm : ConfigManager) (doc doc1 : JsonDocument) :
    withDoc K (withDoc K cm doc1) doc = withDoc K cm doc := by
  unfold withDoc
  cases hp : cm.isPeer <;> simp

theorem withDoc_isPeer (K : MainDefaults) (cm : ConfigManager) (doc : JsonDocument) :
    (withDoc K cm doc).isPeer = cm.isPeer := by
  unfold withDoc
  cases hp : cm.isPeer <;> simp

/-- Loading again into the result of a successful load gives the same. -/
theorem load_again (codec : JsonCodec) (K : MainDefaults) (cm : ConfigManager)
    (sd : SDCardHandler) (hl : (load codec K cm sd).1 = true) :
    load codec K (load codec K cm sd).2 sd = load codec K cm sd := by
  obtain ⟨doc, hd, he⟩ := load_true codec K cm sd hl
  have h2 := hl
  rw [load_eq] at h2
  rw [he]
  show load codec K (withDoc K cm doc) sd = (true, withDoc K cm doc)
  rw [load_eq, withDoc_isPeer]
  split
  · rw [hd]
    show (true, withDoc K (withDoc K cm doc) doc) = (true, withDoc K cm doc)
    rw [withDoc_withDoc]
  · rename_i hc
    rw [if_neg hc] at h2
    simp at h2

/-- A load from the card on which the defaults were saved, into any memory. -/
theorem load_saved_defaults (codec : JsonCodec) (K : MainDefaults) (cm : ConfigManager)
    (sd : SDCardHandler) (hav : sd.isAvailable = true)
    (hsd : sd.Stores (configFile cm.isPeer)
      (codec.serializeJsonPretty (docOf (setDefaults K cm))))
    (hcodec : codec.Inverts (docOf (setDefaults K cm))) (cm0 : ConfigManager)
    (hp : cm0.isPeer = cm.isPeer) :
    (save codec (setDefaults K cm) sd).2.SD.files.lookup (configFile cm.isPeer) =
        some (codec.serializeJsonPretty (docOf (setDefaults K cm))) ∧
      load codec K cm0 (save codec (setDefaults K cm) sd).2 =
        (true, withDoc K cm0 (docOf (setDefaults K cm))) := by
  obtain ⟨hacc, hne, hr⟩ := hsd
  have hacc1 : sd.Accepts (configFile (setDefaults K cm).isPeer)
      (codec.serializeJsonPretty (docOf (setDefaults K cm))) := by
    rw [setDefaults_isPeer]; exact hacc
  obtain ⟨_, h2, h3, _, h5⟩ := save_stores codec (setDefaults K cm) sd hav hacc1
  rw [setDefaults_isPeer] at h5
  exact ⟨h5, load_of_file codec K cm0 (save codec (setDefaults K cm) sd).2 _
    (docOf (setDefaults K cm)) h2 (by rw [h3, hp]; exact hr) (by rw [hp]; exact h5) hne hcodec⟩

/-- The second `begin` after one that stored the defaults. -/
theorem begin_after_defaults (codec : JsonCodec) (K : MainDefaults) (cm : ConfigManager)
    (sd : SDCardHandler) (hK : MainValid (mainDefaults K))
    (hst : (setDefaults K cm).Storable) (hav : sd.isAvailable = true)
    (hsd : sd.Stores (configFile cm.isPeer)
      (codec.serializeJsonPretty (docOf (setDefaults K cm))))
    (hcodec : codec.Inverts (docOf (setDefaults K cm))) :
    load codec K (setDefaults K cm) (save codec (setDefaults K cm) sd).2 =
        (true, setDefaults K cm) ∧
      (validate K (setDefaults K cm)).1 = true := by
  refine ⟨?_, ?_⟩
  · rw [(load_saved_defaults codec K cm sd hav hsd hcodec (setDefaults K cm)
      (setDefaults_isPeer K cm)).2, withDoc_docOf K _ hst]
  · have hn : (setDefaults K cm).calibration ≠ Flt.nan := by
      rw [setDefaults_calibration]; decide
    exact (validate_true_iff_of_number K _ hn).2 (setDefaults_valid K cm hK)


/-- The three ways in which the profile's file counts as absent. -/
theorem load_absent (codec : JsonCodec) (K : MainDefaults) (cm : ConfigManager)
    (sd : SDCardHandler)
    (habs : sd.fileExists (configFile cm.isPeer) = false ∨
      sd.readFileAsString (configFile cm.isPeer) = "" ∨
      codec.deserializeJson (sd.readFileAsString (configFile cm.isPeer)) = none) :
    (load codec K cm sd).1 = false := by
  rw [load_eq]
  split
  · rename_i hc
    obtain ⟨_, he, hr⟩ := hc
    rcases habs with h | h | h
    · rw [h] at he; cases he
    · rw [h] at hr; cases hr
    · rw [h]
  · rfl


/-- A load from a handler whose file exists and reads as a text that parses. -/
theorem load_of_parse (codec : JsonCodec) (K : MainDefaults) (cm : ConfigManager)
    (sd : SDCardHandler) (doc : JsonDocument) (hav : sd.isAvailable = true)
    (hfile : sd.fileExists (configFile cm.isPeer) = true)
    (htext : sd.readFileAsString (configFile cm.isPeer) ≠ "")
    (hparse : codec.deserializeJson (sd.readFileAsString (configFile cm.isPeer)) = some doc) :
    load codec K cm sd = (true, withDoc K cm doc) := by
  rw [load_eq, hparse]
  simp [hav, hfile, SDCardHandler.isEmpty_eq_false _ htext]


theorem begin_fst (codec : JsonCodec) (K : MainDefaults) (cm : ConfigManager)
    (sd : SDCardHandler) : (begin codec K cm sd).1 = true := by
  simp only [begin]
  split
  · split <;> rfl
  · rfl

theorem load_unavailable (codec : JsonCodec) (K : MainDefaults) (cm : ConfigManager)
    (sd : SDCardHandler) (h : sd.isAvailable = false) : load codec K cm sd = (false, cm) := by
  simp [load, h]

theorem save_unavailable (codec : JsonCodec) (cm : ConfigManager)
    (sd : SDCardHandler) (h : sd.isAvailable = false) : save codec cm sd = (false, sd) := by
  simp [save, h]

end ConfigManager

theorem OrDefault.getD {α : Type} (typed : Option α) (dflt : α) :
    OrDefault typed dflt (typed.getD dflt) := by
  cases typed <;> simp [OrDefault]

theorem OrDefault.map_getD {α : Type} (typed : Option α) (dflt : α) (f : α → α)
    (hf : f dflt = dflt) : OrDefault (typed.map f) dflt (f (typed.getD dflt)) := by
  cases typed <;> simp [OrDefault, hf]

namespace ConfigManager

theorem mainOfDoc_orDefault (K : MainDefaults) (doc : JsonDocument) :
    MainOrDefault (fun s => strncpy s 17) K doc (mainOfDoc K doc) := by
  unfold MainOrDefault mainOfDoc JsonDocument.orInt JsonDocument.orStr
    JsonDocument.orFloat JsonDocument.orBool
  exact ⟨OrDefault.getD _ _, OrDefault.getD _ _, OrDefault.getD _ _, OrDefault.getD _ _,
    OrDefault.getD _ _, OrDefault.getD _ _, OrDefault.getD _ _, OrDefault.getD _ _,
    OrDefault.getD _ _, OrDefault.map_getD _ _ (fun s => strncpy s 17) (by decide),
    OrDefault.getD _ _, OrDefault.getD _ _, OrDefault.getD _ _, OrDefault.getD _ _⟩

theorem peerOfDoc_orDefault (doc : JsonDocument) :
    PeerOrDefault (fun s => strncpy s 17) doc (peerOfDoc doc) := by
  unfold PeerOrDefault peerOfDoc JsonDocument.orInt JsonDocument.orStr
    JsonDocument.orFloat JsonDocument.orBool
  exact ⟨OrDefault.map_getD _ _ (fun s => strncpy s 17) (by decide), OrDefault.getD _ _,
    OrDefault.getD _ _, OrDefault.getD _ _⟩

end ConfigManager

/-! ## The handler's operations in closed form -/

namespace SDClass

theorem erase_erase (files : List (String × String)) (path : String) :
    erase (erase files path) path = erase files path := by
  simp [erase, List.filter_filter]

theorem store_store (files : List (String × String)) (path a b : String) :
    store (store files path a) path b = store files path b := by
  have h := erase_erase files path
  unfold erase at h
  simp only [store, List.filter_cons, bne_self_eq_false, Bool.false_eq_true, if_false, h]

end SDClass

namespace SDCardHandler

/-- The handler with other files on its card. -/
theorem writeFile_eq (h : SDCardHandler) (path data : String) :
    h.writeFile path data =
      if h.mounted = true ∧ (path, OpenMode.FILE_WRITE) ∉ h.SD.denied then
        (decide ((firstChars data h.SD.quota).length > 0),
          { h with SD := { h.SD with
            files := SDClass.store h.SD.files path (firstChars data h.SD.quota) } })
      else (false, h) := by
  unfold writeFile
  cases hm : h.mounted
  · simp
  · by_cases hd : (path, OpenMode.FILE_WRITE) ∈ h.SD.denied
    · simp [SDClass.openWrite, hd]
    · simp [SDClass.openWrite, hd, SDClass.print, SDClass.lookup_store_same,
        SDClass.store_store]

theorem appendFile_eq (h : SDCardHandler) (path data : String) :
    h.appendFile path data =
      if h.mounted = true ∧ (path, OpenMode.FILE_APPEND) ∉ h.SD.denied then
        (decide ((firstChars data h.SD.quota).length > 0),
          { h with SD := { h.SD with
            files := SDClass.store h.SD.files path
              ((h.SD.files.lookup path).getD "" ++ firstChars data h.SD.quota) } })
      else (false, h) := by
  unfold appendFile
  cases hm : h.mounted
  · simp
  · by_cases hd : (path, OpenMode.FILE_APPEND) ∈ h.SD.denied
    · simp [SDClass.openAppend, hd]
    · simp [SDClass.openAppend, hd, SDClass.print, SDClass.lookup_store_same,
        SDClass.store_store]

theorem deleteFile_eq (h : SDCardHandler) (path : String) :
    h.deleteFile path =
      if h.mounted = true ∧ h.SD.exists_ path = true ∧ path ∉ h.SD.pinned then
        (true, { h with SD := { h.SD with files := SDClass.erase h.SD.files path } })
      else (false, h) := by
  obtain ⟨m, card⟩ := h
  unfold deleteFile
  cases m
  · simp
  · cases he : card.exists_ path
    · simp [he]
    · by_cases hp : path ∈ card.pinned
      · simp [SDClass.remove, hp, he]
      · simp [SDClass.remove, hp, he]

theorem renameFile_eq (h : SDCardHandler) (oldPath newPath : String) :
    h.renameFile oldPath newPath =
      if h.mounted = true ∧ h.SD.exists_ oldPath = true ∧ oldPath ∉ h.SD.pinned ∧
          h.SD.exists_ newPath = false then
        (true, { h with SD := { h.SD with
          files := SDClass.store (SDClass.erase h.SD.files oldPath) newPath
            ((h.SD.files.lookup oldPath).getD "") } })
      else (false, h) := by
  obtain ⟨m, card⟩ := h
  unfold renameFile
  cases m
  · simp
  · cases hl : card.files.lookup oldPath with
    | none => simp [SDClass.exists_, hl]
    | some content =>
      by_cases hp : oldPath ∈ card.pinned
      · simp [SDClass.exists_, hl, SDClass.rename, hp]
      · cases hn : card.files.lookup newPath with
        | none => simp [SDClass.exists_, hl, SDClass.rename, hp, hn]
        | some c2 => simp [SDClass.exists_, hl, SDClass.rename, hp, hn]

end SDCardHandler

namespace SDCardHandler

theorem SameExcept.refl (a : SDCardHandler) (paths : List String) : SameExcept a a paths :=
  ⟨rfl, rfl, rfl, rfl, rfl, rfl, rfl, fun _ _ => rfl⟩

theorem SameExcept.trans {a b c : SDCardHandler} {paths : List String}
    (h1 : SameExcept a b paths) (h2 : SameExcept b c paths) : SameExcept a c paths :=
  ⟨h1.1.trans h2.1, h1.2.1.trans h2.2.1, h1.2.2.1.trans h2.2.2.1,
    h1.2.2.2.1.trans h2.2.2.2.1, h1.2.2.2.2.1.trans h2.2.2.2.2.1,
    h1.2.2.2.2.2.1.trans h2.2.2.2.2.2.1, h1.2.2.2.2.2.2.1.trans h2.2.2.2.2.2.2.1,
    fun q hq => (h1.2.2.2.2.2.2.2 q hq).trans (h2.2.2.2.2.2.2.2 q hq)⟩

theorem SameExcept.mono {a b : SDCardHandler} {paths more : List String}
    (h : SameExcept a b paths) (hsub : ∀ q, q ∈ paths → q ∈ more) : SameExcept a b more :=
  ⟨h.1, h.2.1, h.2.2.1, h.2.2.2.1, h.2.2.2.2.1, h.2.2.2.2.2.1, h.2.2.2.2.2.2.1,
    fun q hq => h.2.2.2.2.2.2.2 q (fun hin => hq (hsub q hin))⟩

theorem writeFile_sameExcept (h : SDCardHandler) (path data : String) :
    SameExcept (h.writeFile path data).2 h [path] := by
  rw [writeFile_eq]
  split
  · refine ⟨rfl, rfl, rfl, rfl, rfl, rfl, rfl, fun q hq => ?_⟩
    exact SDClass.lookup_store_ne _ _ _ _ (by simpa using hq)
  · exact SameExcept.refl _ _

theorem appendFile_sameExcept (h : SDCardHandler) (path data : String) :
    SameExcept (h.appendFile path data).2 h [path] := by
  rw [appendFile_eq]
  split
  · refine ⟨rfl, rfl, rfl, rfl, rfl, rfl, rfl, fun q hq => ?_⟩
    exact SDClass.lookup_store_ne _ _ _ _ (by simpa using hq)
  · exact SameExcept.refl _ _

theorem deleteFile_sameExcept (h : SDCardHandler) (path : String) :
    SameExcept (h.deleteFile path).2 h [path] := by
  rw [deleteFile_eq]
  split
  · refine ⟨rfl, rfl, rfl, rfl, rfl, rfl, rfl, fun q hq => ?_⟩
    exact SDClass.lookup_erase_ne _ _ _ (by simpa using hq)
  · exact SameExcept.refl _ _

theorem renameFile_sameExcept (h : SDCardHandler) (oldPath newPath : String) :
    SameExcept (h.renameFile oldPath newPath).2 h [oldPath, newPath] := by
  rw [renameFile_eq]
  split
  · refine ⟨rfl, rfl, rfl, rfl, rfl, rfl, rfl, fun q hq => ?_⟩
    have h1 : q ≠ oldPath := fun e => hq (by simp [e])
    have h2 : q ≠ newPath := fun e => hq (by simp [e])
    show (SDClass.store (SDClass.erase h.SD.files oldPath) newPath _).lookup q = _
    rw [SDClass.lookup_store_ne _ _ _ _ h2, SDClass.lookup_erase_ne _ _ _ h1]
  · exact SameExcept.refl _ _

end SDCardHandler

/-! ## Facts about rotation and `writeLine` -/

theorem append_suffix_ne (path : String) : path ++ ".1" ≠ path := by
  intro h
  have := congrArg String.length h
  simp only [String.length_append] at this
  have h1 : (".1" : String).length = 2 := by decide
  omega

namespace SDCardHandler

/-- A size above zero tells that the file is there and can be read. -/
theorem lookup_of_getFileSize_pos (h : SDCardHandler) (path : String)
    (hs : h.getFileSize path > 0) :
    h.mounted = true ∧ (path, OpenMode.FILE_READ) ∉ h.SD.denied ∧
      ∃ content, h.SD.files.lookup path = some content ∧
        h.getFileSize path = content.utf8ByteSize := by
  unfold getFileSize at hs ⊢
  cases hm : h.mounted
  · simp [hm] at hs
  · by_cases hd : (path, OpenMode.FILE_READ) ∈ h.SD.denied
    · simp [hm, SDClass.openRead, hd] at hs
    · cases hl : h.SD.files.lookup path with
      | none => simp [hm, SDClass.openRead, hd, hl] at hs
      | some content =>
        refine ⟨rfl, hd, content, rfl, ?_⟩
        simp [SDClass.openRead, hd, hl]

/-- An append that the card takes in full. -/
theorem appendLine_full (h : SDCardHandler) (path line : String) (hm : h.mounted = true)
    (hd : (path, OpenMode.FILE_APPEND) ∉ h.SD.denied)
    (hq : (line ++ "\n").length ≤ h.SD.quota) :
    (h.appendLine path line).1 = true ∧
      (h.appendLine path line).2.SD.files.lookup path =
        some ((h.SD.files.lookup path).getD "" ++ (line ++ "\n")) := by
  unfold appendLine
  rw [appendFile_eq, if_pos ⟨hm, hd⟩, firstChars_of_le _ _ hq]
  refine ⟨?_, SDClass.lookup_store_same _ _ _⟩
  have h1 : ("\n" : String).length = 1 := by decide
  have h2 : (line ++ "\n").length > 0 := by
    rw [String.length_append, h1]
    omega
  exact decide_eq_true h2

end SDCardHandler

namespace LogManager

/-- What a rotation does when the file is oversized and the driver refuses
neither the removal of the backup nor the renaming. -/
theorem rotate_oversized (sd : SDCardHandler) (logFile : String)
    (hsize : sd.getFileSize logFile > LOG_MAX_FILE_SIZE)
    (hp1 : logFile ++ ".1" ∉ sd.SD.pinned) (hp2 : logFile ∉ sd.SD.pinned) :
    (rotateLogIfNeeded sd logFile).mounted = true ∧
      (rotateLogIfNeeded sd logFile).SD.denied = sd.SD.denied ∧
      (rotateLogIfNeeded sd logFile).SD.quota = sd.SD.quota ∧
      (rotateLogIfNeeded sd logFile).SD.files.lookup logFile = none ∧
      (rotateLogIfNeeded sd logFile).SD.files.lookup (logFile ++ ".1") =
        sd.SD.files.lookup logFile ∧
      (sd.SD.files.lookup logFile).isSome = true := by
  obtain ⟨hm, _, content, hl, _⟩ :=
    SDCardHandler.lookup_of_getFileSize_pos sd logFile (Nat.lt_of_le_of_lt (Nat.zero_le _) hsize)
  have hne := append_suffix_ne logFile
  unfold rotateLogIfNeeded
  simp only [hsize, if_true]
  -- the handler after the optional removal of the backup
  have key : ∀ sd1 : SDCardHandler, sd1.mounted = true → sd1.SD.denied = sd.SD.denied →
      sd1.SD.quota = sd.SD.quota → sd1.SD.pinned = sd.SD.pinned →
      sd1.SD.files.lookup logFile = some content →
      sd1.SD.files.lookup (logFile ++ ".1") = none →
      (sd1.renameFile logFile (logFile ++ ".1")).2.mounted = true ∧
        (sd1.renameFile logFile (logFile ++ ".1")).2.SD.denied = sd.SD.denied ∧
        (sd1.renameFile logFile (logFile ++ ".1")).2.SD.quota = sd.SD.quota ∧
        (sd1.renameFile logFile (logFile ++ ".1")).2.SD.files.lookup logFile = none ∧
        (sd1.renameFile logFile (logFile ++ ".1")).2.SD.files.lookup (logFile ++ ".1") =
          some content := by
    intro sd1 h1 h2 h3 h4 h5 h6
    have hc : sd1.mounted = true ∧ sd1.SD.exists_ logFile = true ∧ logFile ∉ sd1.SD.pinned ∧
        sd1.SD.exists_ (logFile ++ ".1") = false := by
      refine ⟨h1, by simp [SDClass.exists_, h5], by rw [h4]; exact hp2,
        by simp [SDClass.exists_, h6]⟩
    rw [SDCardHandler.renameFile_eq, if_pos hc]
    refine ⟨h1, h2, h3, ?_, ?_⟩
    · show (SDClass.store (SDClass.erase sd1.SD.files logFile) (logFile ++ ".1") _).lookup
        logFile = none
      rw [SDClass.lookup_store_ne _ _ _ _ (Ne.symm hne), SDClass.lookup_erase_same]
    · show (SDClass.store (SDClass.erase sd1.SD.files logFile) (logFile ++ ".1") _).lookup
        (logFile ++ ".1") = some content
      rw [SDClass.lookup_store_same, h5]
      rfl
  rw [hl]
  cases hb : sd.fileExists (logFile ++ ".1")
  · simp only [Bool.false_eq_true, if_false]
    have hnone : sd.SD.files.lookup (logFile ++ ".1") = none := by
      simp only [SDCardHandler.fileExists, hm, Bool.not_true, Bool.false_eq_true, if_false,
        SDClass.exists_] at hb
      cases hx : sd.SD.files.lookup (logFile ++ ".1") with
      | none => rfl
      | some c => rw [hx] at hb; simp at hb
    obtain ⟨k1, k2, k3, k4, k5⟩ := key sd hm rfl rfl rfl hl hnone
    exact ⟨k1, k2, k3, k4, k5, rfl⟩
  · simp only [if_true]
    have hex : sd.SD.exists_ (logFile ++ ".1") = true := by
      simpa [SDCardHandler.fileExists, hm] using hb
    have hdel : sd.deleteFile (logFile ++ ".1") =
        (true, { sd with SD := { sd.SD with
          files := SDClass.erase sd.SD.files (logFile ++ ".1") } }) := by
      rw [SDCardHandler.deleteFile_eq, if_pos ⟨hm, hex, hp1⟩]
    rw [hdel]
    obtain ⟨k1, k2, k3, k4, k5⟩ := key
      { sd with SD := { sd.SD with files := SDClass.erase sd.SD.files (logFile ++ ".1") } }
      hm rfl rfl rfl
      (by show (SDClass.erase sd.SD.files (logFile ++ ".1")).lookup logFile = some content
          rw [SDClass.lookup_erase_ne _ _ _ (Ne.symm hne), hl])
      (SDClass.lookup_erase_same _ _)
    exact ⟨k1, k2, k3, k4, k5, rfl⟩

end LogManager

theorem utf8ByteSize_go_replicate (n : Nat) :
    String.utf8ByteSize.go (List.replicate n 'a') = n := by
  induction n with
  | zero => rfl
  | succ k ih =>
    rw [List.replicate_succ, String.utf8ByteSize.go, ih]
    rfl

theorem utf8ByteSize_filler (n : Nat) : (filler n).utf8ByteSize = n :=
  utf8ByteSize_go_replicate n

theorem fullBatteryCard_size :
    fullBatteryCard.getFileSize LOG_FILE_BATTERY = LOG_MAX_FILE_SIZE + 1 := by
  have hl : fullBatteryCard.SD.files.lookup LOG_FILE_BATTERY =
      some (filler (LOG_MAX_FILE_SIZE + 1)) := by
    simp [fullBatteryCard, List.lookup]
  have hd : (LOG_FILE_BATTERY, OpenMode.FILE_READ) ∉ fullBatteryCard.SD.denied := by
    simp [fullBatteryCard, blankCard]
  have hm : fullBatteryCard.mounted = true := rfl
  simp only [SDCardHandler.getFileSize, hm, SDClass.openRead, hd, hl, utf8ByteSize_filler,
    Bool.not_true, Bool.false_eq_true, if_false]

namespace LogManager

/-- On an available backend `writeLine` is the rotation check followed by one
`appendLine`. -/
theorem writeLine_available (sd : SDCardHandler) (logFile line : String)
    (hav : sd.isAvailable = true) :
    writeLine sd logFile line = (rotateLogIfNeeded sd logFile).appendLine logFile line := by
  simp [writeLine, hav]

theorem writeLine_unavailable (sd : SDCardHandler) (logFile line : String)
    (hav : sd.isAvailable = false) : writeLine sd logFile line = (false, sd) := by
  simp [writeLine, hav]

/-- A file within the limit is not rotated. -/
theorem rotate_small (sd : SDCardHandler) (logFile : String)
    (hsize : sd.getFileSize logFile ≤ LOG_MAX_FILE_SIZE) :
    rotateLogIfNeeded sd logFile = sd := by
  unfold rotateLogIfNeeded
  simp [Nat.not_lt.2 hsize]

/-- One `writeLine` on a file within the limit, when the card takes the line:
the file grows by the line and one newline. -/
theorem writeLine_small (sd : SDCardHandler) (logFile line : String)
    (hav : sd.isAvailable = true) (hsize : sd.getFileSize logFile ≤ LOG_MAX_FILE_SIZE)
    (happ : (logFile, OpenMode.FILE_APPEND) ∉ sd.SD.denied)
    (hq : (line ++ "\n").length ≤ sd.SD.quota) :
    (writeLine sd logFile line).1 = true ∧
      (writeLine sd logFile line).2.SD.files.lookup logFile =
        some ((sd.SD.files.lookup logFile).getD "" ++ (line ++ "\n")) := by
  rw [writeLine_available sd logFile line hav, rotate_small sd logFile hsize]
  exact SDCardHandler.appendLine_full sd logFile line hav happ hq

end LogManager

namespace SDCardHandler

/-- A removal the driver does not refuse leaves no file. -/
theorem deleteFile_gone (h : SDCardHandler) (path : String) (hp : path ∉ h.SD.pinned) :
    (h.deleteFile path).2.SD.files.lookup path = none ∨ h.mounted = false := by
  rw [deleteFile_eq]
  cases hm : h.mounted
  · exact Or.inr rfl
  · left
    cases he : h.SD.exists_ path
    · simp only [Bool.false_eq_true, false_and, and_false, if_false]
      simp only [SDClass.exists_] at he
      cases hl : h.SD.files.lookup path with
      | none => rfl
      | some c => rw [hl] at he; simp at he
    · rw [if_pos ⟨rfl, rfl, hp⟩]
      exact SDClass.lookup_erase_same _ _

end SDCardHandler

namespace LogManager

/-- The files `clearAllLogs` may touch are the four active logs. -/
theorem clearAllLogs_sameExcept (sd : SDCardHandler) :
    SDCardHandler.SameExcept (clearAllLogs sd) sd logFiles := by
  unfold clearAllLogs
  split
  · exact SDCardHandler.SameExcept.refl _ _
  · have m : ∀ (h : SDCardHandler) (p : String), p ∈ logFiles →
        SDCardHandler.SameExcept (h.deleteFile p).2 h logFiles := fun h p hp =>
      (SDCardHandler.deleteFile_sameExcept h p).mono (fun q hq => by
        have : q = p := by simpa using hq
        rw [this]; exact hp)
    exact (m _ LOG_FILE_ERROR (by decide)).trans
      ((m _ LOG_FILE_CONNECTION (by decide)).trans
        ((m _ LOG_FILE_BATTERY (by decide)).trans (m _ LOG_FILE_BOOT (by decide))))

/-- After a removal that went through, later removals of other files keep the
file away. -/
theorem lookup_none_of_sameExcept {a b : SDCardHandler} {p q : String}
    (h : SDCardHandler.SameExcept a b [p]) (hne : q ≠ p)
    (hq : b.SD.files.lookup q = none) : a.SD.files.lookup q = none := by
  rw [h.2.2.2.2.2.2.2 q (by simpa using hne)]
  exact hq

end LogManager

namespace LogManager

theorem channel_mem (c : LogCall) : c.channel ∈ logFiles := by
  cases c <;> simp [LogCall.channel, logFiles]

/-- A rotation touches the active file and its backup only. -/
theorem rotate_sameExcept (sd : SDCardHandler) (logFile : String) :
    SDCardHandler.SameExcept (rotateLogIfNeeded sd logFile) sd [logFile, logFile ++ ".1"] := by
  unfold rotateLogIfNeeded
  simp only
  split
  · have hr : ∀ h : SDCardHandler, SDCardHandler.SameExcept
        (h.renameFile logFile (logFile ++ ".1")).2 h [logFile, logFile ++ ".1"] :=
      fun h => SDCardHandler.renameFile_sameExcept h _ _
    split
    · exact (hr _).trans ((SDCardHandler.deleteFile_sameExcept sd (logFile ++ ".1")).mono
        (fun q hq => by
          have : q = logFile ++ ".1" := by simpa using hq
          simp [this]))
    · exact hr sd
  · exact SDCardHandler.SameExcept.refl _ _

/-- A `writeLine` touches the active file and its backup only. -/
theorem writeLine_sameExcept (sd : SDCardHandler) (logFile line : String) :
    SDCardHandler.SameExcept (writeLine sd logFile line).2 sd [logFile, logFile ++ ".1"] := by
  unfold writeLine
  split
  · exact SDCardHandler.SameExcept.refl _ _
  · exact ((SDCardHandler.appendFile_sameExcept _ logFile (line ++ "\n")).mono
      (fun q hq => by
        have : q = logFile := by simpa using hq
        simp [this])).trans (rotate_sameExcept sd logFile)

/-- A logging call touches the active file of its channel and its backup only. -/
theorem run_sameExcept (P : Platform) (sd : SDCardHandler) (c : LogCall) :
    SDCardHandler.SameExcept (run P sd c).2 sd [c.channel, c.channel ++ ".1"] := by
  cases c with
  | logBootComplete t s =>
    exact (writeLine_sameExcept _ LOG_FILE_BOOT _).trans (writeLine_sameExcept sd LOG_FILE_BOOT "")
  | logBootStart _ _ _ => exact writeLine_sameExcept sd _ _
  | logSetupStep _ _ _ => exact writeLine_sameExcept sd _ _
  | logBattery _ _ _ _ => exact writeLine_sameExcept sd _ _
  | logConnection _ _ _ => exact writeLine_sameExcept sd _ _
  | logConnectionStats _ _ _ _ _ => exact writeLine_sameExcept sd _ _
  | logError _ _ _ _ => exact writeLine_sameExcept sd _ _
  | logCrash _ _ _ => exact writeLine_sameExcept sd _ _

/-- A logging call on an unavailable backend. -/
theorem run_unavailable (P : Platform) (sd : SDCardHandler) (c : LogCall)
    (hav : sd.isAvailable = false) : run P sd c = (false, sd) := by
  cases c with
  | logBootComplete t s =>
    show writeLine (writeLine sd LOG_FILE_BOOT "").2 LOG_FILE_BOOT _ = (false, sd)
    rw [writeLine_unavailable sd _ _ hav]
    exact writeLine_unavailable sd _ _ hav
  | logBootStart _ _ _ => exact writeLine_unavailable sd _ _ hav
  | logSetupStep _ _ _ => exact writeLine_unavailable sd _ _ hav
  | logBattery _ _ _ _ => exact writeLine_unavailable sd _ _ hav
  | logConnection _ _ _ => exact writeLine_unavailable sd _ _ hav
  | logConnectionStats _ _ _ _ _ => exact writeLine_unavailable sd _ _ hav
  | logError _ _ _ _ => exact writeLine_unavailable sd _ _ hav
  | logCrash _ _ _ => exact writeLine_unavailable sd _ _ hav

end LogManager

/-! ## Facts about the size reading and the calls of a `writeLine` -/

namespace SDCardHandler

/-- A missing file reads as size 0. -/
theorem getFileSize_missing (h : SDCardHandler) (path : String)
    (hl : h.SD.files.lookup path = none) : h.getFileSize path = 0 := by
  unfold getFileSize
  cases h.mounted
  · rfl
  · by_cases hd : (path, OpenMode.FILE_READ) ∈ h.SD.denied <;>
      simp [SDClass.openRead, hd, hl]

/-- The size read is never more than the size of the file on the card. -/
theorem getFileSize_le (h : SDCardHandler) (path content : String)
    (hl : h.SD.files.lookup path = some content) :
    h.getFileSize path ≤ content.utf8ByteSize := by
  unfold getFileSize
  cases h.mounted
  · exact Nat.zero_le _
  · by_cases hd : (path, OpenMode.FILE_READ) ∈ h.SD.denied <;>
      simp [SDClass.openRead, hd, hl]

/-- The size read from a file that the driver opens. -/
theorem getFileSize_of_lookup (h : SDCardHandler) (path content : String)
    (hm : h.mounted = true) (hd : (path, OpenMode.FILE_READ) ∉ h.SD.denied)
    (hl : h.SD.files.lookup path = some content) :
    h.getFileSize path = content.utf8ByteSize := by
  simp [getFileSize, hm, SDClass.openRead, hd, hl]

end SDCardHandler

namespace LogManager

/-- The recorded rotation check ends in the state of `rotateLogIfNeeded`. -/
theorem rotateLogIfNeededCalls_snd (sd : SDCardHandler) (logFile : String) :
    (rotateLogIfNeededCalls sd logFile).2 = rotateLogIfNeeded sd logFile := by
  unfold rotateLogIfNeededCalls rotateLogIfNeeded
  simp only
  split
  · split <;> rfl
  · rfl

/-- The recorded `writeLine` returns what `writeLine` returns. -/
theorem writeLineCalls_snd (sd : SDCardHandler) (logFile line : String) :
    (writeLineCalls sd logFile line).2 = writeLine sd logFile line := by
  unfold writeLineCalls writeLine
  split
  · rfl
  · simp only [rotateLogIfNeededCalls_snd]

/-- The rotation check makes no call exactly when the size read is within the
limit. -/
theorem rotateLogIfNeededCalls_nil_iff (sd : SDCardHandler) (logFile : String) :
    (rotateLogIfNeededCalls sd logFile).1 = [] ↔
      sd.getFileSize logFile ≤ LOG_MAX_FILE_SIZE := by
  unfold rotateLogIfNeededCalls
  simp only
  split
  · rename_i h
    simp only [List.append_eq_nil, List.cons_ne_nil, and_false, false_iff, Nat.not_le]
    exact h
  · rename_i h
    simp only [true_iff]
    exact Nat.not_lt.1 h

/-- The calls of the rotation check on an oversized file: the removal of the
backup when there is one, then the renaming. -/
theorem rotateLogIfNeededCalls_oversized (sd : SDCardHandler) (logFile : String)
    (hsize : sd.getFileSize logFile > LOG_MAX_FILE_SIZE) :
    (rotateLogIfNeededCalls sd logFile).1 =
      (if sd.fileExists (logFile ++ ".1") then [SDCall.deleteFile (logFile ++ ".1")] else []) ++
        [SDCall.renameFile logFile (logFile ++ ".1")] := by
  unfold rotateLogIfNeededCalls
  simp only
  rw [if_pos hsize]
  split <;> rfl

/-- The calls of a `writeLine` on an available backend are those of the
rotation check. -/
theorem writeLineCalls_fst (sd : SDCardHandler) (logFile line : String)
    (hav : sd.isAvailable = true) :
    (writeLineCalls sd logFile line).1 = (rotateLogIfNeededCalls sd logFile).1 := by
  simp [writeLineCalls, hav]

end LogManager

/-- The files of the card `limitBatteryCard` that the statements look at. -/
theorem limitBatteryCard_files :
    limitBatteryCard.SD.files.lookup LOG_FILE_BATTERY = some (filler LOG_MAX_FILE_SIZE) ∧
      limitBatteryCard.SD.files.lookup (LOG_FILE_BATTERY ++ ".1") = some "old backup\n" ∧
      limitBatteryCard.SD.files.lookup LOG_FILE_BOOT = none ∧
      limitBatteryCard.SD.files.lookup (LOG_FILE_BOOT ++ ".1") = none := by
  have e1 : (LOG_FILE_BATTERY ++ ".1" == LOG_FILE_BATTERY) = false := by decide
  have e2 : (LOG_FILE_BOOT == LOG_FILE_BATTERY) = false := by decide
  have e3 : (LOG_FILE_BOOT == LOG_FILE_BATTERY ++ ".1") = false := by decide
  have e4 : (LOG_FILE_BOOT == CONFIG_FILE_PEER) = false := by decide
  have e5 : (LOG_FILE_BOOT ++ ".1" == LOG_FILE_BATTERY) = false := by decide
  have e6 : (LOG_FILE_BOOT ++ ".1" == LOG_FILE_BATTERY ++ ".1") = false := by decide
  have e7 : (LOG_FILE_BOOT ++ ".1" == CONFIG_FILE_PEER) = false := by decide
  simp only [limitBatteryCard, List.lookup, e1, e2, e3, e4, e5, e6, e7, beq_self_eq_true,
    and_self]

theorem limitBatteryCard_size :
    limitBatteryCard.getFileSize LOG_FILE_BATTERY = LOG_MAX_FILE_SIZE := by
  have hd : (LOG_FILE_BATTERY, OpenMode.FILE_READ) ∉ limitBatteryCard.SD.denied := by
    simp [limitBatteryCard, blankCard]
  rw [SDCardHandler.getFileSize_of_lookup _ _ _ rfl hd limitBatteryCard_files.1,
    utf8ByteSize_filler]

/-! ## Facts about where the line of a `writeLine` lands -/

theorem utf8ByteSize_go_append (a b : List Char) :
    String.utf8ByteSize.go (a ++ b) = String.utf8ByteSize.go a + String.utf8ByteSize.go b := by
  induction a with
  | nil => simp [String.utf8ByteSize.go]
  | cons c cs ih =>
    have h : String.utf8ByteSize.go (c :: (cs ++ b)) =
        String.utf8ByteSize.go (cs ++ b) + c.utf8Size := rfl
    have h1 : String.utf8ByteSize.go (c :: cs) = String.utf8ByteSize.go cs + c.utf8Size := rfl
    rw [List.cons_append, h, h1, ih]
    omega

theorem utf8ByteSize_append (s t : String) :
    (s ++ t).utf8ByteSize = s.utf8ByteSize + t.utf8ByteSize := by
  show String.utf8ByteSize.go (s ++ t).data = _
  rw [String.data_append]
  exact utf8ByteSize_go_append s.data t.data

namespace LogManager

/-- The faults and the mount flag are the same after a `writeLine`. -/
theorem writeLine_faults (sd : SDCardHandler) (logFile line : String) :
    (writeLine sd logFile line).2.isAvailable = sd.isAvailable ∧
      (writeLine sd logFile line).2.SD.denied = sd.SD.denied ∧
      (writeLine sd logFile line).2.SD.pinned = sd.SD.pinned ∧
      (writeLine sd logFile line).2.SD.quota = sd.SD.quota := by
  have h := writeLine_sameExcept sd logFile line
  exact ⟨h.1, h.2.1, h.2.2.1, h.2.2.2.1⟩

/-- One `writeLine` on an available backend whose driver refuses nothing: the
call returns true and the active file is the line and one newline after its
previous content, or after nothing when the file was oversized and has been
rotated away. -/
theorem writeLine_lands (sd : SDCardHandler) (logFile line : String)
    (hav : sd.isAvailable = true)
    (hdel : logFile ++ ".1" ∉ sd.SD.pinned) (hren : logFile ∉ sd.SD.pinned)
    (happ : (logFile, OpenMode.FILE_APPEND) ∉ sd.SD.denied)
    (hq : (line ++ "\n").length ≤ sd.SD.quota) :
    (writeLine sd logFile line).1 = true ∧
      (writeLine sd logFile line).2.SD.files.lookup logFile =
        some ((if sd.getFileSize logFile > LOG_MAX_FILE_SIZE then ""
          else (sd.SD.files.lookup logFile).getD "") ++ (line ++ "\n")) := by
  by_cases hsize : sd.getFileSize logFile > LOG_MAX_FILE_SIZE
  · obtain ⟨k1, k2, k3, k4, _, _⟩ := rotate_oversized sd logFile hsize hdel hren
    have ha := SDCardHandler.appendLine_full (rotateLogIfNeeded sd logFile) logFile line k1
      (by rw [k2]; exact happ) (by rw [k3]; exact hq)
    rw [writeLine_available sd logFile line hav, if_pos hsize]
    refine ⟨ha.1, ?_⟩
    rw [ha.2, k4]
    rfl
  · rw [if_neg hsize]
    exact writeLine_small sd logFile line hav (Nat.not_lt.1 hsize) happ hq

/-- Two `writeLine` calls in a row on a file that stays within the limit: both
lines land, in their order, after the previous content. -/
theorem writeLine_twice_small (sd : SDCardHandler) (logFile first second : String)
    (hav : sd.isAvailable = true)
    (hsize : ((sd.SD.files.lookup logFile).getD "").utf8ByteSize + (first ++ "\n").utf8ByteSize ≤
      LOG_MAX_FILE_SIZE)
    (happ : (logFile, OpenMode.FILE_APPEND) ∉ sd.SD.denied)
    (hq1 : (first ++ "\n").length ≤ sd.SD.quota)
    (hq2 : (second ++ "\n").length ≤ sd.SD.quota) :
    (writeLine sd logFile first).1 = true ∧
      (writeLine (writeLine sd logFile first).2 logFile second).1 = true ∧
      (writeLine (writeLine sd logFile first).2 logFile second).2.SD.files.lookup logFile =
        some ((sd.SD.files.lookup logFile).getD "" ++ (first ++ "\n") ++ (second ++ "\n")) := by
  have hs1 : sd.getFileSize logFile ≤ LOG_MAX_FILE_SIZE := by
    cases hl : sd.SD.files.lookup logFile with
    | none => rw [SDCardHandler.getFileSize_missing sd logFile hl]; exact Nat.zero_le _
    | some content =>
      have := SDCardHandler.getFileSize_le sd logFile content hl
      rw [hl] at hsize
      simp only [Option.getD_some] at hsize
      omega
  obtain ⟨h1, h2⟩ := writeLine_small sd logFile first hav hs1 happ hq1
  obtain ⟨f1, f2, _, f4⟩ := writeLine_faults sd logFile first
  have hs2 : (writeLine sd logFile first).2.getFileSize logFile ≤ LOG_MAX_FILE_SIZE := by
    have := SDCardHandler.getFileSize_le _ logFile _ h2
    rw [utf8ByteSize_append] at this
    omega
  obtain ⟨g1, g2⟩ := writeLine_small (writeLine sd logFile first).2 logFile second
    (by rw [f1]; exact hav) hs2 (by rw [f2]; exact happ) (by rw [f4]; exact hq2)
  refine ⟨h1, g1, ?_⟩
  rw [g2, h2]
  rfl

end LogManager

/-! ## The defaults of the code are the defaults of the specification -/

namespace ConfigManager

theorem mainDefaults_eq_spec (K : MainDefaults) : mainDefaults K = specMainDefaults K := by
  have e : strncpy "00:00:00:00:00:00" 17 = "00:00:00:00:00:00" := by decide
  simp only [mainDefaults, specMainDefaults, e, ESPNOW_HEARTBEAT_INTERVAL, ESPNOW_TIMEOUT_MS,
    DEBUG_SERIAL]

theorem peerDefaults_eq_spec : peerDefaults = specPeerDefaults := by decide

/-- The document `save` builds from the defaults has every key of the layout
at its default. -/
theorem docOf_setDefaults (K : MainDefaults) (cm : ConfigManager) :
    docOf (setDefaults K cm) = specDefaultsDoc K cm.isPeer := by
  cases hp : cm.isPeer
  · simp only [docOf, setDefaults, specDefaultsDoc, hp, Bool.false_eq_true, if_false]
    rw [docOfMain_eq, mainDefaults_eq_spec]
    rfl
  · simp only [docOf, setDefaults, specDefaultsDoc, hp, if_true]
    decide

end ConfigManager

/-! ## The copy by characters and the copy by bytes -/

theorem utf8EncodeChar_ascii (c : Char) (h : c.val.toNat < 128) :
    (String.utf8EncodeChar c).map UInt8.toNat = [c.val.toNat] := by
  have h1 : c.val ≤ 127 := by
    show c.val.toNat ≤ 127
    omega
  simp only [String.utf8EncodeChar, h1, if_true, List.map_cons, List.map_nil]
  congr 1
  show (c.val.toNat.toUInt8).toNat = c.val.toNat
  simp [Nat.toUInt8, UInt8.ofNat, UInt8.toNat, Fin.ofNat]
  omega

theorem cBytes_ascii (cs : List Char) (h : ∀ c ∈ cs, 0 < c.val.toNat ∧ c.val.toNat < 128) :
    cBytes (String.mk cs) = cs.map (fun c => c.val.toNat) := by
  unfold cBytes
  induction cs with
  | nil => rfl
  | cons c cs ih =>
    simp only [List.flatMap_cons, List.map_cons]
    rw [utf8EncodeChar_ascii c (h c (List.mem_cons_self _ _)).2]
    have := ih (fun d hd => h d (List.mem_cons_of_mem _ hd))
    simp only at this
    rw [this]
    rfl

theorem takeWhile_ne_zero (cs : List Char)
    (h : ∀ c ∈ cs, 0 < c.val.toNat ∧ c.val.toNat < 128) :
    (cs.map (fun c => c.val.toNat)).takeWhile (fun b => b != 0) =
      cs.map (fun c => c.val.toNat) := by
  rw [List.takeWhile_eq_self_iff]
  intro b hb
  obtain ⟨c, hc, rfl⟩ := List.mem_map.1 hb
  have := (h c hc).1
  simp
  omega

/-- On a text of ASCII characters the copy by characters is the copy by
bytes. -/
theorem cBytes_strncpy (s : String) (n : Nat) (h : PlainAscii s) :
    cBytes (strncpy s n) = strncpyBytes (cBytes s) n := by
  have hs : s = String.mk s.data := rfl
  have hp : ∀ c ∈ s.data.take n, 0 < c.val.toNat ∧ c.val.toNat < 128 :=
    fun c hc => h c (List.mem_of_mem_take hc)
  unfold strncpy firstChars strncpyBytes
  rw [cBytes_ascii _ hp]
  conv_rhs => rw [hs, cBytes_ascii _ h, takeWhile_ne_zero _ h]
  rw [List.map_take]

/-! ## C1: `begin` on an unavailable backend -/

namespace ConfigManager

/-- C1, as the code has it: with the backend unavailable `begin` still returns
true, sets the selected profile to its compiled defaults and leaves the card as
it was; and `begin` returns true on every path. -/
theorem begin_unavailable (codec : JsonCodec) (K : MainDefaults) (cm : ConfigManager)
    (sd : SDCardHandler) (h : sd.isAvailable = false) :
    begin codec K cm sd = (true, setDefaults K cm, sd) ∧
      ∀ (cm1 : ConfigManager) (sd1 : SDCardHandler), (begin codec K cm1 sd1).1 = true := by
  refine ⟨?_, fun cm1 sd1 => begin_fst codec K cm1 sd1⟩
  simp [begin, load_unavailable codec K cm sd h, save_unavailable codec _ sd h]

/-- The theorem at an unmounted handler and an edited Peer store. -/
theorem begin_unavailable_witness :
    (SDCardHandler.mk false blankCard).isAvailable = false ∧
      (begin (tableCodec []) sampleDefaults editedPeer (SDCardHandler.mk false blankCard) =
          (true, setDefaults sampleDefaults editedPeer, SDCardHandler.mk false blankCard) ∧
        ∀ (cm1 : ConfigManager) (sd1 : SDCardHandler),
          (begin (tableCodec []) sampleDefaults cm1 sd1).1 = true) :=
  ⟨by decide, begin_unavailable (tableCodec []) sampleDefaults editedPeer
    (SDCardHandler.mk false blankCard) (by decide)⟩

/-- C1 as stated fails: on an unmounted handler `begin` returns true, and the
profile, edited to non-default values before the call, is overwritten with the
compiled defaults (Peer and Main alike). -/
theorem begin_unavailable_counterexample :
    (SDCardHandler.mk false blankCard).isAvailable = false ∧
      (begin (tableCodec []) sampleDefaults editedPeer (SDCardHandler.mk false blankCard)).1 = true ∧
      (begin (tableCodec []) sampleDefaults editedPeer
        (SDCardHandler.mk false blankCard)).2.1.peerConfig = peerDefaults ∧
      editedPeer.peerConfig ≠ peerDefaults ∧
      (begin (tableCodec []) sampleDefaults editedMain (SDCardHandler.mk false blankCard)).1 = true ∧
      (begin (tableCodec []) sampleDefaults editedMain
        (SDCardHandler.mk false blankCard)).2.1.mainConfig = mainDefaults sampleDefaults ∧
      editedMain.mainConfig ≠ mainDefaults sampleDefaults := by
  decide

end ConfigManager

/-! ## C2: the profile after `begin` is valid -/

namespace ConfigManager

/-- C2: whatever the profile's file holds, the profile `begin` leaves in memory
satisfies every validation predicate of its variant, given that the compiled
defaults do and that the parser yields no NaN (JSON has no such literal).
Neither the card's faults nor the outcome of the write-back enter. -/
theorem begin_profile_valid (codec : JsonCodec) (K : MainDefaults) (cm : ConfigManager)
    (sd : SDCardHandler) (hK : MainValid (mainDefaults K))
    (hnum : ∀ (s : String) (doc : JsonDocument), codec.deserializeJson s = some doc →
      doc.get "battery_calibration" ≠ JsonValue.float Flt.nan) :
    ProfileValid (begin codec K cm sd).2.1 := by
  simp only [begin]
  cases hl : (load codec K cm sd).1
  · simp only [Bool.false_eq_true, if_false]
    exact setDefaults_valid K _ hK
  · simp only [if_true]
    obtain ⟨doc, hd, he⟩ := load_true codec K cm sd hl
    cases hv : (validate K (load codec K cm sd).2).1
    · simp only [Bool.false_eq_true, if_false]
      exact setDefaults_valid K _ hK
    · simp only [if_true]
      rw [validate_true_unchanged K _ hv]
      have hn : (load codec K cm sd).2.calibration ≠ Flt.nan := by
        rw [he]
        show (withDoc K cm doc).calibration ≠ Flt.nan
        rw [withDoc_calibration]
        exact orFloat_ne_nan doc _ _ (hnum _ doc hd) (by decide)
      exact (validate_true_iff_of_number K _ hn).1 hv

/-- The theorem at a Peer file that holds an out-of-range timeout. -/
theorem begin_profile_valid_witness :
    MainValid (mainDefaults sampleDefaults) ∧
      ProfileValid (begin sampleCodec sampleDefaults editedPeer
        (cardWith CONFIG_FILE_PEER peerText99999)).2.1 :=
  ⟨by decide, begin_profile_valid sampleCodec sampleDefaults editedPeer
    (cardWith CONFIG_FILE_PEER peerText99999) (by decide)
    (tableCodec_no_nan _ (by decide))⟩

end ConfigManager

/-! ## C3: what `begin` keeps after a correction -/

namespace ConfigManager

/-- C3 as stated fails: a Peer file with a foreign MAC address and a timeout of
99999 loads, `validate` corrects the timeout alone, and `begin` then resets the
whole profile: the MAC address, valid as loaded, is back at its default in
memory, and the file holds the serialized defaults. -/
theorem begin_invalid_counterexample :
    (load sampleCodec sampleDefaults freshPeer (cardWith CONFIG_FILE_PEER peerTextMac)).1 = true ∧
      (load sampleCodec sampleDefaults freshPeer
        (cardWith CONFIG_FILE_PEER peerTextMac)).2.peerConfig.espnowMainMAC = "AA:BB:CC:DD:EE:FF" ∧
      (validate sampleDefaults (load sampleCodec sampleDefaults freshPeer
        (cardWith CONFIG_FILE_PEER peerTextMac)).2).1 = false ∧
      (validate sampleDefaults (load sampleCodec sampleDefaults freshPeer
        (cardWith CONFIG_FILE_PEER peerTextMac)).2).2.peerConfig.espnowMainMAC =
          "AA:BB:CC:DD:EE:FF" ∧
      (begin sampleCodec sampleDefaults freshPeer
        (cardWith CONFIG_FILE_PEER peerTextMac)).2.1.peerConfig.espnowMainMAC =
          "10:20:BA:4D:6C:E4" ∧
      (begin sampleCodec sampleDefaults freshPeer
        (cardWith CONFIG_FILE_PEER peerTextMac)).2.2.readFileAsString CONFIG_FILE_PEER =
          peerDefaultsText := by
  decide

/-- The same on a Main store: a valid backlight of 100 next to a timeout of
99999 is lost to the default backlight (128 with `sampleDefaults`). -/
theorem begin_invalid_main_example :
    (load sampleCodec sampleDefaults freshMain
        (cardWith CONFIG_FILE_MAIN mainTextBacklight)).2.mainConfig.backlightDefault = 100 ∧
      (begin sampleCodec sampleDefaults freshMain
        (cardWith CONFIG_FILE_MAIN mainTextBacklight)).2.1.mainConfig.backlightDefault = 128 := by
  decide

/-- C3, as the code has it: when the load succeeds and `validate` reports a
correction, `begin` returns true, leaves the selected profile at its compiled
defaults in every field, and the card is what `save` of that profile makes of
it: when the card takes the serialized defaults in full, the file holds them. -/
theorem begin_invalid_resets_all (codec : JsonCodec) (K : MainDefaults) (cm : ConfigManager)
    (sd : SDCardHandler) (hl : (load codec K cm sd).1 = true)
    (hv : (validate K (load codec K cm sd).2).1 = false) :
    (begin codec K cm sd).1 = true ∧
      (begin codec K cm sd).2.1 = setDefaults K cm ∧
      (begin codec K cm sd).2.2 = (save codec (setDefaults K cm) sd).2 ∧
      (sd.isAvailable = true →
        sd.Accepts (configFile cm.isPeer)
          (codec.serializeJsonPretty (docOf (setDefaults K cm))) →
        (begin codec K cm sd).2.2.SD.files.lookup (configFile cm.isPeer) =
          some (codec.serializeJsonPretty (docOf (setDefaults K cm)))) := by
  rw [begin_of_validate_false codec K cm sd hl hv]
  refine ⟨rfl, rfl, rfl, ?_⟩
  intro hav hacc
  have hacc1 : sd.Accepts (configFile (setDefaults K cm).isPeer)
      (codec.serializeJsonPretty (docOf (setDefaults K cm))) := by
    rw [setDefaults_isPeer]; exact hacc
  have h5 := (save_stores codec (setDefaults K cm) sd hav hacc1).2.2.2.2
  rw [setDefaults_isPeer] at h5
  exact h5

/-- The theorem at the Peer file with the foreign MAC address. -/
theorem begin_invalid_resets_all_witness :
    (load sampleCodec sampleDefaults freshPeer (cardWith CONFIG_FILE_PEER peerTextMac)).1 = true ∧
      (validate sampleDefaults (load sampleCodec sampleDefaults freshPeer
        (cardWith CONFIG_FILE_PEER peerTextMac)).2).1 = false ∧
      (begin sampleCodec sampleDefaults freshPeer (cardWith CONFIG_FILE_PEER peerTextMac)).1 = true ∧
      (begin sampleCodec sampleDefaults freshPeer (cardWith CONFIG_FILE_PEER peerTextMac)).2.1 =
        setDefaults sampleDefaults freshPeer ∧
      (begin sampleCodec sampleDefaults freshPeer (cardWith CONFIG_FILE_PEER peerTextMac)).2.2 =
        (save sampleCodec (setDefaults sampleDefaults freshPeer)
          (cardWith CONFIG_FILE_PEER peerTextMac)).2 ∧
      (begin sampleCodec sampleDefaults freshPeer
        (cardWith CONFIG_FILE_PEER peerTextMac)).2.2.SD.files.lookup CONFIG_FILE_PEER =
          some peerDefaultsText :=
  have h := begin_invalid_resets_all sampleCodec sampleDefaults freshPeer
    (cardWith CONFIG_FILE_PEER peerTextMac) (by decide) (by decide)
  ⟨by decide, by decide, h.1, h.2.1, h.2.2.1, h.2.2.2 (by decide) (by decide)⟩

end ConfigManager

/-! ## C4: the return value of `validate` -/

namespace ConfigManager

/-- C4 fails on the code at a calibration factor that is not a number: both
comparisons of the check are false on NaN, so `validate` returns true although
the predicate `0 < f ≤ 2.0` does not hold (Peer and Main alike). -/
theorem validate_accepts_nan :
    (validate sampleDefaults nanPeer).1 = true ∧ ¬ ProfileValid nanPeer ∧
      (validate sampleDefaults nanMain).1 = true ∧ ¬ ProfileValid nanMain := by
  decide

end ConfigManager

/-! ## C5: the profile after `validate` -/

namespace ConfigManager

/-- C5 fails on the code at a calibration factor that is not a number:
`validate` leaves the NaN in place, so the profile after the call does not
satisfy `0 < f ≤ 2.0`, although the compiled defaults are valid. -/
theorem validate_keeps_nan :
    MainValid (mainDefaults sampleDefaults) ∧
      (validate sampleDefaults nanMain).2.mainConfig.batteryCalibration = Flt.nan ∧
      ¬ ProfileValid (validate sampleDefaults nanMain).2 ∧
      (validate sampleDefaults nanPeer).2.peerConfig.batteryCalibration = Flt.nan ∧
      ¬ ProfileValid (validate sampleDefaults nanPeer).2 := by
  decide

end ConfigManager

/-! ## C6: the coupling of the touch bounds -/

namespace ConfigManager

/-- C6: the touch bounds are coupled.  Either one of the two pairs is out of
order, and then `validate` on a Main store returns false and leaves all four bounds at
their compiled defaults, or neither is, and then none of the four is changed. -/
theorem validate_touch_coupling (K : MainDefaults) (c : MainConfig) (p : PeerConfig) :
    ((c.touchMinX ≥ c.touchMaxX ∨ c.touchMinY ≥ c.touchMaxY) ∧
        (validate K (ConfigManager.mk false c p)).1 = false ∧
        (validate K (ConfigManager.mk false c p)).2.mainConfig.touchMinX = K.TOUCH_MIN_X ∧
        (validate K (ConfigManager.mk false c p)).2.mainConfig.touchMaxX = K.TOUCH_MAX_X ∧
        (validate K (ConfigManager.mk false c p)).2.mainConfig.touchMinY = K.TOUCH_MIN_Y ∧
        (validate K (ConfigManager.mk false c p)).2.mainConfig.touchMaxY = K.TOUCH_MAX_Y) ∨
      (¬ (c.touchMinX ≥ c.touchMaxX ∨ c.touchMinY ≥ c.touchMaxY) ∧
        (validate K (ConfigManager.mk false c p)).2.mainConfig.touchMinX = c.touchMinX ∧
        (validate K (ConfigManager.mk false c p)).2.mainConfig.touchMaxX = c.touchMaxX ∧
        (validate K (ConfigManager.mk false c p)).2.mainConfig.touchMinY = c.touchMinY ∧
        (validate K (ConfigManager.mk false c p)).2.mainConfig.touchMaxY = c.touchMaxY) := by
  simp only [validate, Bool.false_eq_true, if_false]
  rw [validateMainConfig_eq]
  by_cases h : c.touchMinX ≥ c.touchMaxX ∨ c.touchMinY ≥ c.touchMaxY
  · left
    refine ⟨h, ?_, ?_, ?_, ?_, ?_⟩
    · have : ¬ (c.touchMinX < c.touchMaxX ∧ c.touchMinY < c.touchMaxY) := by omega
      simp [this]
    all_goals simp [h]
  · right
    refine ⟨h, ?_, ?_, ?_, ?_⟩
    all_goals simp [h]

/-- C6 on the Main store seen through `validate`: with only the Y pair out of
order, the valid X pair is reset as well. -/
theorem validate_touch_coupling_example :
    (validate sampleDefaults
      { freshMain with
        mainConfig :=
          { mainDefaults sampleDefaults with
            touchMinX := 10, touchMaxX := 20, touchMinY := 50, touchMaxY := 40 } }) =
      (false, freshMain) := by
  decide

end ConfigManager

/-! ## C7: `save` followed by `load` -/

namespace ConfigManager

/-- C7: round trip.  On an available backend that stores the serialized profile,
with a codec whose parse undoes serialize on it, `save` returns true and a
following `load`, from whatever the memory holds by then, returns true and
reproduces the saved profile field for field (the values being ones the record
and typed access can hold). -/
theorem save_load_roundtrip (codec : JsonCodec) (K : MainDefaults) (cm cm0 : ConfigManager)
    (sd : SDCardHandler) (hp : cm0.isPeer = cm.isPeer) (hst : cm.Storable)
    (hav : sd.isAvailable = true)
    (hsd : sd.Stores (configFile cm.isPeer) (codec.serializeJsonPretty (docOf cm)))
    (hcodec : codec.Inverts (docOf cm)) :
    (save codec cm sd).1 = true ∧
      (load codec K cm0 (save codec cm sd).2).1 = true ∧
      SameProfile (load codec K cm0 (save codec cm sd).2).2 cm ∧
      load codec K cm (save codec cm sd).2 = (true, cm) := by
  obtain ⟨hacc, hne, hr⟩ := hsd
  obtain ⟨h1, h2, h3, _, h5⟩ := save_stores codec cm sd hav hacc
  have hlen : (codec.serializeJsonPretty (docOf cm)).length > 0 :=
    length_pos_of_ne_empty _ hne
  have hl0 := load_of_file codec K cm0 (save codec cm sd).2 _ (docOf cm) h2
    (by rw [h3, hp]; exact hr) (by rw [hp]; exact h5) hne hcodec
  have hl1 := load_of_file codec K cm (save codec cm sd).2 _ (docOf cm) h2
    (by rw [h3]; exact hr) h5 hne hcodec
  refine ⟨by rw [h1]; exact decide_eq_true hlen, by rw [hl0], ?_, ?_⟩
  · rw [hl0]
    exact withDoc_sameProfile K cm0 cm hp hst
  · rw [hl1, withDoc_docOf K cm hst]


/-- The theorem at an edited Main profile, loaded back into a fresh store. -/
theorem save_load_roundtrip_witness :
    freshMain.isPeer = editedMain.isPeer ∧ editedMain.Storable ∧
      (cardWith CONFIG_FILE_MAIN mainTextBacklight).isAvailable = true ∧
      (save sampleCodec editedMain (cardWith CONFIG_FILE_MAIN mainTextBacklight)).1 = true ∧
      (load sampleCodec sampleDefaults freshMain
        (save sampleCodec editedMain (cardWith CONFIG_FILE_MAIN mainTextBacklight)).2).1 = true ∧
      SameProfile (load sampleCodec sampleDefaults freshMain
        (save sampleCodec editedMain (cardWith CONFIG_FILE_MAIN mainTextBacklight)).2).2
        editedMain ∧
      load sampleCodec sampleDefaults editedMain
        (save sampleCodec editedMain (cardWith CONFIG_FILE_MAIN mainTextBacklight)).2 =
          (true, editedMain) :=
  ⟨by decide, by decide, by decide,
    save_load_roundtrip sampleCodec sampleDefaults editedMain freshMain
      (cardWith CONFIG_FILE_MAIN mainTextBacklight) (by decide) (by decide) (by decide)
      (by decide) (by decide)⟩
end ConfigManager

/-! ## C8: `begin` twice -/

namespace ConfigManager

/-- C8: `begin` is idempotent.  On an available backend that stores the
serialized defaults (the only text `begin` writes), with a codec whose parse
undoes serialize on them and with valid, storable defaults, a second `begin`
loads successfully, finds nothing to correct, and leaves the memory and the card
exactly as the first `begin` left them. -/
theorem begin_idempotent (codec : JsonCodec) (K : MainDefaults) (cm : ConfigManager)
    (sd : SDCardHandler) (hK : MainValid (mainDefaults K))
    (hst : (setDefaults K cm).Storable) (hav : sd.isAvailable = true)
    (hsd : sd.Stores (configFile cm.isPeer)
      (codec.serializeJsonPretty (docOf (setDefaults K cm))))
    (hcodec : codec.Inverts (docOf (setDefaults K cm))) :
    (load codec K (begin codec K cm sd).2.1 (begin codec K cm sd).2.2).1 = true ∧
      validate K (load codec K (begin codec K cm sd).2.1 (begin codec K cm sd).2.2).2 =
        (true, (begin codec K cm sd).2.1) ∧
      begin codec K (begin codec K cm sd).2.1 (begin codec K cm sd).2.2 =
        (true, (begin codec K cm sd).2.1, (begin codec K cm sd).2.2) := by
  have key : ∀ (m : ConfigManager) (s : SDCardHandler), load codec K m s = (true, m) →
      (validate K m).1 = true →
      (load codec K m s).1 = true ∧ validate K (load codec K m s).2 = (true, m) ∧
        begin codec K m s = (true, m, s) := by
    intro m s h1 h2
    have h3 : (load codec K m s).1 = true := by rw [h1]
    have h4 : (validate K (load codec K m s).2).1 = true := by rw [h1]; exact h2
    refine ⟨h3, ?_, ?_⟩
    · rw [h1]
      exact Prod.ext h2 (validate_true_unchanged K m h2)
    · rw [begin_of_validate_true codec K m s h3 h4, h1]
  obtain ⟨hb2, hb3⟩ := begin_after_defaults codec K cm sd hK hst hav hsd hcodec
  cases hl : (load codec K cm sd).1
  · rw [begin_of_load_false codec K cm sd hl]
    exact key _ _ hb2 hb3
  · cases hv : (validate K (load codec K cm sd).2).1
    · rw [begin_of_validate_false codec K cm sd hl hv]
      exact key _ _ hb2 hb3
    · rw [begin_of_validate_true codec K cm sd hl hv]
      refine key _ _ ?_ hv
      rw [load_again codec K cm sd hl]
      exact Prod.ext hl rfl


/-- The theorem at a Peer file that the first `begin` has to repair. -/
theorem begin_idempotent_witness :
    MainValid (mainDefaults sampleDefaults) ∧
      (cardWith CONFIG_FILE_PEER peerText99999).isAvailable = true ∧
      (load sampleCodec sampleDefaults
        (begin sampleCodec sampleDefaults editedPeer (cardWith CONFIG_FILE_PEER peerText99999)).2.1
        (begin sampleCodec sampleDefaults editedPeer
          (cardWith CONFIG_FILE_PEER peerText99999)).2.2).1 = true ∧
      validate sampleDefaults (load sampleCodec sampleDefaults
        (begin sampleCodec sampleDefaults editedPeer (cardWith CONFIG_FILE_PEER peerText99999)).2.1
        (begin sampleCodec sampleDefaults editedPeer
          (cardWith CONFIG_FILE_PEER peerText99999)).2.2).2 =
        (true, (begin sampleCodec sampleDefaults editedPeer
          (cardWith CONFIG_FILE_PEER peerText99999)).2.1) ∧
      begin sampleCodec sampleDefaults
        (begin sampleCodec sampleDefaults editedPeer (cardWith CONFIG_FILE_PEER peerText99999)).2.1
        (begin sampleCodec sampleDefaults editedPeer
          (cardWith CONFIG_FILE_PEER peerText99999)).2.2 =
        (true,
          (begin sampleCodec sampleDefaults editedPeer
            (cardWith CONFIG_FILE_PEER peerText99999)).2.1,
          (begin sampleCodec sampleDefaults editedPeer
            (cardWith CONFIG_FILE_PEER peerText99999)).2.2) :=
  ⟨by decide, by decide,
    begin_idempotent sampleCodec sampleDefaults editedPeer
      (cardWith CONFIG_FILE_PEER peerText99999) (by decide) (by decide) (by decide)
      (by decide) (by decide)⟩
end ConfigManager

/-! ## C9: absent configuration -/

namespace ConfigManager

/-- C9: absent configuration.  On an available backend, if the profile's file
does not exist, reads as empty or fails to parse, `begin` returns true and the
selected profile equals the compiled defaults in every field (for Main the
backlight is `BACKLIGHT_DEFAULT`); and when the card takes the serialized
defaults in full, the file exists afterwards and holds them: the text the codec
gives for the document that has every key of the profile's layout at its
compiled default. -/
theorem begin_absent_config (codec : JsonCodec) (K : MainDefaults) (cm : ConfigManager)
    (sd : SDCardHandler) (hav : sd.isAvailable = true)
    (habs : sd.fileExists (configFile cm.isPeer) = false ∨
      sd.readFileAsString (configFile cm.isPeer) = "" ∨
      codec.deserializeJson (sd.readFileAsString (configFile cm.isPeer)) = none) :
    (begin codec K cm sd).1 = true ∧
      (begin codec K cm sd).2.1 = setDefaults K cm ∧
      (if cm.isPeer then getPeer (begin codec K cm sd).2.1 = peerDefaults
        else getMain (begin codec K cm sd).2.1 = mainDefaults K ∧
          (getMain (begin codec K cm sd).2.1).backlightDefault = K.BACKLIGHT_DEFAULT) ∧
      (if cm.isPeer then getPeer (begin codec K cm sd).2.1 = specPeerDefaults
        else getMain (begin codec K cm sd).2.1 = specMainDefaults K) ∧
      (sd.Accepts (configFile cm.isPeer)
          (codec.serializeJsonPretty (specDefaultsDoc K cm.isPeer)) →
        (begin codec K cm sd).2.2.fileExists (configFile cm.isPeer) = true ∧
          (begin codec K cm sd).2.2.SD.files.lookup (configFile cm.isPeer) =
            some (codec.serializeJsonPretty (specDefaultsDoc K cm.isPeer))) := by
  rw [begin_of_load_false codec K cm sd (load_absent codec K cm sd habs)]
  refine ⟨rfl, rfl, ?_, ?_, ?_⟩
  · simp only [getPeer, getMain, setDefaults]
    cases hp : cm.isPeer <;> simp [mainDefaults]
  · simp only [getPeer, getMain, setDefaults]
    cases hp : cm.isPeer
    · simp only [Bool.false_eq_true, if_false]
      have e : strncpy "00:00:00:00:00:00" 17 = "00:00:00:00:00:00" := by decide
      simp only [mainDefaults, specMainDefaults, e, ESPNOW_HEARTBEAT_INTERVAL,
        ESPNOW_TIMEOUT_MS, DEBUG_SERIAL]
    · simp only [if_true]
      decide
  · intro hacc
    -- the document `save` builds from the defaults, key by key
    have hdoc : docOf (setDefaults K cm) = specDefaultsDoc K cm.isPeer := by
      cases hp : cm.isPeer
      · simp only [docOf, setDefaults, specDefaultsDoc, hp, Bool.false_eq_true, if_false]
        rfl
      · simp only [docOf, setDefaults, specDefaultsDoc, hp, if_true]
        rfl
    rw [← hdoc] at hacc ⊢
    have hacc1 : sd.Accepts (configFile (setDefaults K cm).isPeer)
        (codec.serializeJsonPretty (docOf (setDefaults K cm))) := by
      rw [setDefaults_isPeer]; exact hacc
    obtain ⟨_, h2, _, _, h5⟩ := save_stores codec (setDefaults K cm) sd hav hacc1
    rw [setDefaults_isPeer] at h5
    exact ⟨SDCardHandler.fileExists_of_lookup _ _ _ h2 h5, h5⟩

/-- The theorem in the scenario of the specification, a Main store on a mounted
blank card, and at a Peer store whose file holds a text that does not parse;
and the runs of a Main store over an empty file and of a Peer store on a blank
card. -/
theorem begin_absent_config_witness :
    (SDCardHandler.mk true blankCard).fileExists CONFIG_FILE_MAIN = false ∧
      (begin literalCodec sampleDefaults editedMain (SDCardHandler.mk true blankCard)).1 = true ∧
      (getMain (begin literalCodec sampleDefaults editedMain
        (SDCardHandler.mk true blankCard)).2.1).backlightDefault = 128 ∧
      (begin literalCodec sampleDefaults editedMain
        (SDCardHandler.mk true blankCard)).2.2.fileExists CONFIG_FILE_MAIN = true ∧
      (begin literalCodec sampleDefaults editedMain
        (SDCardHandler.mk true blankCard)).2.2.SD.files.lookup CONFIG_FILE_MAIN =
          some mainDefaultsText ∧
      literalCodec.deserializeJson garbledText = none ∧
      (begin literalCodec sampleDefaults editedPeer
        (cardWith CONFIG_FILE_PEER garbledText)).1 = true ∧
      getPeer (begin literalCodec sampleDefaults editedPeer
        (cardWith CONFIG_FILE_PEER garbledText)).2.1 =
          { espnowMainMAC := "10:20:BA:4D:6C:E4"
            espnowTimeout := 2000
            batteryCalibration := VOLTAGE_CALIBRATION_FACTOR
            debugSerialEnabled := true } ∧
      (begin literalCodec sampleDefaults editedPeer
        (cardWith CONFIG_FILE_PEER garbledText)).2.2.SD.files.lookup CONFIG_FILE_PEER =
          some peerDefaultsText ∧
      (begin literalCodec sampleDefaults editedMain
        (cardWith CONFIG_FILE_MAIN "")).2.2.SD.files.lookup CONFIG_FILE_MAIN =
          some mainDefaultsText ∧
      (begin literalCodec sampleDefaults editedPeer
        mountedBlank).2.2.SD.files.lookup CONFIG_FILE_PEER = some peerDefaultsText :=
  have h := begin_absent_config literalCodec sampleDefaults editedMain
    (SDCardHandler.mk true blankCard) (by decide) (Or.inl (by decide))
  have k := begin_absent_config literalCodec sampleDefaults editedPeer
    (cardWith CONFIG_FILE_PEER garbledText) (by decide) (Or.inr (Or.inr (by decide)))
  ⟨by decide, h.1, (congrArg MainConfig.backlightDefault h.2.2.2.1).trans (by decide),
    (h.2.2.2.2 (by decide)).1, (h.2.2.2.2 (by decide)).2.trans (by decide),
    by decide, k.1, k.2.2.2.1, (k.2.2.2.2 (by decide)).2.trans (by decide), by decide,
    by decide⟩

end ConfigManager

/-! ## C10: repair of an out-of-range timeout -/

namespace ConfigManager

/-- C10 as stated fails when the timeout in the file is out of range but is not
read as a C `int`: from a Peer file that holds `espnow_timeout` 3000000000, on
a card that would take and give back the defaults, `begin` returns true with
the timeout 2000 in memory, yet the card is what it was: the file has not been
rewritten and still holds 3000000000. -/
theorem begin_repairs_timeout_counterexample :
    literalCodec.deserializeJson peerText3e9 = some peerDoc3e9 ∧
      peerDoc3e9.get "espnow_timeout" = JsonValue.int 3000000000 ∧
      (cardWith CONFIG_FILE_PEER peerText3e9).Stores CONFIG_FILE_PEER
        (literalCodec.serializeJsonPretty specPeerDefaultsDoc) ∧
      (begin literalCodec sampleDefaults freshPeer (cardWith CONFIG_FILE_PEER peerText3e9)).1 =
        true ∧
      (getPeer (begin literalCodec sampleDefaults freshPeer
        (cardWith CONFIG_FILE_PEER peerText3e9)).2.1).espnowTimeout = 2000 ∧
      (begin literalCodec sampleDefaults freshPeer (cardWith CONFIG_FILE_PEER peerText3e9)).2.2 =
        cardWith CONFIG_FILE_PEER peerText3e9 ∧
      (begin literalCodec sampleDefaults freshPeer
        (cardWith CONFIG_FILE_PEER peerText3e9)).2.2.SD.files.lookup CONFIG_FILE_PEER =
          some "\x7b\"espnow_timeout\": 3000000000\x7d" := by
  decide

/-- C10, as the code has it.  For a Peer store on an available backend whose
file parses to a document whose `espnow_timeout` is not read as an integer
within [1000, 30000], and whose card stores the serialized defaults (with a
codec whose parse undoes serialize on them): after `begin` the timeout in memory
is `ESPNOW_TIMEOUT_MS`, and loading the file again, into any Peer store,
succeeds and yields `ESPNOW_TIMEOUT_MS`.  When typed access reads the timeout as
an integer (then one out of range), `load` takes it, `validate` rejects it and
the file is rewritten: it holds the defaults, every key of the Peer layout.
When typed access does not read it as an integer (a number beyond the C `int`,
a number that is not an integer, another type, no such key), `load` takes the
default, and the card is rewritten with the defaults only if `validate` rejects
another field; otherwise the card is what it was. -/
theorem begin_repairs_timeout (codec : JsonCodec) (K : MainDefaults) (cm : ConfigManager)
    (sd : SDCardHandler) (doc : JsonDocument) (hp : cm.isPeer = true)
    (hav : sd.isAvailable = true)
    (hfile : sd.fileExists CONFIG_FILE_PEER = true)
    (htext : sd.readFileAsString CONFIG_FILE_PEER ≠ "")
    (hparse : codec.deserializeJson (sd.readFileAsString CONFIG_FILE_PEER) = some doc)
    (hout : ∀ v, (doc.get "espnow_timeout").asInt = some v → v < 1000 ∨ v > 30000)
    (hsd : sd.Stores CONFIG_FILE_PEER (codec.serializeJsonPretty specPeerDefaultsDoc))
    (hcodec : codec.Inverts specPeerDefaultsDoc) :
    (getPeer (begin codec K cm sd).2.1).espnowTimeout = ESPNOW_TIMEOUT_MS ∧
      (∀ cm0 : ConfigManager, cm0.isPeer = true →
        (load codec K cm0 (begin codec K cm sd).2.2).1 = true ∧
          (getPeer (load codec K cm0 (begin codec K cm sd).2.2).2).espnowTimeout =
            ESPNOW_TIMEOUT_MS) ∧
      (∀ v, (doc.get "espnow_timeout").asInt = some v →
        (getPeer (load codec K cm sd).2).espnowTimeout = v ∧
          (validate K (load codec K cm sd).2).1 = false ∧
          (begin codec K cm sd).2.2.SD.files.lookup CONFIG_FILE_PEER =
            some (codec.serializeJsonPretty specPeerDefaultsDoc)) ∧
      ((doc.get "espnow_timeout").asInt = none →
        (getPeer (load codec K cm sd).2).espnowTimeout = ESPNOW_TIMEOUT_MS ∧
          ((validate K (load codec K cm sd).2).1 = true → (begin codec K cm sd).2.2 = sd) ∧
          ((validate K (load codec K cm sd).2).1 = false →
            (begin codec K cm sd).2.2.SD.files.lookup CONFIG_FILE_PEER =
              some (codec.serializeJsonPretty specPeerDefaultsDoc))) := by
  have hcf : configFile cm.isPeer = CONFIG_FILE_PEER := by rw [hp]; rfl
  have hdo : docOf (setDefaults K cm) = specPeerDefaultsDoc := by
    simp only [docOf, setDefaults, hp, if_true]
    rfl
  have hpd : docOfPeer peerDefaults = specPeerDefaultsDoc := by decide
  have hl := load_of_parse codec K cm sd doc hav (by rw [hcf]; exact hfile)
    (by rw [hcf]; exact htext) (by rw [hcf]; exact hparse)
  have hw : withDoc K cm doc = { cm with peerConfig := peerOfDoc doc } := by
    simp [withDoc, hp]
  have hl1 : (load codec K cm sd).1 = true := by rw [hl]
  have hs := load_saved_defaults codec K cm sd hav (by rw [hcf, hdo]; exact hsd)
    (by rw [hdo]; exact hcodec)
  -- the three facts when `validate` rejects the loaded profile
  have rewritten : (validate K (load codec K cm sd).2).1 = false →
      (getPeer (begin codec K cm sd).2.1).espnowTimeout = ESPNOW_TIMEOUT_MS ∧
        (∀ cm0 : ConfigManager, cm0.isPeer = true →
          (load codec K cm0 (begin codec K cm sd).2.2).1 = true ∧
            (getPeer (load codec K cm0 (begin codec K cm sd).2.2).2).espnowTimeout =
              ESPNOW_TIMEOUT_MS) ∧
        (begin codec K cm sd).2.2.SD.files.lookup CONFIG_FILE_PEER =
          some (codec.serializeJsonPretty specPeerDefaultsDoc) := by
    intro hv1
    have hb := begin_of_validate_false codec K cm sd hl1 hv1
    refine ⟨?_, ?_, ?_⟩
    · rw [hb]
      simp [getPeer, setDefaults, hp, peerDefaults]
    · intro cm0 h0
      rw [hb]
      have := (hs cm0 (by rw [h0, hp])).2
      rw [hdo] at this
      show (load codec K cm0 (save codec (setDefaults K cm) sd).2).1 = true ∧
        (getPeer (load codec K cm0 (save codec (setDefaults K cm) sd).2).2).espnowTimeout =
          ESPNOW_TIMEOUT_MS
      rw [this]
      refine ⟨rfl, ?_⟩
      simp only [getPeer, withDoc, h0, if_true]
      rw [← hpd, peerOfDoc_docOfPeer peerDefaults (by decide)]
      rfl
    · rw [hb]
      have := (hs cm rfl).1
      rw [hcf, hdo] at this
      exact this
  -- the facts when `validate` accepts the loaded profile
  have kept : (doc.get "espnow_timeout").asInt = none →
      (validate K (load codec K cm sd).2).1 = true →
      (getPeer (begin codec K cm sd).2.1).espnowTimeout = ESPNOW_TIMEOUT_MS ∧
        (∀ cm0 : ConfigManager, cm0.isPeer = true →
          (load codec K cm0 (begin codec K cm sd).2.2).1 = true ∧
            (getPeer (load codec K cm0 (begin codec K cm sd).2.2).2).espnowTimeout =
              ESPNOW_TIMEOUT_MS) ∧
        (begin codec K cm sd).2.2 = sd := by
    intro hnone hv1
    have ht : (peerOfDoc doc).espnowTimeout = ESPNOW_TIMEOUT_MS := by
      simp [peerOfDoc, JsonDocument.orInt, hnone]
    have hb := begin_of_validate_true codec K cm sd hl1 hv1
    refine ⟨?_, ?_, ?_⟩
    · rw [hb, hl, hw]
      exact ht
    · intro cm0 h0
      rw [hb]
      have hcf0 : configFile cm0.isPeer = CONFIG_FILE_PEER := by rw [h0]; rfl
      have := load_of_parse codec K cm0 sd doc hav (by rw [hcf0]; exact hfile)
        (by rw [hcf0]; exact htext) (by rw [hcf0]; exact hparse)
      show (load codec K cm0 sd).1 = true ∧
        (getPeer (load codec K cm0 sd).2).espnowTimeout = ESPNOW_TIMEOUT_MS
      rw [this]
      refine ⟨rfl, ?_⟩
      simp only [getPeer, withDoc, h0, if_true]
      exact ht
    · rw [hb]
  cases hti : (doc.get "espnow_timeout").asInt with
  | some v =>
    have ht : (peerOfDoc doc).espnowTimeout = v := by
      simp [peerOfDoc, JsonDocument.orInt, hti]
    have hv1 : (validate K (load codec K cm sd).2).1 = false := by
      rw [hl, hw]
      simp only [validate, hp, if_true, validatePeerConfig_eq, ht]
      have hr := hout v hti
      have : ¬ (1000 ≤ v ∧ v ≤ 30000) := by omega
      simp [this]
    obtain ⟨r1, r2, r3⟩ := rewritten hv1
    refine ⟨r1, r2, ?_, ?_⟩
    · intro v1 h1
      cases h1
      refine ⟨?_, hv1, r3⟩
      rw [hl, hw]
      exact ht
    · intro h; cases h
  | none =>
    have ht : (peerOfDoc doc).espnowTimeout = ESPNOW_TIMEOUT_MS := by
      simp [peerOfDoc, JsonDocument.orInt, hti]
    have hlt : (getPeer (load codec K cm sd).2).espnowTimeout = ESPNOW_TIMEOUT_MS := by
      rw [hl, hw]
      exact ht
    rcases Bool.eq_false_or_eq_true (validate K (load codec K cm sd).2).1 with hv | hv
    · obtain ⟨r1, r2, r3⟩ := kept hti hv
      exact ⟨r1, r2, fun v1 h1 => (by cases h1),
        fun _ => ⟨hlt, fun _ => r3, fun h => (by rw [hv] at h; cases h)⟩⟩
    · obtain ⟨r1, r2, r3⟩ := rewritten hv
      exact ⟨r1, r2, fun v1 h1 => (by cases h1),
        fun _ => ⟨hlt, fun h => (by rw [hv] at h; cases h), fun _ => r3⟩⟩

/-- The theorem in the scenario of the specification, a file that holds only an
`espnow_timeout` of 99999, and at a file whose timeout is 3000000000; and the
run of the scenario from an edited store. -/
theorem begin_repairs_timeout_witness :
    literalCodec.deserializeJson peerText99999 = some [("espnow_timeout", JsonValue.int 99999)] ∧
      (getPeer (load literalCodec sampleDefaults freshPeer
        (cardWith CONFIG_FILE_PEER peerText99999)).2).espnowTimeout = 99999 ∧
      (getPeer (begin literalCodec sampleDefaults freshPeer
        (cardWith CONFIG_FILE_PEER peerText99999)).2.1).espnowTimeout = 2000 ∧
      (begin literalCodec sampleDefaults freshPeer
        (cardWith CONFIG_FILE_PEER peerText99999)).2.2.SD.files.lookup CONFIG_FILE_PEER =
          some peerDefaultsText ∧
      (load literalCodec sampleDefaults editedPeer (begin literalCodec sampleDefaults freshPeer
        (cardWith CONFIG_FILE_PEER peerText99999)).2.2).1 = true ∧
      (getPeer (load literalCodec sampleDefaults editedPeer
        (begin literalCodec sampleDefaults freshPeer
          (cardWith CONFIG_FILE_PEER peerText99999)).2.2).2).espnowTimeout = 2000 ∧
      (getPeer (load literalCodec sampleDefaults freshPeer
        (cardWith CONFIG_FILE_PEER peerText3e9)).2).espnowTimeout = 2000 ∧
      (begin literalCodec sampleDefaults freshPeer (cardWith CONFIG_FILE_PEER peerText3e9)).2.2 =
        cardWith CONFIG_FILE_PEER peerText3e9 ∧
      (getPeer (load literalCodec sampleDefaults editedPeer
        (begin literalCodec sampleDefaults freshPeer
          (cardWith CONFIG_FILE_PEER peerText3e9)).2.2).2).espnowTimeout = 2000 ∧
      (begin literalCodec sampleDefaults editedPeer
        (cardWith CONFIG_FILE_PEER peerText99999)).2.2.SD.files.lookup CONFIG_FILE_PEER =
          some peerDefaultsText :=
  have h := begin_repairs_timeout literalCodec sampleDefaults freshPeer
    (cardWith CONFIG_FILE_PEER peerText99999) [("espnow_timeout", JsonValue.int 99999)]
    (by decide) (by decide) (by decide) (by decide) (by decide)
    (fun v hv => by cases hv; decide) (by decide) (by decide)
  have k := begin_repairs_timeout literalCodec sampleDefaults freshPeer
    (cardWith CONFIG_FILE_PEER peerText3e9) peerDoc3e9
    (by decide) (by decide) (by decide) (by decide) (by decide)
    (fun v hv => by cases hv) (by decide) (by decide)
  have h3 := h.2.2.1 99999 (by decide)
  have k4 := k.2.2.2 (by decide)
  ⟨by decide, h3.1, h.1, h3.2.2.trans (by decide), (h.2.1 editedPeer (by decide)).1,
    (h.2.1 editedPeer (by decide)).2, k4.1, k4.2.1 (by decide),
    (k.2.1 editedPeer (by decide)).2, by decide⟩

end ConfigManager

/-! ## C11: or-default loading -/

namespace ConfigManager

/-- C11 as stated fails for the MAC address: from a document whose
`espnow_main_mac` is a string of 20 characters the load succeeds, and the field
is neither the document's value nor the compiled default but the first 17
characters of the value. -/
theorem load_or_default_counterexample :
    (load longMacCodec sampleDefaults freshPeer
        (cardWith CONFIG_FILE_PEER peerTextLongMac)).1 = true ∧
      (peerDocLongMac.get "espnow_main_mac").asStr = some "AA:BB:CC:DD:EE:FF:00" ∧
      (load longMacCodec sampleDefaults freshPeer
        (cardWith CONFIG_FILE_PEER peerTextLongMac)).2.peerConfig.espnowMainMAC =
          "AA:BB:CC:DD:EE:FF" ∧
      ¬ PeerOrDefault id peerDocLongMac (load longMacCodec sampleDefaults freshPeer
        (cardWith CONFIG_FILE_PEER peerTextLongMac)).2.peerConfig := by
  refine ⟨by decide, by decide, by decide, ?_⟩
  intro h
  have h1 := h.1.1 "AA:BB:CC:DD:EE:FF:00" (by decide)
  revert h1
  decide

/-- C11, as the code has it: when the profile's file exists on an available
backend and its non-empty text parses, `load` returns true whatever keys the
document lacks or mistypes (the empty object included), leaves the other profile
alone, and sets each field on its own.  A field other than the MAC address is
the value typed access returns for its key, or the compiled default when the key
is missing or of another type.  The MAC address is the compiled default when
the key is missing or not a string; of a string of ASCII characters only the
first 17 characters are taken, which are the first 17 bytes: the bytes of the
field are those that `strncpy` with the bound 17 copies from the bytes of the
value. -/
theorem load_or_default (codec : JsonCodec) (K : MainDefaults) (cm : ConfigManager)
    (sd : SDCardHandler) (doc : JsonDocument) (hav : sd.isAvailable = true)
    (hfile : sd.fileExists (configFile cm.isPeer) = true)
    (htext : sd.readFileAsString (configFile cm.isPeer) ≠ "")
    (hparse : codec.deserializeJson (sd.readFileAsString (configFile cm.isPeer)) = some doc) :
    (load codec K cm sd).1 = true ∧
      (load codec K cm sd).2.isPeer = cm.isPeer ∧
      if cm.isPeer then
        (load codec K cm sd).2.mainConfig = cm.mainConfig ∧
          PeerFieldsOrDefault doc (load codec K cm sd).2.peerConfig ∧
          ((∀ s, (doc.get "espnow_main_mac").asStr = some s → PlainAscii s) →
            OrDefault
                ((doc.get "espnow_main_mac").asStr.map (fun s => String.mk (s.data.take 17)))
                ESPNOW_MAIN_DEVICE_MAC (load codec K cm sd).2.peerConfig.espnowMainMAC ∧
              cBytes (load codec K cm sd).2.peerConfig.espnowMainMAC =
                strncpyBytes (cBytes (doc.orStr "espnow_main_mac" ESPNOW_MAIN_DEVICE_MAC)) 17)
      else
        (load codec K cm sd).2.peerConfig = cm.peerConfig ∧
          MainFieldsOrDefault K doc (load codec K cm sd).2.mainConfig ∧
          ((∀ s, (doc.get "espnow_peer_mac").asStr = some s → PlainAscii s) →
            OrDefault
                ((doc.get "espnow_peer_mac").asStr.map (fun s => String.mk (s.data.take 17)))
                "00:00:00:00:00:00" (load codec K cm sd).2.mainConfig.espnowPeerMAC ∧
              cBytes (load codec K cm sd).2.mainConfig.espnowPeerMAC =
                strncpyBytes (cBytes (doc.orStr "espnow_peer_mac" "00:00:00:00:00:00")) 17) := by
  have key : ∀ (k dflt : String), PlainAscii dflt →
      (∀ s, (doc.get k).asStr = some s → PlainAscii s) → PlainAscii (doc.orStr k dflt) := by
    intro k dflt hd hk
    unfold JsonDocument.orStr
    cases ha : (doc.get k).asStr with
    | none => exact hd
    | some s => exact hk s ha
  rw [load_of_parse codec K cm sd doc hav hfile htext hparse]
  refine ⟨rfl, withDoc_isPeer K cm doc, ?_⟩
  unfold withDoc
  cases hp : cm.isPeer
  · simp only [Bool.false_eq_true, if_false]
    refine ⟨trivial, ?_, fun hmac => ⟨?_,
      cBytes_strncpy _ 17 (key "espnow_peer_mac" "00:00:00:00:00:00" (by decide) hmac)⟩⟩
    · show MainFieldsOrDefault K doc (mainOfDoc K doc)
      unfold MainFieldsOrDefault mainOfDoc JsonDocument.orInt JsonDocument.orFloat
        JsonDocument.orBool
      exact ⟨OrDefault.getD _ _, OrDefault.getD _ _, OrDefault.getD _ _, OrDefault.getD _ _,
        OrDefault.getD _ _, OrDefault.getD _ _, OrDefault.getD _ _, OrDefault.getD _ _,
        OrDefault.getD _ _, OrDefault.getD _ _, OrDefault.getD _ _, OrDefault.getD _ _,
        OrDefault.getD _ _⟩
    · show OrDefault _ _ (mainOfDoc K doc).espnowPeerMAC
      unfold mainOfDoc strncpy firstChars JsonDocument.orStr
      exact OrDefault.map_getD _ _ (fun s => String.mk (s.data.take 17)) (by decide)
  · simp only [if_true]
    refine ⟨trivial, ?_, fun hmac => ⟨?_,
      cBytes_strncpy _ 17 (key "espnow_main_mac" ESPNOW_MAIN_DEVICE_MAC (by decide) hmac)⟩⟩
    · show PeerFieldsOrDefault doc (peerOfDoc doc)
      unfold PeerFieldsOrDefault peerOfDoc JsonDocument.orInt JsonDocument.orFloat
        JsonDocument.orBool
      exact ⟨OrDefault.getD _ _, OrDefault.getD _ _, OrDefault.getD _ _⟩
    · show OrDefault _ _ (peerOfDoc doc).espnowMainMAC
      unfold peerOfDoc strncpy firstChars JsonDocument.orStr
      exact OrDefault.map_getD _ _ (fun s => String.mk (s.data.take 17)) (by decide)

/-- The theorem at a Peer file with a MAC address of 20 characters, a timeout, a
mistyped calibration factor and no debug flag; at a Main file with a backlight,
a MAC address that fits, a mistyped touch bound and an integer calibration
factor; at the empty object; and the run of the Peer file from an edited
store. -/
theorem load_or_default_witness :
    (load mixedCodec sampleDefaults freshPeer (cardWith CONFIG_FILE_PEER peerTextMixed)).1 =
        true ∧
      (load mixedCodec sampleDefaults freshPeer
        (cardWith CONFIG_FILE_PEER peerTextMixed)).2.peerConfig.espnowMainMAC =
          "AA:BB:CC:DD:EE:FF" ∧
      cBytes (load mixedCodec sampleDefaults freshPeer
        (cardWith CONFIG_FILE_PEER peerTextMixed)).2.peerConfig.espnowMainMAC =
          [65, 65, 58, 66, 66, 58, 67, 67, 58, 68, 68, 58, 69, 69, 58, 70, 70] ∧
      (load mixedCodec sampleDefaults freshPeer
        (cardWith CONFIG_FILE_PEER peerTextMixed)).2.peerConfig.espnowTimeout = 5000 ∧
      (load mixedCodec sampleDefaults freshPeer
        (cardWith CONFIG_FILE_PEER peerTextMixed)).2.peerConfig.batteryCalibration =
          VOLTAGE_CALIBRATION_FACTOR ∧
      (load mixedCodec sampleDefaults freshPeer
        (cardWith CONFIG_FILE_PEER peerTextMixed)).2.peerConfig.debugSerialEnabled = true ∧
      (load mixedCodec sampleDefaults editedMain
        (cardWith CONFIG_FILE_MAIN mainTextMixed)).2.mainConfig.backlightDefault = 100 ∧
      (load mixedCodec sampleDefaults editedMain
        (cardWith CONFIG_FILE_MAIN mainTextMixed)).2.mainConfig.touchMinX = 200 ∧
      (load mixedCodec sampleDefaults editedMain
        (cardWith CONFIG_FILE_MAIN mainTextMixed)).2.mainConfig.espnowPeerMAC =
          "12:34:56:78:9A:BC" ∧
      (load mixedCodec sampleDefaults editedMain
        (cardWith CONFIG_FILE_MAIN mainTextMixed)).2.mainConfig.batteryCalibration =
          Flt.ofInt 1 ∧
      (load mixedCodec sampleDefaults editedMain
        (cardWith CONFIG_FILE_MAIN mainTextMixed)).2.mainConfig =
          { specMainDefaults sampleDefaults with
            backlightDefault := 100
            espnowPeerMAC := "12:34:56:78:9A:BC"
            batteryCalibration := Flt.ofInt 1 } ∧
      (load mixedCodec sampleDefaults editedMain (cardWith CONFIG_FILE_MAIN "\x7b\x7d")).1 =
        true ∧
      (load mixedCodec sampleDefaults editedMain
        (cardWith CONFIG_FILE_MAIN "\x7b\x7d")).2.mainConfig.backlightDefault = 128 ∧
      (load mixedCodec sampleDefaults editedMain
        (cardWith CONFIG_FILE_MAIN "\x7b\x7d")).2.mainConfig.espnowPeerMAC =
          "00:00:00:00:00:00" ∧
      (load mixedCodec sampleDefaults editedPeer
        (cardWith CONFIG_FILE_PEER peerTextMixed)).2.peerConfig =
          { espnowMainMAC := "AA:BB:CC:DD:EE:FF"
            espnowTimeout := 5000
            batteryCalibration := VOLTAGE_CALIBRATION_FACTOR
            debugSerialEnabled := true } :=
  have hpeer := load_or_default mixedCodec sampleDefaults freshPeer
    (cardWith CONFIG_FILE_PEER peerTextMixed) peerDocMixed (by decide) (by decide) (by decide)
    (by decide)
  have hmain := load_or_default mixedCodec sampleDefaults editedMain
    (cardWith CONFIG_FILE_MAIN mainTextMixed) mainDocMixed (by decide) (by decide) (by decide)
    (by decide)
  have hempty := load_or_default mixedCodec sampleDefaults editedMain
    (cardWith CONFIG_FILE_MAIN "\x7b\x7d") [] (by decide) (by decide) (by decide) (by decide)
  have po : PeerFieldsOrDefault peerDocMixed
      (load mixedCodec sampleDefaults freshPeer
        (cardWith CONFIG_FILE_PEER peerTextMixed)).2.peerConfig := hpeer.2.2.2.1
  have pm := hpeer.2.2.2.2 (fun s hs => by
    have e : some "AA:BB:CC:DD:EE:FF:00" = some s := hs
    cases e
    decide)
  have mo : MainFieldsOrDefault sampleDefaults mainDocMixed
      (load mixedCodec sampleDefaults editedMain
        (cardWith CONFIG_FILE_MAIN mainTextMixed)).2.mainConfig := hmain.2.2.2.1
  have mm := hmain.2.2.2.2 (fun s hs => by
    have e : some "12:34:56:78:9A:BC" = some s := hs
    cases e
    decide)
  have me : MainFieldsOrDefault sampleDefaults []
      (load mixedCodec sampleDefaults editedMain
        (cardWith CONFIG_FILE_MAIN "\x7b\x7d")).2.mainConfig := hempty.2.2.2.1
  have em := hempty.2.2.2.2 (fun s hs => by cases hs)
  ⟨hpeer.1, pm.1.1 "AA:BB:CC:DD:EE:FF" (by decide), pm.2.trans (by decide),
    po.1.1 5000 (by decide), po.2.1.2 (by decide), po.2.2.2 (by decide),
    mo.1.1 100 (by decide), mo.2.1.2 (by decide),
    mm.1.1 "12:34:56:78:9A:BC" (by decide),
    mo.2.2.2.2.2.2.2.2.2.2.2.1.1 (Flt.ofInt 1) (by decide),
    by decide, hempty.1, me.1.2 (by decide), em.1.2 (by decide), by decide⟩

end ConfigManager

/-! ## C12: the result of `save` -/

namespace ConfigManager

/-- C12: `save` returns false on an unavailable backend, leaving the card as it
was, and otherwise returns what the overwriting `writeFile` of the serialized
profile to the profile's own file returns: true exactly when the driver opens
the file for writing and takes at least one character.  Nothing but the content
of that one file changes, the file then holds what the card took of the text,
the whole of it when the card accepts it; the members are not among the results
of `save`, which assigns none. -/
theorem save_result (codec : JsonCodec) (cm : ConfigManager) (sd : SDCardHandler) :
    save codec cm sd =
        (if sd.isAvailable = true then
          sd.writeFile (configFile cm.isPeer) (codec.serializeJsonPretty (docOf cm))
        else (false, sd)) ∧
      ((save codec cm sd).1 = true ↔
        sd.isAvailable = true ∧ (sd.writeFile (configFile cm.isPeer)
          (codec.serializeJsonPretty (docOf cm))).1 = true) ∧
      ((save codec cm sd).1 = true ↔
        sd.isAvailable = true ∧
          (configFile cm.isPeer, OpenMode.FILE_WRITE) ∉ sd.SD.denied ∧
          firstChars (codec.serializeJsonPretty (docOf cm)) sd.SD.quota ≠ "") ∧
      (sd.isAvailable = false → save codec cm sd = (false, sd)) ∧
      SDCardHandler.SameExcept (save codec cm sd).2 sd [configFile cm.isPeer] ∧
      ((save codec cm sd).1 = true →
        (save codec cm sd).2.SD.files.lookup (configFile cm.isPeer) =
          some (firstChars (codec.serializeJsonPretty (docOf cm)) sd.SD.quota)) ∧
      (sd.isAvailable = true →
        sd.Accepts (configFile cm.isPeer) (codec.serializeJsonPretty (docOf cm)) →
        (save codec cm sd).2.SD.files.lookup (configFile cm.isPeer) =
          some (codec.serializeJsonPretty (docOf cm))) := by
  have hne : ∀ s : String, (decide (s.length > 0) = true) ↔ s ≠ "" := by
    intro s
    constructor
    · intro h e
      subst e
      simp at h
    · intro h
      exact decide_eq_true (length_pos_of_ne_empty s h)
  rw [save_eq]
  cases hav : sd.isAvailable
  · simp only [Bool.false_eq_true, if_false, false_and, iff_false, Bool.not_eq_true,
      true_implies, false_implies, and_true, true_and]
    exact SDCardHandler.SameExcept.refl _ _
  · have hm : sd.mounted = true := hav
    simp only [if_true, true_and, true_implies, Bool.true_eq_false, false_implies]
    refine ⟨?_, SDCardHandler.writeFile_sameExcept _ _ _, ?_, ?_⟩
    · rw [SDCardHandler.writeFile_eq]
      by_cases hd : (configFile cm.isPeer, OpenMode.FILE_WRITE) ∈ sd.SD.denied
      · simp [hd]
      · simp only [hm, hd, not_false_eq_true, and_self, if_true, true_and]
        exact hne _
    · intro ht
      obtain ⟨_, hd, _⟩ := SDCardHandler.writeFile_true _ _ _ ht
      rw [SDCardHandler.writeFile_eq, if_pos ⟨hm, hd⟩]
      exact SDClass.lookup_store_same _ _ _
    · intro hacc
      exact (SDCardHandler.writeFile_full sd _ _ hm hacc.1 hacc.2).2.2.2.2

/-- The theorem at an edited Main store over a card that holds a Peer file, and
at an unmounted handler. -/
theorem save_result_witness :
    (save sampleCodec editedMain (cardWith CONFIG_FILE_PEER peerDefaultsText)).1 = true ∧
      (save sampleCodec editedMain
        (cardWith CONFIG_FILE_PEER peerDefaultsText)).2.SD.files.lookup CONFIG_FILE_MAIN =
          some editedMainText ∧
      (save sampleCodec editedMain
        (cardWith CONFIG_FILE_PEER peerDefaultsText)).2.SD.files.lookup CONFIG_FILE_PEER =
          some peerDefaultsText ∧
      save sampleCodec editedMain unmountedCard = (false, unmountedCard) :=
  have h := save_result sampleCodec editedMain (cardWith CONFIG_FILE_PEER peerDefaultsText)
  ⟨h.2.2.1.2 ⟨by decide, by decide, by decide⟩,
    (h.2.2.2.2.2.2 (by decide) (by decide)).trans (by decide),
    (h.2.2.2.2.1.2.2.2.2.2.2.2 CONFIG_FILE_PEER (by decide)).trans (by decide),
    (save_result sampleCodec editedMain unmountedCard).2.2.2.1 (by decide)⟩

/-- What C12 does not promise: on a card that takes 5 characters per transfer
`save` returns true and the file holds the first 5 characters of the profile. -/
theorem save_short_transfer_example :
    (save sampleCodec editedMain smallQuotaCard).1 = true ∧
      (save sampleCodec editedMain smallQuotaCard).2.SD.files.lookup CONFIG_FILE_MAIN =
        some (firstChars editedMainText 5) ∧
      (save sampleCodec editedMain smallQuotaCard).2.SD.files.lookup CONFIG_FILE_PEER = none := by
  decide

end ConfigManager

/-! ## C13: rotation -/

namespace LogManager

/-- C13: rotation.  When the active file is larger than 1048576 bytes (which
presupposes an available backend) and the driver refuses neither the removal of
the backup, nor the renaming, nor the append, one `writeLine` returns true,
leaves in `path ++ ".1"` exactly the previous content of the active file,
whether or not there was a backup before, and leaves in the active file exactly
the line and one newline. -/
theorem writeLine_rotates (sd : SDCardHandler) (path line : String)
    (hsize : sd.getFileSize path > LOG_MAX_FILE_SIZE)
    (hdel : path ++ ".1" ∉ sd.SD.pinned) (hren : path ∉ sd.SD.pinned)
    (happ : (path, OpenMode.FILE_APPEND) ∉ sd.SD.denied)
    (hq : (line ++ "\n").length ≤ sd.SD.quota) :
    sd.isAvailable = true ∧
      (writeLine sd path line).1 = true ∧
      (sd.SD.files.lookup path).isSome = true ∧
      (writeLine sd path line).2.SD.files.lookup (path ++ ".1") = sd.SD.files.lookup path ∧
      (writeLine sd path line).2.SD.files.lookup path = some (line ++ "\n") := by
  obtain ⟨k1, k2, k3, k4, k5, k6⟩ := rotate_oversized sd path hsize hdel hren
  obtain ⟨hm, _, _⟩ :=
    SDCardHandler.lookup_of_getFileSize_pos sd path (Nat.lt_of_le_of_lt (Nat.zero_le _) hsize)
  have hav : sd.isAvailable = true := hm
  have ha := SDCardHandler.appendLine_full (rotateLogIfNeeded sd path) path line k1
    (by rw [k2]; exact happ) (by rw [k3]; exact hq)
  have hfr := SDCardHandler.appendFile_sameExcept (rotateLogIfNeeded sd path) path
    (line ++ "\n")
  have hw : writeLine sd path line = (rotateLogIfNeeded sd path).appendLine path line := by
    simp [writeLine, hav]
  rw [hw]
  refine ⟨hav, ha.1, k6, ?_, ?_⟩
  · have := hfr.2.2.2.2.2.2.2 (path ++ ".1") (by simpa using append_suffix_ne path)
    rw [← k5]
    exact this
  · rw [ha.2, k4]
    simp

/-- The theorem at a battery log of 1048577 bytes with a backup from before. -/
theorem writeLine_rotates_witness :
    fullBatteryCard.getFileSize LOG_FILE_BATTERY > LOG_MAX_FILE_SIZE ∧
      fullBatteryCard.SD.files.lookup (LOG_FILE_BATTERY ++ ".1") = some "old backup\n" ∧
      (writeLine fullBatteryCard LOG_FILE_BATTERY "x").1 = true ∧
      (writeLine fullBatteryCard LOG_FILE_BATTERY "x").2.SD.files.lookup
        (LOG_FILE_BATTERY ++ ".1") = some (filler (LOG_MAX_FILE_SIZE + 1)) ∧
      (writeLine fullBatteryCard LOG_FILE_BATTERY "x").2.SD.files.lookup LOG_FILE_BATTERY =
        some "x\n" :=
  have hs : fullBatteryCard.getFileSize LOG_FILE_BATTERY > LOG_MAX_FILE_SIZE := by
    rw [fullBatteryCard_size]; exact Nat.lt_succ_self _
  have h := writeLine_rotates fullBatteryCard LOG_FILE_BATTERY "x" hs (by decide) (by decide)
    (by decide) (by decide)
  ⟨hs, by decide, h.2.1, h.2.2.2.1.trans (by simp [fullBatteryCard, List.lookup]), h.2.2.2.2⟩

end LogManager

/-! ## C14: the operations of an unmounted handler -/

namespace SDCardHandler

/-- C14: while the handler is unmounted every operation returns its failure or
empty value and leaves the handler and the card as they were: false for
`writeFile`, `appendFile`, `appendLine`, `deleteFile`, `renameFile`,
`fileExists`, `createDir` and `removeDir`, the empty string for
`readFileAsString`, -1 (and an untouched buffer) for `readFile`, 0 for
`getFileSize` and for the three capacity readings. -/
theorem unmounted_operations (h : SDCardHandler) (path newPath data line : String)
    (maxLen : Nat) (hm : h.mounted = false) :
    h.writeFile path data = (false, h) ∧
      h.appendFile path data = (false, h) ∧
      h.appendLine path line = (false, h) ∧
      h.deleteFile path = (false, h) ∧
      h.renameFile path newPath = (false, h) ∧
      h.fileExists path = false ∧
      h.createDir path = (false, h) ∧
      h.removeDir path = (false, h) ∧
      h.readFileAsString path = "" ∧
      h.readFile path maxLen = (-1, none) ∧
      h.getFileSize path = 0 ∧
      h.getTotalSpace = 0 ∧
      h.getUsedSpace = 0 ∧
      h.getFreeSpace = 0 := by
  simp [writeFile, appendFile, appendLine, deleteFile, renameFile, fileExists, createDir,
    removeDir, readFileAsString, readFile, getFileSize, getTotalSpace, getUsedSpace,
    getFreeSpace, hm]

/-- The theorem at a handler unmounted over a card that holds files. -/
theorem unmounted_operations_witness :
    unmountedCard.mounted = false ∧
      unmountedCard.writeFile LOG_FILE_BOOT "x" = (false, unmountedCard) ∧
      unmountedCard.appendFile LOG_FILE_BOOT "x" = (false, unmountedCard) ∧
      unmountedCard.appendLine LOG_FILE_BOOT "x" = (false, unmountedCard) ∧
      unmountedCard.deleteFile LOG_FILE_BOOT = (false, unmountedCard) ∧
      unmountedCard.renameFile LOG_FILE_BOOT "/boot.old" = (false, unmountedCard) ∧
      unmountedCard.fileExists LOG_FILE_BOOT = false ∧
      unmountedCard.createDir LOG_FILE_BOOT = (false, unmountedCard) ∧
      unmountedCard.removeDir LOG_FILE_BOOT = (false, unmountedCard) ∧
      unmountedCard.readFileAsString LOG_FILE_BOOT = "" ∧
      unmountedCard.readFile LOG_FILE_BOOT 64 = (-1, none) ∧
      unmountedCard.getFileSize LOG_FILE_BOOT = 0 ∧
      unmountedCard.getTotalSpace = 0 ∧
      unmountedCard.getUsedSpace = 0 ∧
      unmountedCard.getFreeSpace = 0 :=
  ⟨by decide, unmounted_operations unmountedCard LOG_FILE_BOOT "/boot.old" "x" "x" 64
    (by decide)⟩

end SDCardHandler

/-! ## C15: the battery line -/

namespace LogManager

/-- C15 as stated fails: for `logBattery(13.1, 5, true, true)` the code builds a
line whose tag follows a blank, not the separator ` | ` of the claim, and that
line and a newline are what an empty battery log holds afterwards. -/
theorem logBattery_counterexample :
    batteryLine samplePlatform volts13_1 5 true true =
        "[1234ms] CRITICAL - Battery | Voltage: 13.10V | Percent: 5% [CRITICAL]" ∧
      specBatteryLine " | " samplePlatform volts13_1 5 true true =
        "[1234ms] CRITICAL - Battery | Voltage: 13.10V | Percent: 5% | [CRITICAL]" ∧
      batteryLine samplePlatform volts13_1 5 true true ≠
        specBatteryLine " | " samplePlatform volts13_1 5 true true ∧
      (logBattery samplePlatform mountedBlank volts13_1 5 true true).2.SD.files.lookup
        LOG_FILE_BATTERY =
          some "[1234ms] CRITICAL - Battery | Voltage: 13.10V | Percent: 5% [CRITICAL]\n" := by
  decide

/-- C15, as the code has it: `logBattery` is one `writeLine` to `/battery.log`
of the line `[<ms>ms] <LEVEL> - Battery | Voltage: <v>V | Percent: <p>%` with
the level CRITICAL before WARN before INFO, followed by ` [CRITICAL]` or
` [LOW]` after a single blank when the flag is set; on an available backend
whose file is within the limit and whose card takes the line, the call returns
true and the file grows by exactly that line and a newline. -/
theorem logBattery_line (P : Platform) (sd : SDCardHandler) (voltage : Flt) (percent : Nat)
    (isLow isCritical : Bool) :
    batteryLine P voltage percent isLow isCritical =
        specBatteryLine " " P voltage percent isLow isCritical ∧
      logBattery P sd voltage percent isLow isCritical =
        writeLine sd LOG_FILE_BATTERY (specBatteryLine " " P voltage percent isLow isCritical) ∧
      (sd.isAvailable = true → sd.getFileSize LOG_FILE_BATTERY ≤ LOG_MAX_FILE_SIZE →
        (LOG_FILE_BATTERY, OpenMode.FILE_APPEND) ∉ sd.SD.denied →
        (specBatteryLine " " P voltage percent isLow isCritical ++ "\n").length ≤ sd.SD.quota →
        (logBattery P sd voltage percent isLow isCritical).1 = true ∧
          (logBattery P sd voltage percent isLow isCritical).2.SD.files.lookup
            LOG_FILE_BATTERY =
              some ((sd.SD.files.lookup LOG_FILE_BATTERY).getD "" ++
                (specBatteryLine " " P voltage percent isLow isCritical ++ "\n"))) := by
  have h : batteryLine P voltage percent isLow isCritical =
      specBatteryLine " " P voltage percent isLow isCritical := by
    unfold batteryLine specBatteryLine getTimestamp
    have e1 : (" " : String) ++ "[CRITICAL]" = " [CRITICAL]" := by decide
    have e2 : (" " : String) ++ "[LOW]" = " [LOW]" := by decide
    cases isLow <;> cases isCritical <;>
      simp only [String.append_assoc, Bool.false_eq_true, if_false, if_true,
        String.append_empty, e1, e2]
  refine ⟨h, ?_, ?_⟩
  · unfold logBattery
    rw [h]
  · intro hav hsize happ hq
    unfold logBattery
    rw [h]
    exact writeLine_small sd LOG_FILE_BATTERY _ hav hsize happ hq

/-- The theorem at the call of the specification's scenario, on a battery log
that holds one line already. -/
theorem logBattery_line_witness :
    batteryLine samplePlatform volts13_1 5 true true =
        "[1234ms] CRITICAL - Battery | Voltage: 13.10V | Percent: 5% [CRITICAL]" ∧
      (logBattery samplePlatform tenFilesCard volts13_1 5 true true).1 = true ∧
      (logBattery samplePlatform tenFilesCard volts13_1 5 true true).2.SD.files.lookup
        LOG_FILE_BATTERY =
          some ("battery\n" ++
            "[1234ms] CRITICAL - Battery | Voltage: 13.10V | Percent: 5% [CRITICAL]\n") :=
  have h := logBattery_line samplePlatform tenFilesCard volts13_1 5 true true
  have e := h.2.2 (by decide) (by decide) (by decide) (by decide)
  ⟨by decide, e.1, by decide⟩

end LogManager

/-! ## C16: the statistics line -/

namespace LogManager

/-- C16: `logConnectionStats` is one `writeLine` to `/connection.log` of the line
`[<ms>ms] INFO - ESP-NOW Stats | Peer: <mac> | Sent: <sent> | Received:
<received> | Lost: <lost>`, then ` | Loss: <lost * 100 / sent to 1 decimal>%`
exactly when `sent > 0`, then ` | Avg RSSI: <avgRssi> dBm`, in this order; with
no packet sent the line has no loss field and the float unit is not used.  On
an available backend whose driver refuses nothing and takes the line, the call
returns true and `/connection.log` afterwards is that line and one newline after
its previous content (after nothing when the file was oversized and has been
rotated). -/
theorem logConnectionStats_line (P : Platform) (sd : SDCardHandler) (peerMac : String)
    (packetsSent packetsReceived packetsLost : Nat) (avgRssi : Int) :
    connectionStatsLine P peerMac packetsSent packetsReceived packetsLost avgRssi =
        specConnectionStatsLine P peerMac packetsSent packetsReceived packetsLost avgRssi ∧
      logConnectionStats P sd peerMac packetsSent packetsReceived packetsLost avgRssi =
        writeLine sd LOG_FILE_CONNECTION
          (specConnectionStatsLine P peerMac packetsSent packetsReceived packetsLost avgRssi) ∧
      connectionStatsLine P peerMac 0 packetsReceived packetsLost avgRssi =
        "[" ++ toString P.millis ++ "ms]" ++ " INFO - " ++ "ESP-NOW Stats" ++
          " | Peer: " ++ peerMac ++ " | Sent: " ++ toString 0 ++
          " | Received: " ++ toString packetsReceived ++ " | Lost: " ++ toString packetsLost ++
          " | Avg RSSI: " ++ toString avgRssi ++ " dBm" ∧
      (packetsSent > 0 →
        connectionStatsLine P peerMac packetsSent packetsReceived packetsLost avgRssi =
          "[" ++ toString P.millis ++ "ms]" ++ " INFO - " ++ "ESP-NOW Stats" ++
            " | Peer: " ++ peerMac ++ " | Sent: " ++ toString packetsSent ++
            " | Received: " ++ toString packetsReceived ++
            " | Lost: " ++ toString packetsLost ++
            " | Loss: " ++ P.floatToString
              (P.fdiv (P.fmul (P.uintToFloat packetsLost) (Flt.ofInt 100))
                (P.uintToFloat packetsSent)) 1 ++ "%" ++
            " | Avg RSSI: " ++ toString avgRssi ++ " dBm") ∧
      (sd.isAvailable = true →
        LOG_FILE_CONNECTION ++ ".1" ∉ sd.SD.pinned → LOG_FILE_CONNECTION ∉ sd.SD.pinned →
        (LOG_FILE_CONNECTION, OpenMode.FILE_APPEND) ∉ sd.SD.denied →
        (specConnectionStatsLine P peerMac packetsSent packetsReceived packetsLost avgRssi ++
          "\n").length ≤ sd.SD.quota →
        (logConnectionStats P sd peerMac packetsSent packetsReceived packetsLost avgRssi).1 =
            true ∧
          (logConnectionStats P sd peerMac packetsSent packetsReceived packetsLost
            avgRssi).2.SD.files.lookup LOG_FILE_CONNECTION =
              some ((if sd.getFileSize LOG_FILE_CONNECTION > LOG_MAX_FILE_SIZE then ""
                  else (sd.SD.files.lookup LOG_FILE_CONNECTION).getD "") ++
                (specConnectionStatsLine P peerMac packetsSent packetsReceived packetsLost
                  avgRssi ++ "\n"))) := by
  have h : ∀ sent : Nat, connectionStatsLine P peerMac sent packetsReceived packetsLost avgRssi =
      specConnectionStatsLine P peerMac sent packetsReceived packetsLost avgRssi := by
    intro sent
    unfold connectionStatsLine specConnectionStatsLine lossRate getTimestamp
    by_cases hs : sent > 0 <;>
      simp only [hs, String.append_assoc, if_false, if_true, String.append_empty,
        String.empty_append]
  refine ⟨h _, ?_, ?_, ?_, ?_⟩
  · unfold logConnectionStats
    rw [h]
  · rw [h]
    unfold specConnectionStatsLine
    simp only [Nat.lt_irrefl, gt_iff_lt, if_false, String.append_assoc, String.empty_append]
  · intro hs
    rw [h]
    unfold specConnectionStatsLine lossRate
    simp only [hs, if_true, String.append_assoc]
  · intro hav hdel hren happ hq
    unfold logConnectionStats
    rw [h]
    generalize specConnectionStatsLine P peerMac packetsSent packetsReceived packetsLost
      avgRssi = line at hq ⊢
    -- `writeLine` is the rotation check and one `appendLine`
    have hw : writeLine sd LOG_FILE_CONNECTION line =
        (rotateLogIfNeeded sd LOG_FILE_CONNECTION).appendLine LOG_FILE_CONNECTION line := by
      simp [writeLine, hav]
    -- an `appendLine` that the driver takes
    have happend : ∀ t : SDCardHandler, t.mounted = true →
        (LOG_FILE_CONNECTION, OpenMode.FILE_APPEND) ∉ t.SD.denied →
        (line ++ "\n").length ≤ t.SD.quota →
        (t.appendLine LOG_FILE_CONNECTION line).1 = true ∧
          (t.appendLine LOG_FILE_CONNECTION line).2.SD.files.lookup LOG_FILE_CONNECTION =
            some ((t.SD.files.lookup LOG_FILE_CONNECTION).getD "" ++ (line ++ "\n")) := by
      intro t tm td tq
      have hpos : 0 < line.length ∨ 0 < ("\n" : String).length := Or.inr (by decide)
      simp [SDCardHandler.appendLine, SDCardHandler.appendFile, tm, SDClass.openAppend, td,
        SDClass.print, firstChars_of_le _ _ tq, SDClass.lookup_store_same, hpos]
    rw [hw]
    by_cases hsize : sd.getFileSize LOG_FILE_CONNECTION > LOG_MAX_FILE_SIZE
    · obtain ⟨k1, k2, k3, k4, _, _⟩ := rotate_oversized sd LOG_FILE_CONNECTION hsize hdel hren
      have ha := happend (rotateLogIfNeeded sd LOG_FILE_CONNECTION) k1
        (by rw [k2]; exact happ) (by rw [k3]; exact hq)
      rw [k4] at ha
      rw [if_pos hsize]
      exact ha
    · have hr : rotateLogIfNeeded sd LOG_FILE_CONNECTION = sd := by
        simp [rotateLogIfNeeded, hsize]
      rw [hr, if_neg hsize]
      exact happend sd hav happ hq

/-- The theorem at 5 packets lost of 100, on a connection log that holds one
line already; and the run with no packet sent on a blank card. -/
theorem logConnectionStats_line_witness :
    connectionStatsLine samplePlatform "AA:BB:CC:DD:EE:FF" 100 95 5 (-70) =
        "[1234ms] INFO - ESP-NOW Stats | Peer: AA:BB:CC:DD:EE:FF | Sent: 100 | Received: 95" ++
          " | Lost: 5 | Loss: 5.0% | Avg RSSI: -70 dBm" ∧
      (logConnectionStats samplePlatform tenFilesCard "AA:BB:CC:DD:EE:FF" 100 95 5 (-70)).1 =
        true ∧
      (logConnectionStats samplePlatform tenFilesCard "AA:BB:CC:DD:EE:FF" 100 95 5
        (-70)).2.SD.files.lookup LOG_FILE_CONNECTION =
          some ("connection\n" ++
            ("[1234ms] INFO - ESP-NOW Stats | Peer: AA:BB:CC:DD:EE:FF | Sent: 100" ++
              " | Received: 95 | Lost: 5 | Loss: 5.0% | Avg RSSI: -70 dBm\n")) ∧
      (logConnectionStats samplePlatform mountedBlank "AA:BB:CC:DD:EE:FF" 0 7 0
        (-70)).2.SD.files.lookup LOG_FILE_CONNECTION =
          some ("[1234ms] INFO - ESP-NOW Stats | Peer: AA:BB:CC:DD:EE:FF | Sent: 0" ++
            " | Received: 7 | Lost: 0 | Avg RSSI: -70 dBm\n") :=
  have h := logConnectionStats_line samplePlatform tenFilesCard "AA:BB:CC:DD:EE:FF" 100 95 5
    (-70)
  have e := h.2.2.2.2 (by decide) (by decide) (by decide) (by decide) (by decide)
  ⟨(h.2.2.2.1 (by decide)).trans (by decide), e.1, e.2.trans (by decide), by decide⟩

/-- The line for 5 packets lost of 100, and the line when none was sent. -/
theorem logConnectionStats_example :
    connectionStatsLine samplePlatform "AA:BB:CC:DD:EE:FF" 100 95 5 (-70) =
        "[1234ms] INFO - ESP-NOW Stats | Peer: AA:BB:CC:DD:EE:FF | Sent: 100 | Received: 95" ++
          " | Lost: 5 | Loss: 5.0% | Avg RSSI: -70 dBm" ∧
      connectionStatsLine samplePlatform "AA:BB:CC:DD:EE:FF" 0 0 0 (-70) =
        "[1234ms] INFO - ESP-NOW Stats | Peer: AA:BB:CC:DD:EE:FF | Sent: 0 | Received: 0" ++
          " | Lost: 0 | Avg RSSI: -70 dBm" ∧
      (logConnectionStats samplePlatform mountedBlank "AA:BB:CC:DD:EE:FF" 0 0 0
        (-70)).2.SD.files.lookup LOG_FILE_CONNECTION =
          some ("[1234ms] INFO - ESP-NOW Stats | Peer: AA:BB:CC:DD:EE:FF | Sent: 0" ++
            " | Received: 0 | Lost: 0 | Avg RSSI: -70 dBm\n") := by
  decide

end LogManager

/-! ## C17: one append per logging call -/

namespace LogManager

/-- C17: every public logging call is a single `writeLine` of the line it
formats to the file of its channel, except `logBootComplete`, which first writes
an empty line to `/boot.log`, dropping the result, and then the line
`[<ms>ms] <INFO or ERROR> - Boot Complete | Time: <t>ms | Free Heap: <n> bytes`
followed by ` [SUCCESS]` or ` [FAILED]`, whose result it returns; and a
`writeLine` on an available backend is the rotation check and exactly one
`appendLine`.  In the file: on an available backend whose driver refuses
nothing and takes the line, a call other than `logBootComplete` returns true and
leaves in the file of its channel exactly one more line, its own, after the
previous content (after nothing when the file was oversized and has been
rotated); and `logBootComplete` on a boot log that stays within the limit
returns true and leaves after the previous content one empty line and then its
line. -/
theorem log_calls_append_once (P : Platform) (sd : SDCardHandler) (c : LogCall) :
    run P sd c =
        (match c with
        | LogCall.logBootComplete _ _ =>
          writeLine (writeLine sd LOG_FILE_BOOT "").2 LOG_FILE_BOOT (c.line P)
        | _ => writeLine sd c.channel (c.line P)) ∧
      (∀ (totalTimeMs : Nat) (success : Bool),
        (LogCall.logBootComplete totalTimeMs success).line P =
          specBootCompleteLine P totalTimeMs success) ∧
      (∀ (totalTimeMs : Nat) (success : Bool),
        (logBootComplete P sd totalTimeMs success).1 =
          (writeLine (writeLine sd LOG_FILE_BOOT "").2 LOG_FILE_BOOT
            (specBootCompleteLine P totalTimeMs success)).1) ∧
      (∀ (s : SDCardHandler) (logFile line : String), s.isAvailable = true →
        writeLine s logFile line = (rotateLogIfNeeded s logFile).appendLine logFile line) ∧
      ((∀ (totalTimeMs : Nat) (success : Bool), c ≠ LogCall.logBootComplete totalTimeMs success) →
        sd.isAvailable = true →
        c.channel ++ ".1" ∉ sd.SD.pinned → c.channel ∉ sd.SD.pinned →
        (c.channel, OpenMode.FILE_APPEND) ∉ sd.SD.denied →
        (c.line P ++ "\n").length ≤ sd.SD.quota →
        (run P sd c).1 = true ∧
          (run P sd c).2.SD.files.lookup c.channel =
            some ((if sd.getFileSize c.channel > LOG_MAX_FILE_SIZE then ""
                else (sd.SD.files.lookup c.channel).getD "") ++ (c.line P ++ "\n"))) ∧
      (∀ (totalTimeMs : Nat) (success : Bool), sd.isAvailable = true →
        ((sd.SD.files.lookup LOG_FILE_BOOT).getD "").utf8ByteSize < LOG_MAX_FILE_SIZE →
        (LOG_FILE_BOOT, OpenMode.FILE_APPEND) ∉ sd.SD.denied →
        (specBootCompleteLine P totalTimeMs success ++ "\n").length ≤ sd.SD.quota →
        (logBootComplete P sd totalTimeMs success).1 = true ∧
          (logBootComplete P sd totalTimeMs success).2.SD.files.lookup LOG_FILE_BOOT =
            some ((sd.SD.files.lookup LOG_FILE_BOOT).getD "" ++ "\n" ++
              (specBootCompleteLine P totalTimeMs success ++ "\n"))) := by
  have h : ∀ (t : Nat) (s : Bool), bootCompleteLine P t s = specBootCompleteLine P t s := by
    intro t s
    unfold bootCompleteLine specBootCompleteLine getTimestamp
    cases s <;>
      simp only [String.append_assoc, Bool.false_eq_true, if_false, if_true]
  -- on an available backend `writeLine` is the rotation check and one `appendLine`
  have hw : ∀ (s : SDCardHandler) (logFile line : String), s.isAvailable = true →
      writeLine s logFile line = (rotateLogIfNeeded s logFile).appendLine logFile line := by
    intro s logFile line hs
    simp [writeLine, hs]
  -- a file within the limit is not rotated
  have hsmall : ∀ (s : SDCardHandler) (logFile : String),
      s.getFileSize logFile ≤ LOG_MAX_FILE_SIZE → rotateLogIfNeeded s logFile = s := by
    intro s logFile hs
    simp [rotateLogIfNeeded, Nat.not_lt.2 hs]
  -- an `appendLine` that the driver takes
  have happend : ∀ (s : SDCardHandler) (logFile line : String), s.isAvailable = true →
      (logFile, OpenMode.FILE_APPEND) ∉ s.SD.denied → (line ++ "\n").length ≤ s.SD.quota →
      (s.appendLine logFile line).1 = true ∧
        (s.appendLine logFile line).2.SD.files.lookup logFile =
          some ((s.SD.files.lookup logFile).getD "" ++ (line ++ "\n")) := by
    intro s logFile line hs hd hq
    have hm : s.mounted = true := hs
    have hpos : 0 < line.length ∨ 0 < ("\n" : String).length := Or.inr (by decide)
    simp [SDCardHandler.appendLine, SDCardHandler.appendFile, hm, SDClass.openAppend, hd,
      SDClass.print, firstChars_of_le _ _ hq, SDClass.lookup_store_same, hpos]
  refine ⟨?_, fun t s => h t s, fun t s => ?_, hw, ?_, ?_⟩
  · cases c <;> rfl
  · unfold logBootComplete
    rw [h]
  · intro hne hav hdel hren happ hq
    have hr : run P sd c = writeLine sd c.channel (c.line P) := by
      cases c with
      | logBootComplete t s => exact absurd rfl (hne t s)
      | _ => rfl
    rw [hr, hw sd c.channel (c.line P) hav]
    by_cases hsize : sd.getFileSize c.channel > LOG_MAX_FILE_SIZE
    · obtain ⟨k1, k2, k3, k4, _, _⟩ := rotate_oversized sd c.channel hsize hdel hren
      have ha := happend (rotateLogIfNeeded sd c.channel) c.channel (c.line P) k1
        (by rw [k2]; exact happ) (by rw [k3]; exact hq)
      rw [k4] at ha
      rw [if_pos hsize]
      exact ha
    · rw [hsmall sd c.channel (Nat.not_lt.1 hsize), if_neg hsize]
      exact happend sd c.channel (c.line P) hav happ hq
  · intro t s hav hsize happ hq
    have e1 : ("\n" : String).utf8ByteSize = 1 := by decide
    have e2 : ("\n" : String).length = 1 := by decide
    have e3 : (("" : String) ++ "\n") = "\n" := by decide
    have hq1 : (("" : String) ++ "\n").length ≤ sd.SD.quota := by
      rw [String.length_append, e2] at hq
      rw [e3, e2]
      omega
    -- the boot log before the call, and its size as the rotation check reads it
    have hs1 : sd.getFileSize LOG_FILE_BOOT ≤ LOG_MAX_FILE_SIZE := by
      cases hl : sd.SD.files.lookup LOG_FILE_BOOT with
      | none =>
        rw [SDCardHandler.getFileSize_missing sd LOG_FILE_BOOT hl]; exact Nat.zero_le _
      | some content =>
        have := SDCardHandler.getFileSize_le sd LOG_FILE_BOOT content hl
        rw [hl] at hsize
        simp only [Option.getD_some] at hsize
        omega
    -- the first `writeLine`: the empty line
    have h1 := happend sd LOG_FILE_BOOT "" hav happ hq1
    rw [e3] at h1
    have w1 : writeLine sd LOG_FILE_BOOT "" = sd.appendLine LOG_FILE_BOOT "" := by
      rw [hw sd LOG_FILE_BOOT "" hav, hsmall sd LOG_FILE_BOOT hs1]
    obtain ⟨f1, f2, _, f4⟩ := writeLine_faults sd LOG_FILE_BOOT ""
    rw [w1] at f1 f2 f4
    -- the second `writeLine`: the line
    have hs2 : (sd.appendLine LOG_FILE_BOOT "").2.getFileSize LOG_FILE_BOOT ≤
        LOG_MAX_FILE_SIZE := by
      have := SDCardHandler.getFileSize_le _ LOG_FILE_BOOT _ h1.2
      rw [utf8ByteSize_append, e1] at this
      omega
    have hav2 : (sd.appendLine LOG_FILE_BOOT "").2.isAvailable = true := by rw [f1]; exact hav
    have h2 := happend (sd.appendLine LOG_FILE_BOOT "").2 LOG_FILE_BOOT
      (specBootCompleteLine P t s) hav2 (by rw [f2]; exact happ) (by rw [f4]; exact hq)
    unfold logBootComplete
    rw [h, w1, hw _ LOG_FILE_BOOT _ hav2, hsmall _ LOG_FILE_BOOT hs2]
    refine ⟨h2.1, ?_⟩
    rw [h2.2, h1.2]
    rfl

/-- The theorem at a `logBootComplete` and a `logError` on a card whose logs
hold one line each; and the run of a failed `logBootComplete` on a blank card. -/
theorem log_calls_append_once_witness :
    (run samplePlatform tenFilesCard (LogCall.logBootComplete 3500 true)).1 = true ∧
      (run samplePlatform tenFilesCard
        (LogCall.logBootComplete 3500 true)).2.SD.files.lookup LOG_FILE_BOOT =
          some ("boot\n" ++ "\n" ++
            ("[1234ms] INFO - Boot Complete | Time: 3500ms | Free Heap: 200000 bytes" ++
              " [SUCCESS]\n")) ∧
      (run samplePlatform tenFilesCard (LogCall.logError "SD" 4 "mount failed" 0)).1 = true ∧
      (run samplePlatform tenFilesCard
        (LogCall.logError "SD" 4 "mount failed" 0)).2.SD.files.lookup LOG_FILE_ERROR =
          some ("error\n" ++
            "[1234ms] ERROR - SD | Code: 4 | mount failed | Free Heap: 200000 bytes\n") ∧
      (run samplePlatform mountedBlank
        (LogCall.logBootComplete 3500 false)).2.SD.files.lookup LOG_FILE_BOOT =
          some ("\n[1234ms] ERROR - Boot Complete | Time: 3500ms | Free Heap: 200000 bytes" ++
            " [FAILED]\n") :=
  have hb := (log_calls_append_once samplePlatform tenFilesCard
    (LogCall.logBootComplete 3500 true)).2.2.2.2.2 3500 true (by decide) (by decide)
    (by decide) (by decide)
  have he := (log_calls_append_once samplePlatform tenFilesCard
    (LogCall.logError "SD" 4 "mount failed" 0)).2.2.2.2.1 (by intro t s; exact LogCall.noConfusion)
    (by decide) (by decide) (by decide) (by decide) (by decide)
  ⟨hb.1, hb.2.trans (by decide), he.1, he.2.trans (by decide), by decide⟩

/-- The calls on a blank card: `logBootComplete` leaves an empty line and its
line, `logError` one line. -/
theorem log_calls_append_once_example :
    run samplePlatform mountedBlank (LogCall.logBootComplete 3500 true) =
        writeLine (writeLine mountedBlank LOG_FILE_BOOT "").2 LOG_FILE_BOOT
          "[1234ms] INFO - Boot Complete | Time: 3500ms | Free Heap: 200000 bytes [SUCCESS]" ∧
      (run samplePlatform mountedBlank (LogCall.logBootComplete 3500 true)).1 = true ∧
      (run samplePlatform mountedBlank
        (LogCall.logBootComplete 3500 true)).2.SD.files.lookup LOG_FILE_BOOT =
          some ("\n[1234ms] INFO - Boot Complete | Time: 3500ms | Free Heap: 200000 bytes" ++
            " [SUCCESS]\n") ∧
      (run samplePlatform mountedBlank
        (LogCall.logError "SD" 4 "mount failed" 0)).2.SD.files.lookup LOG_FILE_ERROR =
          some "[1234ms] ERROR - SD | Code: 4 | mount failed | Free Heap: 200000 bytes\n" ∧
      (run samplePlatform mountedBlank (LogCall.logCrash 1074321772 0 28)).2.SD.files.lookup
        LOG_FILE_ERROR =
          some ("[1234ms] FATAL - CRASH | PC: 0x4008d96c | ExcVAddr: 0x0 | ExcCause: 28" ++
            " | Free Heap: 200000 bytes\n") := by
  decide

end LogManager

/-! ## C18: `clearAllLogs` -/

namespace LogManager

/-- C18: `clearAllLogs` changes nothing on an unavailable backend, and on an
available one nothing but the four active log files: the four backups, the
configuration files and every other file keep their content.  When the driver
does not refuse to remove them, none of `/boot.log`, `/battery.log`,
`/connection.log` and `/error.log` exists afterwards, whether or not it existed
before. -/
theorem clearAllLogs_effect (sd : SDCardHandler) :
    (sd.isAvailable = false → clearAllLogs sd = sd) ∧
      SDCardHandler.SameExcept (clearAllLogs sd) sd logFiles ∧
      (∀ q : String, q ∈ LogCall.layout → q ∉ logFiles →
        (clearAllLogs sd).SD.files.lookup q = sd.SD.files.lookup q) ∧
      (sd.isAvailable = true → (∀ p : String, p ∈ logFiles → p ∉ sd.SD.pinned) →
        ∀ p : String, p ∈ logFiles → (clearAllLogs sd).fileExists p = false) := by
  have hfr := clearAllLogs_sameExcept sd
  refine ⟨fun h => by simp [clearAllLogs, h], hfr, fun q _ hq => hfr.2.2.2.2.2.2.2 q hq, ?_⟩
  intro hav hpin p hp
  have hm : sd.mounted = true := hav
  -- the four handlers on the way
  have d1 := SDCardHandler.deleteFile_sameExcept sd LOG_FILE_BOOT
  have d2 := SDCardHandler.deleteFile_sameExcept (sd.deleteFile LOG_FILE_BOOT).2 LOG_FILE_BATTERY
  have d3 := SDCardHandler.deleteFile_sameExcept
    ((sd.deleteFile LOG_FILE_BOOT).2.deleteFile LOG_FILE_BATTERY).2 LOG_FILE_CONNECTION
  have d4 := SDCardHandler.deleteFile_sameExcept
    (((sd.deleteFile LOG_FILE_BOOT).2.deleteFile LOG_FILE_BATTERY).2.deleteFile
      LOG_FILE_CONNECTION).2 LOG_FILE_ERROR
  have m1 : (sd.deleteFile LOG_FILE_BOOT).2.mounted = true := d1.1.trans hm
  have m2 := d2.1.trans m1
  have m3 := d3.1.trans m2
  have p1 := d1.2.2.1
  have p2 := d2.2.2.1.trans p1
  have p3 := d3.2.2.1.trans p2
  have g1 := (SDCardHandler.deleteFile_gone sd LOG_FILE_BOOT
    (hpin _ (by decide))).resolve_right (by rw [hm]; decide)
  have g2 := (SDCardHandler.deleteFile_gone (sd.deleteFile LOG_FILE_BOOT).2 LOG_FILE_BATTERY
    (by rw [p1]; exact hpin _ (by decide))).resolve_right (by rw [m1]; decide)
  have g3 := (SDCardHandler.deleteFile_gone
    ((sd.deleteFile LOG_FILE_BOOT).2.deleteFile LOG_FILE_BATTERY).2 LOG_FILE_CONNECTION
    (by rw [p2]; exact hpin _ (by decide))).resolve_right (by rw [m2]; decide)
  have g4 := (SDCardHandler.deleteFile_gone
    (((sd.deleteFile LOG_FILE_BOOT).2.deleteFile LOG_FILE_BATTERY).2.deleteFile
      LOG_FILE_CONNECTION).2 LOG_FILE_ERROR
    (by rw [p3]; exact hpin _ (by decide))).resolve_right (by rw [m3]; decide)
  have hc : clearAllLogs sd =
      ((((sd.deleteFile LOG_FILE_BOOT).2.deleteFile LOG_FILE_BATTERY).2.deleteFile
        LOG_FILE_CONNECTION).2.deleteFile LOG_FILE_ERROR).2 := by
    simp [clearAllLogs, hav]
  have hmc : (clearAllLogs sd).mounted = true := by rw [hc]; exact d4.1.trans m3
  have hnone : (clearAllLogs sd).SD.files.lookup p = none := by
    rw [hc]
    simp only [logFiles, List.mem_cons, List.mem_singleton, List.not_mem_nil, or_false] at hp
    rcases hp with rfl | rfl | rfl | rfl
    · exact lookup_none_of_sameExcept d4 (by decide)
        (lookup_none_of_sameExcept d3 (by decide)
          (lookup_none_of_sameExcept d2 (by decide) g1))
    · exact lookup_none_of_sameExcept d4 (by decide)
        (lookup_none_of_sameExcept d3 (by decide) g2)
    · exact lookup_none_of_sameExcept d4 (by decide) g3
    · exact g4
  simp [SDCardHandler.fileExists, hmc, SDClass.exists_, hnone]

/-- The theorem at a card with all ten files and at one that lacks the logs. -/
theorem clearAllLogs_effect_witness :
    (clearAllLogs tenFilesCard).fileExists LOG_FILE_BOOT = false ∧
      (clearAllLogs tenFilesCard).fileExists LOG_FILE_BATTERY = false ∧
      (clearAllLogs tenFilesCard).fileExists LOG_FILE_CONNECTION = false ∧
      (clearAllLogs tenFilesCard).fileExists LOG_FILE_ERROR = false ∧
      (clearAllLogs tenFilesCard).SD.files.lookup (LOG_FILE_BOOT ++ ".1") =
        some "boot backup\n" ∧
      (clearAllLogs tenFilesCard).SD.files.lookup CONFIG_FILE_PEER = some peerDefaultsText ∧
      (clearAllLogs mountedBlank).fileExists LOG_FILE_BOOT = false ∧
      clearAllLogs unmountedCard = unmountedCard :=
  have h := clearAllLogs_effect tenFilesCard
  have e := h.2.2.2 (by decide) (by decide)
  have b := clearAllLogs_effect mountedBlank
  ⟨e _ (by decide), e _ (by decide), e _ (by decide), e _ (by decide),
    (h.2.2.1 _ (by decide) (by decide)).trans (by decide),
    (h.2.2.1 _ (by decide) (by decide)).trans (by decide),
    b.2.2.2 (by decide) (by decide) _ (by decide),
    (clearAllLogs_effect unmountedCard).1 (by decide)⟩

end LogManager

/-! ## C19: logging on an unavailable backend -/

namespace LogManager

/-- C19: on an unavailable backend, never mounted or unmounted by `end`, every
public logging call returns false and leaves the handler and the card exactly as
they were, so that nothing was rotated and nothing appended, for all arguments;
the rotation check and `appendLine` are not reached. -/
theorem log_calls_unavailable (P : Platform) (sd : SDCardHandler) (c : LogCall)
    (hav : sd.isAvailable = false) :
    run P sd c = (false, sd) ∧
      (∀ logFile line : String, writeLine sd logFile line = (false, sd)) ∧
      ∀ (mounted : SDCardHandler) (c1 : LogCall),
        run P mounted.end_ c1 = (false, mounted.end_) :=
  ⟨run_unavailable P sd c hav, fun f l => writeLine_unavailable sd f l hav,
    fun m c1 => run_unavailable P m.end_ c1 rfl⟩

/-- The theorem at `logError` and `logBootComplete` on a handler unmounted over
a card that holds a boot log. -/
theorem log_calls_unavailable_witness :
    unmountedCard.isAvailable = false ∧
      run samplePlatform unmountedCard (LogCall.logError "SD" 4 "mount failed" 0) =
        (false, unmountedCard) ∧
      logError samplePlatform unmountedCard "SD" 4 "mount failed" 0 = (false, unmountedCard) ∧
      logBootComplete samplePlatform tenFilesCard.end_ 3500 true =
        (false, tenFilesCard.end_) :=
  have h := log_calls_unavailable samplePlatform unmountedCard
    (LogCall.logError "SD" 4 "mount failed" 0) (by decide)
  ⟨by decide, h.1, h.1, h.2.2 tenFilesCard (LogCall.logBootComplete 3500 true)⟩

end LogManager

/-! ## C20: the channels are independent -/

namespace LogManager

/-- C20: every public logging call writes to one of the four channels and
changes nothing but the content of the active file of its channel and of that
file's backup: the mount flag, the faults and every other file are as before, in
particular the files and backups of the other three channels and the two
configuration files, whether or not the call rotates. -/
theorem log_calls_independent (P : Platform) (sd : SDCardHandler) (c : LogCall) :
    c.channel ∈ logFiles ∧
      SDCardHandler.SameExcept (run P sd c).2 sd [c.channel, c.channel ++ ".1"] ∧
      c.foreign.length = 8 ∧ CONFIG_FILE_MAIN ∈ c.foreign ∧ CONFIG_FILE_PEER ∈ c.foreign ∧
      (∀ p : String, p ∈ logFiles → p ≠ c.channel → p ∈ c.foreign ∧ p ++ ".1" ∈ c.foreign) ∧
      ∀ q : String, q ∈ c.foreign →
        (run P sd c).2.SD.files.lookup q = sd.SD.files.lookup q := by
  have hfr := run_sameExcept P sd c
  have hmem := channel_mem c
  have facts : ∀ ch ∈ logFiles,
      (LogCall.layout.filter (fun q => q != ch && q != ch ++ ".1")).length = 8 ∧
        CONFIG_FILE_MAIN ∈ LogCall.layout.filter (fun q => q != ch && q != ch ++ ".1") ∧
        CONFIG_FILE_PEER ∈ LogCall.layout.filter (fun q => q != ch && q != ch ++ ".1") ∧
        ∀ p ∈ logFiles, p ≠ ch →
          p ∈ LogCall.layout.filter (fun q => q != ch && q != ch ++ ".1") ∧
            p ++ ".1" ∈ LogCall.layout.filter (fun q => q != ch && q != ch ++ ".1") := by
    decide
  obtain ⟨f1, f2, f3, f4⟩ := facts c.channel hmem
  refine ⟨hmem, hfr, f1, f2, f3, f4, ?_⟩
  intro q hq
  apply hfr.2.2.2.2.2.2.2 q
  have := (List.mem_filter.1 hq).2
  simp only [Bool.and_eq_true, bne_iff_ne, ne_eq] at this
  simp only [List.mem_cons, List.mem_singleton, List.not_mem_nil, or_false, not_or]
  exact this

/-- The theorem at a `logBattery` call that rotates: the backup of the battery
log is replaced, the boot log and the Peer configuration are as before. -/
theorem log_calls_independent_witness :
    fullBatteryCard.getFileSize LOG_FILE_BATTERY > LOG_MAX_FILE_SIZE ∧
      (run samplePlatform fullBatteryCard
        (LogCall.logBattery volts13_1 5 true true)).2.SD.files.lookup CONFIG_FILE_PEER =
          fullBatteryCard.SD.files.lookup CONFIG_FILE_PEER ∧
      (run samplePlatform fullBatteryCard
        (LogCall.logBattery volts13_1 5 true true)).2.SD.files.lookup LOG_FILE_BOOT =
          fullBatteryCard.SD.files.lookup LOG_FILE_BOOT ∧
      (run samplePlatform tenFilesCard
        (LogCall.logBootComplete 3500 true)).2.SD.files.lookup (LOG_FILE_ERROR ++ ".1") =
          some "error backup\n" :=
  have hs : fullBatteryCard.getFileSize LOG_FILE_BATTERY > LOG_MAX_FILE_SIZE := by
    rw [fullBatteryCard_size]; exact Nat.lt_succ_self _
  have h := log_calls_independent samplePlatform fullBatteryCard
    (LogCall.logBattery volts13_1 5 true true)
  have t := log_calls_independent samplePlatform tenFilesCard (LogCall.logBootComplete 3500 true)
  ⟨hs, h.2.2.2.2.2.2 _ (by decide), h.2.2.2.2.2.2 _ (by decide),
    (t.2.2.2.2.2.2 _ (by decide)).trans (by decide)⟩

end LogManager

/-! ## C21: the rotation threshold is strict -/

namespace LogManager

/-- C21: the rotation threshold is strict.  On an available backend a
`writeLine` makes no `deleteFile` and no `renameFile` call exactly when the size
read from the active file is at most 1048576 bytes; a missing file reads as 0
and a file is never read as larger than it is.  In that case the call is the
plain `appendLine` on the state before: only the active file can change, the
backup `path ++ ".1"` is what it was, and when the driver opens the file for
appending and takes the line, the call returns true and the active file is its
previous content (empty for a missing file) followed by the line and one
newline. -/
theorem writeLine_within_limit (sd : SDCardHandler) (path line : String)
    (hav : sd.isAvailable = true) :
    ((writeLineCalls sd path line).1 = [] ↔ sd.getFileSize path ≤ LOG_MAX_FILE_SIZE) ∧
      (sd.SD.files.lookup path = none → sd.getFileSize path = 0) ∧
      (∀ content, sd.SD.files.lookup path = some content →
        sd.getFileSize path ≤ content.utf8ByteSize) ∧
      (sd.getFileSize path ≤ LOG_MAX_FILE_SIZE →
        (writeLineCalls sd path line).2 = sd.appendLine path line ∧
        writeLine sd path line = sd.appendLine path line ∧
        SDCardHandler.SameExcept (writeLine sd path line).2 sd [path] ∧
        (writeLine sd path line).2.SD.files.lookup (path ++ ".1") =
          sd.SD.files.lookup (path ++ ".1") ∧
        ((path, OpenMode.FILE_APPEND) ∉ sd.SD.denied →
          (line ++ "\n").length ≤ sd.SD.quota →
          (writeLine sd path line).1 = true ∧
            (writeLine sd path line).2.SD.files.lookup path =
              some ((sd.SD.files.lookup path).getD "" ++ (line ++ "\n")))) := by
  refine ⟨?_, SDCardHandler.getFileSize_missing sd path,
    fun content hl => SDCardHandler.getFileSize_le sd path content hl, ?_⟩
  · rw [writeLineCalls_fst sd path line hav]
    exact rotateLogIfNeededCalls_nil_iff sd path
  · intro hsize
    have hw : writeLine sd path line = sd.appendLine path line := by
      rw [writeLine_available sd path line hav, rotate_small sd path hsize]
    have hfr : SDCardHandler.SameExcept (sd.appendLine path line).2 sd [path] :=
      SDCardHandler.appendFile_sameExcept sd path (line ++ "\n")
    refine ⟨?_, hw, ?_, ?_, ?_⟩
    · rw [writeLineCalls_snd, hw]
    · rw [hw]; exact hfr
    · rw [hw]
      exact hfr.2.2.2.2.2.2.2 (path ++ ".1") (by simpa using append_suffix_ne path)
    · intro happ hq
      rw [hw]
      exact SDCardHandler.appendLine_full sd path line hav happ hq

/-- The theorem at a battery log of exactly 1048576 bytes with a backup, and at
a missing boot log on the same card. -/
theorem writeLine_within_limit_witness :
    limitBatteryCard.isAvailable = true ∧
      limitBatteryCard.getFileSize LOG_FILE_BATTERY = 1048576 ∧
      (writeLineCalls limitBatteryCard LOG_FILE_BATTERY "x").1 = [] ∧
      (writeLine limitBatteryCard LOG_FILE_BATTERY "x").1 = true ∧
      (writeLine limitBatteryCard LOG_FILE_BATTERY "x").2.SD.files.lookup LOG_FILE_BATTERY =
        some (filler 1048576 ++ "x\n") ∧
      (writeLine limitBatteryCard LOG_FILE_BATTERY "x").2.SD.files.lookup
        (LOG_FILE_BATTERY ++ ".1") = some "old backup\n" ∧
      limitBatteryCard.getFileSize LOG_FILE_BOOT = 0 ∧
      (writeLineCalls limitBatteryCard LOG_FILE_BOOT "x").1 = [] ∧
      (writeLine limitBatteryCard LOG_FILE_BOOT "x").2.SD.files.lookup LOG_FILE_BOOT =
        some "x\n" ∧
      (writeLine limitBatteryCard LOG_FILE_BOOT "x").2.SD.files.lookup
        (LOG_FILE_BOOT ++ ".1") = none :=
  have hb := writeLine_within_limit limitBatteryCard LOG_FILE_BATTERY "x" rfl
  have ho := writeLine_within_limit limitBatteryCard LOG_FILE_BOOT "x" rfl
  have hs : limitBatteryCard.getFileSize LOG_FILE_BATTERY ≤ LOG_MAX_FILE_SIZE :=
    Nat.le_of_eq limitBatteryCard_size
  have h0 : limitBatteryCard.getFileSize LOG_FILE_BOOT = 0 := ho.2.1 limitBatteryCard_files.2.2.1
  have hs0 : limitBatteryCard.getFileSize LOG_FILE_BOOT ≤ LOG_MAX_FILE_SIZE := by
    rw [h0]; exact Nat.zero_le _
  have kb := (hb.2.2.2 hs).2.2.2.2 (by decide) (by decide)
  have ko := (ho.2.2.2 hs0).2.2.2.2 (by decide) (by decide)
  ⟨rfl, limitBatteryCard_size, hb.1.2 hs, kb.1,
    kb.2.trans (by rw [limitBatteryCard_files.1]; rfl),
    ((hb.2.2.2 hs).2.2.2.1).trans limitBatteryCard_files.2.1,
    h0, ho.1.2 hs0,
    ko.2.trans (by rw [limitBatteryCard_files.2.2.1]; rfl),
    ((ho.2.2.2 hs0).2.2.2.1).trans limitBatteryCard_files.2.2.2⟩

/-- One byte more and the same call rotates: the calls are the removal of the
old backup and the renaming. -/
theorem writeLine_over_limit_example :
    fullBatteryCard.getFileSize LOG_FILE_BATTERY = 1048577 ∧
      (writeLineCalls fullBatteryCard LOG_FILE_BATTERY "x").1 =
        [SDCall.deleteFile (LOG_FILE_BATTERY ++ ".1"),
          SDCall.renameFile LOG_FILE_BATTERY (LOG_FILE_BATTERY ++ ".1")] := by
  have he : fullBatteryCard.fileExists (LOG_FILE_BATTERY ++ ".1") = true := by
    have e1 : (LOG_FILE_BATTERY ++ ".1" == LOG_FILE_BATTERY) = false := by decide
    simp only [SDCardHandler.fileExists, SDClass.exists_, fullBatteryCard, List.lookup, e1,
      beq_self_eq_true]
    rfl
  have hgt : fullBatteryCard.getFileSize LOG_FILE_BATTERY > LOG_MAX_FILE_SIZE := by
    rw [fullBatteryCard_size]; exact Nat.lt_succ_self _
  refine ⟨fullBatteryCard_size, ?_⟩
  rw [writeLineCalls_fst fullBatteryCard LOG_FILE_BATTERY "x" rfl]
  rw [rotateLogIfNeededCalls_oversized fullBatteryCard LOG_FILE_BATTERY hgt, he]
  rfl

end LogManager

/-! ## C22: a failed `load` changes nothing -/

namespace ConfigManager

/-- C22: a failed `load` is atomic.  `load` returns false exactly when the
backend is unavailable, or the profile's file is missing, or its text reads as
empty, or the text does not parse; whenever it returns false the store after the
call is the store before it, Main profile, Peer profile and role; and in every
run either nothing was assigned and the result is false, or the text has parsed
and the result is true with the fields taken from that document. -/
theorem load_failure_atomic (codec : JsonCodec) (K : MainDefaults) (cm : ConfigManager)
    (sd : SDCardHandler) :
    ((load codec K cm sd).1 = false ↔
        sd.isAvailable = false ∨ sd.fileExists (configFile cm.isPeer) = false ∨
          (sd.readFileAsString (configFile cm.isPeer)).isEmpty = true ∨
          codec.deserializeJson (sd.readFileAsString (configFile cm.isPeer)) = none) ∧
      ((load codec K cm sd).1 = false →
        (load codec K cm sd).2 = cm ∧
          (load codec K cm sd).2.getMain = cm.getMain ∧
          (load codec K cm sd).2.getPeer = cm.getPeer) ∧
      (load codec K cm sd = (false, cm) ∨
        ∃ doc, codec.deserializeJson (sd.readFileAsString (configFile cm.isPeer)) = some doc ∧
          load codec K cm sd = (true, withDoc K cm doc)) := by
  refine ⟨?_, ?_, ?_⟩
  · rw [load_eq]
    cases ha : sd.isAvailable <;> cases he : sd.fileExists (configFile cm.isPeer) <;>
      cases hr : (sd.readFileAsString (configFile cm.isPeer)).isEmpty <;>
      cases hd : codec.deserializeJson (sd.readFileAsString (configFile cm.isPeer)) <;>
      simp
  · intro h
    rw [load_false codec K cm sd h]
    exact ⟨rfl, rfl, rfl⟩
  · cases h : (load codec K cm sd).1
    · exact Or.inl (load_false codec K cm sd h)
    · exact Or.inr (load_true codec K cm sd h)

/-- The theorem at an edited Peer store in the four failing situations: an
unmounted handler over a card that holds a good file, a card without the file,
an empty file, and a text that does not parse. -/
theorem load_failure_atomic_witness :
    load sampleCodec sampleDefaults editedPeer unmountedCard = (false, editedPeer) ∧
      load sampleCodec sampleDefaults editedPeer mountedBlank = (false, editedPeer) ∧
      load sampleCodec sampleDefaults editedPeer (cardWith CONFIG_FILE_PEER "") =
        (false, editedPeer) ∧
      load sampleCodec sampleDefaults editedPeer (cardWith CONFIG_FILE_PEER garbledText) =
        (false, editedPeer) ∧
      (load sampleCodec sampleDefaults editedMain (cardWith CONFIG_FILE_MAIN garbledText)).2 =
        editedMain :=
  have f1 : (load sampleCodec sampleDefaults editedPeer unmountedCard).1 = false := by decide
  have f2 : (load sampleCodec sampleDefaults editedPeer mountedBlank).1 = false := by decide
  have f3 : (load sampleCodec sampleDefaults editedPeer (cardWith CONFIG_FILE_PEER "")).1 =
      false := by decide
  have f4 : (load sampleCodec sampleDefaults editedPeer
      (cardWith CONFIG_FILE_PEER garbledText)).1 = false := by decide
  have f5 : (load sampleCodec sampleDefaults editedMain
      (cardWith CONFIG_FILE_MAIN garbledText)).1 = false := by decide
  ⟨Prod.ext f1 ((load_failure_atomic _ _ _ _).2.1 f1).1,
    Prod.ext f2 ((load_failure_atomic _ _ _ _).2.1 f2).1,
    Prod.ext f3 ((load_failure_atomic _ _ _ _).2.1 f3).1,
    Prod.ext f4 ((load_failure_atomic _ _ _ _).2.1 f4).1,
    ((load_failure_atomic _ _ _ _).2.1 f5).1⟩

/-- For contrast, a load that succeeds does assign: the same store over a card
whose file parses takes the document's fields. -/
theorem load_success_example :
    (load sampleCodec sampleDefaults editedPeer (cardWith CONFIG_FILE_PEER peerDefaultsText)).1 =
        true ∧
      (load sampleCodec sampleDefaults editedPeer
        (cardWith CONFIG_FILE_PEER peerDefaultsText)).2.peerConfig = peerDefaults := by
  decide

end ConfigManager

end Remote
